import Mathlib

/-!
# GDI+ graphics context (dlls/gdiplus/graphics.c): shallow embedding

The C code is translated function by function into pure Lean definitions.

* A `GpGraphics *` argument that may be NULL is an `Option`; a function that
  mutates the context returns the context it leaves behind.
* `REAL` (C `float`) values are rationals.  `blend_colors` rounds the result of
  every operation to binary32 (`float_round`); the other functions compute on
  the values exactly.
* Handles (`HDC`, `HWND`, `HBITMAP`, `HRGN`, `IPicture *`) are natural numbers,
  `0` being NULL.
* C enumerations are integers carrying the values of the public GDI+ headers.
* `UINT` arithmetic is written with an explicit `% 2 ^ 32`.
* The intrusive `struct list containers` is a Lean list whose head is the
  element `list_add_head` inserted last.
* Code that lives outside graphics.c (matrix.c, region.c, graphicspath.c,
  image.c, metafile.c and GDI itself) is reached through the record `Ext` of
  external operations; the region type and the state of the GDI device are type
  parameters of the development.
* `GdipAlloc` succeeds or fails as the oracle `Ext.GdipAlloc` says; freeing
  memory and the `TRACE` / `FIXME` logging have no counterpart.
* A drawing function takes the device state and returns it with its status and
  the context; what it asks of GDI is a `GdiDraw` request passed to `Ext.gdi`.
-/

namespace Gdiplus

/-! ## Scalar types and constants -/

abbrev REAL := Rat
abbrev ARGB := Nat
abbrev HDC := Nat
abbrev HWND := Nat
abbrev HBITMAP := Nat
abbrev HRGN := Nat

/-- Modulus of `UINT` / `DWORD` arithmetic. -/
def UINT_MODULUS : Nat := 2 ^ 32

/-- Status codes of the `GpStatus` enumeration, in declaration order. -/
inductive GpStatus
  | Ok
  | GenericError
  | InvalidParameter
  | OutOfMemory
  | ObjectBusy
  | InsufficientBuffer
  | NotImplemented
  | Win32Error
  | WrongState
  | Aborted
  | FileNotFound
  | ValueOverflow
  | AccessDenied
  | UnknownImageFormat
  | FontFamilyNotFound
  | FontStyleNotFound
  | NotTrueTypeFont
  | UnsupportedGdiplusVersion
  | GdiplusNotInitialized
  | PropertyNotFound
  | PropertyNotSupported
  | ProfileNotFound
  deriving DecidableEq

open GpStatus

def InterpolationModeInvalid : Int := -1
def InterpolationModeDefault : Int := 0
def InterpolationModeLowQuality : Int := 1
def InterpolationModeHighQuality : Int := 2
def InterpolationModeBilinear : Int := 3
def InterpolationModeBicubic : Int := 4
def InterpolationModeNearestNeighbor : Int := 5
def InterpolationModeHighQualityBilinear : Int := 6
def InterpolationModeHighQualityBicubic : Int := 7

def SmoothingModeDefault : Int := 0
def CompositingQualityDefault : Int := 0
def PixelOffsetModeDefault : Int := 0
def CompositingModeSourceOver : Int := 0
def TextRenderingHintClearTypeGridFit : Int := 5

def UnitWorld : Int := 0
def UnitDisplay : Int := 1
def UnitPixel : Int := 2

def ImageTypeUnknown : Int := 0
def ImageTypeBitmap : Int := 1
def ImageTypeMetafile : Int := 2

def PixelFormatAlpha : Nat := 0x00040000

def BrushTypeSolidColor : Int := 0
def BrushTypeHatchFill : Int := 1
def BrushTypeTextureFill : Int := 2
def BrushTypePathGradient : Int := 3
def BrushTypeLinearGradient : Int := 4

def FillModeAlternate : Int := 0
def FillModeWinding : Int := 1

def CombineModeReplace : Int := 0
def CombineModeIntersect : Int := 1

def CoordinateSpaceWorld : Int := 0
def CoordinateSpacePage : Int := 1
def CoordinateSpaceDevice : Int := 2

def PathPointTypeStart : Nat := 0
def PathPointTypeLine : Nat := 1
def PathPointTypeBezier : Nat := 3
def PathPointTypePathTypeMask : Nat := 7

/-- Colour that `GdipGetDC` paints into the temporary bitmap it hands out. -/
def DC_BACKGROUND_KEY : Nat := 0x0c0b0d

/-! ## Data model -/

/-- The affine matrix `REAL matrix[6]`. -/
structure GpMatrix where
  matrix0 : REAL
  matrix1 : REAL
  matrix2 : REAL
  matrix3 : REAL
  matrix4 : REAL
  matrix5 : REAL
  deriving DecidableEq

structure GpPointF where
  X : REAL
  Y : REAL
  deriving DecidableEq

structure GpPoint where
  X : Int
  Y : Int
  deriving DecidableEq

structure GpRectF where
  X : REAL
  Y : REAL
  Width : REAL
  Height : REAL
  deriving DecidableEq

structure GpRect where
  X : Int
  Y : Int
  Width : Int
  Height : Int
  deriving DecidableEq

/-- The fields of `GpImage` / `GpBitmap` that graphics.c reads.  `bits` holds the
pixels of a bitmap as 32-bit ARGB values, row by row (`width * height` of them). -/
structure GpImage where
  type : Int
  picture : Nat
  xres : REAL
  yres : REAL
  width : Int
  height : Int
  format : Nat
  hbitmap : HBITMAP
  hdc : HDC
  bits : List ARGB
  deriving DecidableEq

structure PathData where
  Count : Int
  Points : List GpPointF
  Types : List Nat
  deriving DecidableEq

structure GpPath where
  fill : Int
  pathdata : PathData
  deriving DecidableEq

/-- The saved state of `struct _GraphicsContainerItem` (the list link apart). -/
structure GraphicsContainerItem (Rgn : Type) where
  contid : Nat
  smoothing : Int
  compqual : Int
  interpolation : Int
  compmode : Int
  texthint : Int
  scale : REAL
  unit : Int
  pixeloffset : Int
  textcontrast : Nat
  worldtrans : GpMatrix
  clip : Rgn
  origin_x : Int
  origin_y : Int
  deriving DecidableEq

/-- The graphics context `struct GpGraphics`. -/
structure GpGraphics (Rgn : Type) where
  hdc : HDC
  hwnd : HWND
  owndc : Bool
  image : Option GpImage
  smoothing : Int
  compqual : Int
  interpolation : Int
  pixeloffset : Int
  compmode : Int
  texthint : Int
  unit : Int
  scale : REAL
  xres : REAL
  yres : REAL
  worldtrans : GpMatrix
  busy : Bool
  clip : Rgn
  textcontrast : Nat
  containers : List (GraphicsContainerItem Rgn)
  contid : Nat
  origin_x : Int
  origin_y : Int
  temp_hbitmap : HBITMAP
  temp_hbitmap_width : Int
  temp_hbitmap_height : Int
  temp_bits : List Nat
  temp_hdc : HDC
  deriving DecidableEq

/-! ## Pens and brushes -/

structure GpSolidFill where
  color : ARGB
  deriving DecidableEq

structure GpHatch where
  hatchstyle : Int
  forecol : ARGB
  backcol : ARGB
  deriving DecidableEq

structure GpLineGradient where
  startpoint : GpPointF
  endpoint : GpPointF
  startcolor : ARGB
  endcolor : ARGB
  wrap : Int
  blendcount : Int
  blendfac : List REAL
  blendpos : List REAL
  pblendcount : Int
  pblendcolor : List ARGB
  pblendpos : List REAL
  deriving DecidableEq

structure color_key where
  enabled : Bool
  low : ARGB
  high : ARGB
  deriving DecidableEq

structure color_remap_table where
  enabled : Bool
  mapsize : Int
  colormap : List (ARGB × ARGB)
  deriving DecidableEq

structure color_matrix where
  enabled : Bool
  flags : Int
  colormatrix : List (List REAL)
  graymatrix : List (List REAL)
  deriving DecidableEq

/-- The fields of `GpImageAttributes`; the per-category arrays are lists indexed
by the `ColorAdjustType`. -/
structure GpImageAttributes where
  wrap : Int
  outside_color : ARGB
  clamp : Bool
  colorkeys : List color_key
  colorremaptables : List color_remap_table
  colormatrices : List color_matrix
  gamma_enabled : List Bool
  gamma : List REAL
  deriving DecidableEq

structure GpTexture where
  image : GpImage
  transform : GpMatrix
  imageattributes : GpImageAttributes
  bitmap_bits : Option (List ARGB)
  deriving DecidableEq

structure GpPathGradient where
  path : GpPath
  center : GpPointF
  centercolor : ARGB
  focus : GpPointF
  gamma : Bool
  blendcount : Int
  pblendcount : Int
  transform : GpMatrix
  surroundcolors : List ARGB
  surroundcolorcount : Int
  deriving DecidableEq

/-- A brush: the C code switches on `brush->bt` and casts to the matching
structure.  `Unknown` stands for a brush whose `bt` is none of the five brush
kinds, the `default` case of every switch. -/
inductive GpBrush
  | SolidFill (fill : GpSolidFill)
  | Hatch (fill : GpHatch)
  | Texture (fill : GpTexture)
  | PathGradient (fill : GpPathGradient)
  | LineGradient (fill : GpLineGradient)
  | Unknown (bt : Int)
  deriving DecidableEq

/-- The tag `brush->bt`. -/
def GpBrush.bt : GpBrush → Int
  | .SolidFill _ => BrushTypeSolidColor
  | .Hatch _ => BrushTypeHatchFill
  | .Texture _ => BrushTypeTextureFill
  | .PathGradient _ => BrushTypePathGradient
  | .LineGradient _ => BrushTypeLinearGradient
  | .Unknown bt => bt

structure GpCustomLineCap where
  pathdata : PathData
  fill : Bool
  inset : REAL
  deriving DecidableEq

structure GpPen where
  style : Nat
  unit : Int
  width : REAL
  endcap : Int
  startcap : Int
  customstart : Option GpCustomLineCap
  customend : Option GpCustomLineCap
  dash : Int
  numdashes : Int
  dashes : List REAL
  brush : GpBrush
  deriving DecidableEq

/-- A Win32 `RECT`. -/
structure RECT where
  left : Int
  top : Int
  right : Int
  bottom : Int
  deriving DecidableEq

/-! ## External operations -/

def MatrixOrderAppend : Int := 1

/-- Indices of `GetDeviceCaps`. -/
def HORZRES : Int := 8
def VERTRES : Int := 10

/-- Return value of `GetRgnBox` / `GetClipBox` for an empty region. -/
def NULLREGION : Int := 1

/-- A request made to GDI.  The rendering requests stand for the GDI calls an
entry point makes once its argument and busy checks have passed (pen set-up,
line caps, rounding of the coordinates to device pixels and the drawing call);
the others are the device-context bookkeeping calls. -/
inductive GdiDraw
  | Arc (pen : GpPen) (x y width height startAngle sweepAngle : REAL)
  | PolyBezier (pen : GpPen) (pt : List GpPointF) (count : Int)
  | Curve (pen : GpPen) (pt : List GpPointF) (count : Int) (tension : REAL)
  | Polyline (pen : GpPen) (pt : List GpPointF) (count : Int)
  | Ellipse (pen : GpPen) (x y width height : REAL)
  | Pie (pen : GpPen) (x y width height startAngle sweepAngle : REAL)
  | Polygon (pen : GpPen) (pt : List GpPointF) (count : Int)
  | Rectangles (pen : GpPen) (rects : List GpRectF) (count : Int)
  | PrepareDC (pen : GpPen)
  | RestoreDC
  | SaveDC
  | BeginPath (fill : Int)
  | EndCap (pen : Option GpPen) (pt : List GpPointF) (types : List Nat) (count : Int)
  | StartCap (pen : Option GpPen) (pt : List GpPointF) (types : List Nat) (count : Int)
  | PolyDraw (pen : Option GpPen) (pt : List GpPointF) (types : List Nat) (count : Int)
      (caps : Bool)
  | PictureRender (image : GpImage) (pt : List GpPointF) (srcx srcy srcwidth srcheight : REAL)
  | BitmapBlit (image : GpImage) (pt : List GpPointF) (srcx srcy srcwidth srcheight : REAL)
  | BrushFillPath (brush : GpBrush)
  | BrushFillRegion (brush : GpBrush) (hrgn : HRGN)
  | ExtSelectClipRgn (hrgn : HRGN)
  | AlphaBlend (dst_x dst_y : Int) (src : List ARGB) (src_offset : Int)
      (src_width src_height src_stride : Int)
  | SelectObject (hdc : HDC) (obj : Nat)
  | DeleteDC (hdc : HDC)
  | DeleteObject (obj : Nat)
  | CapObjects (color : Nat) (select : Bool)
  | CapPolygon (pt : List GpPoint)
  | CapEllipse (pt : List GpPoint)
  | CapPie (pt : List GpPoint)
  | CapCustom (custom : GpCustomLineCap) (size theta x2 y2 : REAL)
  deriving DecidableEq

/-- Operations implemented outside graphics.c.  `Rgn` is the type of `GpRegion`
values and `Dev` the state of the GDI device contexts.  An operation that can
fail returns its status together with the value it leaves in its out argument. -/
structure Ext (Rgn : Type) (Dev : Type) where
  /-- Whether `GdipAlloc` of the given number of bytes returns non-NULL. -/
  GdipAlloc : Int → Bool
  GdipCreateMatrix : GpStatus × GpMatrix
  GdipCloneMatrix : GpMatrix → GpStatus × GpMatrix
  GdipInvertMatrix : GpMatrix → GpStatus × GpMatrix
  GdipRotateMatrix : GpMatrix → REAL → Int → GpStatus × GpMatrix
  GdipScaleMatrix : GpMatrix → REAL → REAL → Int → GpStatus × GpMatrix
  GdipTranslateMatrix : GpMatrix → REAL → REAL → Int → GpStatus × GpMatrix
  GdipMultiplyMatrix : GpMatrix → GpMatrix → Int → GpStatus × GpMatrix
  GdipCloneRegion : Rgn → GpStatus × Rgn
  GdipCombineRegionRegion : Rgn → Rgn → Int → GpStatus × Rgn
  GdipCombineRegionRect : Rgn → GpRectF → Int → GpStatus × Rgn
  GdipCombineRegionPath : Rgn → Option GpPath → Int → GpStatus × Rgn
  GdipCreateRegionHrgn : HRGN → GpStatus × Rgn
  GdipCreateRegionPath : GpPath → GpStatus × Rgn
  /-- External `GdipCreateRegion` of region.c: the status and the new (infinite) region. -/
  GdipCreateRegion : GpStatus × Rgn
  GdipSetInfinite : Rgn → GpStatus × Rgn
  GdipTranslateRegion : Rgn → REAL → REAL → GpStatus × Rgn
  GdipTransformRegion : Rgn → GpMatrix → GpStatus × Rgn
  GdipGetRegionHRgn : Rgn → Option (GpGraphics Rgn) → Dev → GpStatus × HRGN
  GdipCreatePath : Int → GpStatus × GpPath
  GdipAddPathRectangle : GpPath → REAL → REAL → REAL → REAL → GpStatus × GpPath
  GdipAddPathEllipse : GpPath → REAL → REAL → REAL → REAL → GpStatus × GpPath
  GdipAddPathPie : GpPath → REAL → REAL → REAL → REAL → REAL → REAL → GpStatus × GpPath
  GdipAddPathPolygon : GpPath → List GpPointF → Int → GpStatus × GpPath
  GdipAddPathClosedCurve2 : GpPath → List GpPointF → Int → REAL → GpStatus × GpPath
  GdipCreateSolidFill : ARGB → GpStatus × GpSolidFill
  GdipGetImageBounds : GpImage → GpStatus × GpRectF × Int
  GdipTransformMatrixPoints : GpMatrix → List GpPointF → Int → GpStatus × List GpPointF
  /-- External `units_to_pixels (units, unit, dpi)` of the private header. -/
  units_to_pixels : REAL → Int → REAL → REAL
  /-- External `gdip_round` of the private header. -/
  gdip_round : REAL → Int
  METAFILE_GetDC : GpImage → Dev → GpStatus × HDC × Dev
  METAFILE_ReleaseDC : GpImage → HDC → Dev → GpStatus × Dev
  /-- External `GetClientRect`: `none` when the call fails. -/
  GetClientRect : HWND → Dev → Option RECT
  GetDeviceCaps : HDC → Int → Dev → Int
  /-- External `WindowFromDC`. -/
  WindowFromDC : HDC → Dev → HWND
  /-- External `CreateDIBSection` of a 32-bit bitmap of the given width and height
  (`GdipGetDC` asks for a top-down one, `create_hatch_bitmap` for a bottom-up one):
  the handle (0 on failure). -/
  CreateDIBSection : Int → Int → Dev → HBITMAP × Dev
  CreateCompatibleDC : Dev → HDC × Dev
  /-- The pixels of a leased temporary bitmap, as GDI drawing left them, given
  the pixels it was created with. -/
  ReadDIBits : HBITMAP → List Nat → Dev → List Nat
  /-- External `GetRgnBox`: the region kind and the bounding box. -/
  GetRgnBox : HRGN → Dev → Int × RECT
  /-- The rectangles `GetRegionData` enumerates for a region handle. -/
  GetRegionData : HRGN → Dev → List RECT
  /-- The hatch pattern table of brush.c (`get_hatch_data`): the eight row bytes of
  a supported style. -/
  get_hatch_data : Int → Option (List Nat)
  /-- The blend of a foreground colour over a background colour, `color_over (bg, fg)`
  of the private header. -/
  color_over : ARGB → ARGB → ARGB
  /-- The rasters of `brush_fill_pixels` for gradient and texture brushes: the
  status and the pixel buffer, given the buffer before the call. -/
  brush_raster : GpGraphics Rgn → GpBrush → GpRect → Int → List ARGB → GpStatus × List ARGB
  /-- The resample-and-blend route of `GdipDrawImagePointsRect`. -/
  draw_image_software : GpGraphics Rgn → GpImage → List GpPointF → REAL → REAL → REAL → REAL →
    Option GpImageAttributes → Dev → GpStatus × GpGraphics Rgn × Dev
  /-- A request handed to GDI: the status it reports and the device afterwards. -/
  gdi : GdiDraw → GpGraphics Rgn → Dev → GpStatus × Dev

section Model

variable {Rgn Dev : Type}

/-! ## Containers (graphics.c 1955-2056, 5311-5409) -/

/-- Byte size handed to `GdipAlloc` for a container item (i386 layout); it only
indexes the allocation oracle. -/
def sizeof_GraphicsContainerItem : Int := 64

/-- Embedding of `init_container`: snapshot of the context under the id `contid + 1`. -/
def init_container (ext : Ext Rgn Dev) (graphics : GpGraphics Rgn) :
    GpStatus × Option (GraphicsContainerItem Rgn) :=
  if !ext.GdipAlloc sizeof_GraphicsContainerItem then (OutOfMemory, none)
  else
    let m := ext.GdipCloneMatrix graphics.worldtrans
    if m.1 ≠ Ok then (m.1, none)
    else
      let r := ext.GdipCloneRegion graphics.clip
      if r.1 ≠ Ok then (r.1, none)
      else
        (Ok, some
          { contid := (graphics.contid + 1) % UINT_MODULUS
            smoothing := graphics.smoothing
            compqual := graphics.compqual
            interpolation := graphics.interpolation
            compmode := graphics.compmode
            texthint := graphics.texthint
            scale := graphics.scale
            unit := graphics.unit
            textcontrast := graphics.textcontrast
            pixeloffset := graphics.pixeloffset
            origin_x := graphics.origin_x
            origin_y := graphics.origin_y
            worldtrans := m.2
            clip := r.2 })

/-- Embedding of `restore_container`: copy a snapshot back into the context. -/
def restore_container (ext : Ext Rgn Dev) (graphics : GpGraphics Rgn)
    (container : GraphicsContainerItem Rgn) : GpStatus × GpGraphics Rgn :=
  let newTrans := ext.GdipCloneMatrix container.worldtrans
  if newTrans.1 ≠ Ok then (newTrans.1, graphics)
  else
    let newClip := ext.GdipCloneRegion container.clip
    if newClip.1 ≠ Ok then (newClip.1, graphics)
    else
      (Ok,
        { graphics with
          worldtrans := newTrans.2
          clip := newClip.2
          contid := (container.contid + UINT_MODULUS - 1) % UINT_MODULUS
          smoothing := container.smoothing
          compqual := container.compqual
          interpolation := container.interpolation
          compmode := container.compmode
          texthint := container.texthint
          scale := container.scale
          unit := container.unit
          textcontrast := container.textcontrast
          pixeloffset := container.pixeloffset
          origin_x := container.origin_x
          origin_y := container.origin_y })

/-- Embedding of `GdipBeginContainer2`; `state` is the out pointer (`none` for NULL) and the
third component the value stored through it. -/
def GdipBeginContainer2 (ext : Ext Rgn Dev) (graphics : Option (GpGraphics Rgn))
    (state : Option Nat) :
    GpStatus × Option (GpGraphics Rgn) × Option Nat :=
  match graphics, state with
  | some g, some s =>
    match init_container ext g with
    | (Ok, some container) =>
      (Ok, some { g with containers := container :: g.containers, contid := container.contid },
        some container.contid)
    | (sts, _) => (sts, some g, some s)
  | _, _ => (InvalidParameter, graphics, state)

/-- Embedding of `GdipSaveGraphics`. -/
def GdipSaveGraphics (ext : Ext Rgn Dev) (graphics : Option (GpGraphics Rgn))
    (state : Option Nat) :
    GpStatus × Option (GpGraphics Rgn) × Option Nat :=
  GdipBeginContainer2 ext graphics state

/-- First loop of `GdipEndContainer`: the first container whose id is `state`. -/
def find_container (state : Nat) :
    List (GraphicsContainerItem Rgn) → Option (GraphicsContainerItem Rgn)
  | [] => none
  | container :: rest =>
    if container.contid = state then some container else find_container state rest

/-- Second loop of `GdipEndContainer`: unlink the containers in front of the one
whose id is `state`. -/
def remove_containers_on_top (state : Nat) :
    List (GraphicsContainerItem Rgn) → List (GraphicsContainerItem Rgn)
  | [] => []
  | container :: rest =>
    if container.contid = state then container :: rest
    else remove_containers_on_top state rest

/-- Embedding of `GdipEndContainer`. -/
def GdipEndContainer (ext : Ext Rgn Dev) (graphics : Option (GpGraphics Rgn))
    (state : Nat) : GpStatus × Option (GpGraphics Rgn) :=
  match graphics with
  | none => (InvalidParameter, none)
  | some g =>
    match find_container state g.containers with
    | none => (Ok, some g)
    | some container =>
      let r := restore_container ext g container
      if r.1 ≠ Ok then (r.1, some r.2)
      else
        (Ok, some { r.2 with
          containers := (remove_containers_on_top state r.2.containers).drop 1 })

/-- Embedding of `GdipRestoreGraphics`. -/
def GdipRestoreGraphics (ext : Ext Rgn Dev) (graphics : Option (GpGraphics Rgn))
    (state : Nat) : GpStatus × Option (GpGraphics Rgn) :=
  GdipEndContainer ext graphics state

/-! ## State setters -/

def GdipResetWorldTransform (graphics : Option (GpGraphics Rgn)) :
    GpStatus × Option (GpGraphics Rgn) :=
  match graphics with
  | none => (InvalidParameter, none)
  | some g =>
    if g.busy then (ObjectBusy, some g)
    else (Ok, some { g with worldtrans := ⟨1, 0, 0, 1, 0, 0⟩ })

def GdipRotateWorldTransform (ext : Ext Rgn Dev) (graphics : Option (GpGraphics Rgn))
    (angle : REAL) (order : Int) : GpStatus × Option (GpGraphics Rgn) :=
  match graphics with
  | none => (InvalidParameter, none)
  | some g =>
    if g.busy then (ObjectBusy, some g)
    else
      let r := ext.GdipRotateMatrix g.worldtrans angle order
      (r.1, some { g with worldtrans := r.2 })

def GdipScaleWorldTransform (ext : Ext Rgn Dev) (graphics : Option (GpGraphics Rgn))
    (sx sy : REAL) (order : Int) : GpStatus × Option (GpGraphics Rgn) :=
  match graphics with
  | none => (InvalidParameter, none)
  | some g =>
    if g.busy then (ObjectBusy, some g)
    else
      let r := ext.GdipScaleMatrix g.worldtrans sx sy order
      (r.1, some { g with worldtrans := r.2 })

def GdipTranslateWorldTransform (ext : Ext Rgn Dev) (graphics : Option (GpGraphics Rgn))
    (dx dy : REAL) (order : Int) : GpStatus × Option (GpGraphics Rgn) :=
  match graphics with
  | none => (InvalidParameter, none)
  | some g =>
    if g.busy then (ObjectBusy, some g)
    else
      let r := ext.GdipTranslateMatrix g.worldtrans dx dy order
      (r.1, some { g with worldtrans := r.2 })

def GdipMultiplyWorldTransform (ext : Ext Rgn Dev) (graphics : Option (GpGraphics Rgn))
    (matrix : Option GpMatrix) (order : Int) : GpStatus × Option (GpGraphics Rgn) :=
  match graphics, matrix with
  | some g, some mat =>
    if g.busy then (ObjectBusy, some g)
    else
      let r := ext.GdipMultiplyMatrix g.worldtrans mat order
      if r.1 = Ok then (r.1, some { g with worldtrans := r.2 }) else (r.1, some g)
  | _, _ => (InvalidParameter, graphics)

def GdipSetWorldTransform (ext : Ext Rgn Dev) (graphics : Option (GpGraphics Rgn))
    (matrix : Option GpMatrix) : GpStatus × Option (GpGraphics Rgn) :=
  match graphics, matrix with
  | some g, some mat =>
    if g.busy then (ObjectBusy, some g)
    else
      let r := ext.GdipCloneMatrix mat
      (r.1, some { g with worldtrans := r.2 })
  | _, _ => (InvalidParameter, graphics)

def GdipSetCompositingMode (graphics : Option (GpGraphics Rgn)) (mode : Int) :
    GpStatus × Option (GpGraphics Rgn) :=
  match graphics with
  | none => (InvalidParameter, none)
  | some g =>
    if g.busy then (ObjectBusy, some g) else (Ok, some { g with compmode := mode })

def GdipSetCompositingQuality (graphics : Option (GpGraphics Rgn)) (quality : Int) :
    GpStatus × Option (GpGraphics Rgn) :=
  match graphics with
  | none => (InvalidParameter, none)
  | some g =>
    if g.busy then (ObjectBusy, some g) else (Ok, some { g with compqual := quality })

def GdipSetInterpolationMode (graphics : Option (GpGraphics Rgn)) (mode : Int) :
    GpStatus × Option (GpGraphics Rgn) :=
  match graphics with
  | none => (InvalidParameter, none)
  | some g =>
    if mode = InterpolationModeInvalid ∨ mode > InterpolationModeHighQualityBicubic then
      (InvalidParameter, some g)
    else if g.busy then (ObjectBusy, some g)
    else
      let mode1 :=
        if mode = InterpolationModeDefault ∨ mode = InterpolationModeLowQuality then
          InterpolationModeBilinear
        else mode
      let mode2 :=
        if mode1 = InterpolationModeHighQuality then InterpolationModeHighQualityBicubic
        else mode1
      (Ok, some { g with interpolation := mode2 })

def GdipSetPageScale (graphics : Option (GpGraphics Rgn)) (scale : REAL) :
    GpStatus × Option (GpGraphics Rgn) :=
  match graphics with
  | none => (InvalidParameter, none)
  | some g =>
    if scale ≤ 0 then (InvalidParameter, some g)
    else if g.busy then (ObjectBusy, some g)
    else (Ok, some { g with scale := scale })

def GdipSetPageUnit (graphics : Option (GpGraphics Rgn)) (unit : Int) :
    GpStatus × Option (GpGraphics Rgn) :=
  match graphics with
  | none => (InvalidParameter, none)
  | some g =>
    if g.busy then (ObjectBusy, some g)
    else if unit = UnitWorld then (InvalidParameter, some g)
    else (Ok, some { g with unit := unit })

def GdipSetPixelOffsetMode (graphics : Option (GpGraphics Rgn)) (mode : Int) :
    GpStatus × Option (GpGraphics Rgn) :=
  match graphics with
  | none => (InvalidParameter, none)
  | some g =>
    if g.busy then (ObjectBusy, some g) else (Ok, some { g with pixeloffset := mode })

def GdipSetRenderingOrigin (graphics : Option (GpGraphics Rgn)) (x y : Int) :
    GpStatus × Option (GpGraphics Rgn) :=
  match graphics with
  | none => (InvalidParameter, none)
  | some g => (Ok, some { g with origin_x := x, origin_y := y })

def GdipSetSmoothingMode (graphics : Option (GpGraphics Rgn)) (mode : Int) :
    GpStatus × Option (GpGraphics Rgn) :=
  match graphics with
  | none => (InvalidParameter, none)
  | some g =>
    if g.busy then (ObjectBusy, some g) else (Ok, some { g with smoothing := mode })

def GdipSetTextContrast (graphics : Option (GpGraphics Rgn)) (contrast : Nat) :
    GpStatus × Option (GpGraphics Rgn) :=
  match graphics with
  | none => (InvalidParameter, none)
  | some g => (Ok, some { g with textcontrast := contrast })

def GdipSetTextRenderingHint (graphics : Option (GpGraphics Rgn)) (hint : Int) :
    GpStatus × Option (GpGraphics Rgn) :=
  match graphics with
  | none => (InvalidParameter, none)
  | some g =>
    if hint > TextRenderingHintClearTypeGridFit then (InvalidParameter, some g)
    else if g.busy then (ObjectBusy, some g)
    else (Ok, some { g with texthint := hint })

/-! ## Clip setters (graphics.c 5278-5289, 5425-5434, 5648-5730, 6139-6166) -/

def GdipResetClip (ext : Ext Rgn Dev) (graphics : Option (GpGraphics Rgn)) :
    GpStatus × Option (GpGraphics Rgn) :=
  match graphics with
  | none => (InvalidParameter, none)
  | some g =>
    if g.busy then (ObjectBusy, some g)
    else
      let r := ext.GdipSetInfinite g.clip
      (r.1, some { g with clip := r.2 })

/-- Embedding of `GdipSetClipGraphics`: the source has no busy check. -/
def GdipSetClipGraphics (ext : Ext Rgn Dev) (graphics srcgraphics : Option (GpGraphics Rgn))
    (mode : Int) : GpStatus × Option (GpGraphics Rgn) :=
  match graphics, srcgraphics with
  | some g, some src =>
    let r := ext.GdipCombineRegionRegion g.clip src.clip mode
    (r.1, some { g with clip := r.2 })
  | _, _ => (InvalidParameter, graphics)

def GdipSetClipRegion (ext : Ext Rgn Dev) (graphics : Option (GpGraphics Rgn))
    (region : Option Rgn) (mode : Int) : GpStatus × Option (GpGraphics Rgn) :=
  match graphics, region with
  | some g, some rgn =>
    if g.busy then (ObjectBusy, some g)
    else
      let r := ext.GdipCombineRegionRegion g.clip rgn mode
      (r.1, some { g with clip := r.2 })
  | _, _ => (InvalidParameter, graphics)

def GdipSetClipHrgn (ext : Ext Rgn Dev) (graphics : Option (GpGraphics Rgn))
    (hrgn : HRGN) (mode : Int) : GpStatus × Option (GpGraphics Rgn) :=
  match graphics with
  | none => (InvalidParameter, none)
  | some g =>
    let region := ext.GdipCreateRegionHrgn hrgn
    if region.1 ≠ Ok then (region.1, some g)
    else GdipSetClipRegion ext (some g) (some region.2) mode

def GdipSetClipPath (ext : Ext Rgn Dev) (graphics : Option (GpGraphics Rgn))
    (path : Option GpPath) (mode : Int) : GpStatus × Option (GpGraphics Rgn) :=
  match graphics with
  | none => (InvalidParameter, none)
  | some g =>
    if g.busy then (ObjectBusy, some g)
    else
      let r := ext.GdipCombineRegionPath g.clip path mode
      (r.1, some { g with clip := r.2 })

def GdipSetClipRect (ext : Ext Rgn Dev) (graphics : Option (GpGraphics Rgn))
    (x y width height : REAL) (mode : Int) : GpStatus × Option (GpGraphics Rgn) :=
  match graphics with
  | none => (InvalidParameter, none)
  | some g =>
    if g.busy then (ObjectBusy, some g)
    else
      let rect : GpRectF := { X := x, Y := y, Width := width, Height := height }
      let r := ext.GdipCombineRegionRect g.clip rect mode
      (r.1, some { g with clip := r.2 })

def GdipSetClipRectI (ext : Ext Rgn Dev) (graphics : Option (GpGraphics Rgn))
    (x y width height : Int) (mode : Int) : GpStatus × Option (GpGraphics Rgn) :=
  match graphics with
  | none => (InvalidParameter, none)
  | some g =>
    if g.busy then (ObjectBusy, some g)
    else GdipSetClipRect ext (some g) (x : REAL) (y : REAL) (width : REAL) (height : REAL) mode

def GdipTranslateClip (ext : Ext Rgn Dev) (graphics : Option (GpGraphics Rgn))
    (dx dy : REAL) : GpStatus × Option (GpGraphics Rgn) :=
  match graphics with
  | none => (InvalidParameter, none)
  | some g =>
    if g.busy then (ObjectBusy, some g)
    else
      let r := ext.GdipTranslateRegion g.clip dx dy
      (r.1, some { g with clip := r.2 })

def GdipTranslateClipI (ext : Ext Rgn Dev) (graphics : Option (GpGraphics Rgn))
    (dx dy : Int) : GpStatus × Option (GpGraphics Rgn) :=
  match graphics with
  | none => (InvalidParameter, none)
  | some g =>
    if g.busy then (ObjectBusy, some g)
    else
      let r := ext.GdipTranslateRegion g.clip (dx : REAL) (dy : REAL)
      (r.1, some { g with clip := r.2 })

/-! ## Sequences of state setters -/

/-- One call of a state setter of the context, with its arguments. -/
inductive StateSetter (Rgn : Type)
  | ResetWorldTransform
  | RotateWorldTransform (angle : REAL) (order : Int)
  | ScaleWorldTransform (sx sy : REAL) (order : Int)
  | TranslateWorldTransform (dx dy : REAL) (order : Int)
  | MultiplyWorldTransform (matrix : Option GpMatrix) (order : Int)
  | SetWorldTransform (matrix : Option GpMatrix)
  | ResetClip
  | SetClipGraphics (srcgraphics : Option (GpGraphics Rgn)) (mode : Int)
  | SetClipRegion (region : Option Rgn) (mode : Int)
  | SetClipHrgn (hrgn : HRGN) (mode : Int)
  | SetClipPath (path : Option GpPath) (mode : Int)
  | SetClipRect (x y width height : REAL) (mode : Int)
  | SetClipRectI (x y width height : Int) (mode : Int)
  | TranslateClip (dx dy : REAL)
  | TranslateClipI (dx dy : Int)
  | SetPageUnit (unit : Int)
  | SetPageScale (scale : REAL)
  | SetSmoothingMode (mode : Int)
  | SetInterpolationMode (mode : Int)
  | SetCompositingMode (mode : Int)
  | SetCompositingQuality (quality : Int)
  | SetTextRenderingHint (hint : Int)
  | SetTextContrast (contrast : Nat)
  | SetPixelOffsetMode (mode : Int)
  | SetRenderingOrigin (x y : Int)

/-- Dispatch of one setter call on a (possibly NULL) context. -/
def call_setter (ext : Ext Rgn Dev) (graphics : Option (GpGraphics Rgn)) :
    StateSetter Rgn → GpStatus × Option (GpGraphics Rgn)
  | .ResetWorldTransform => GdipResetWorldTransform graphics
  | .RotateWorldTransform angle order => GdipRotateWorldTransform ext graphics angle order
  | .ScaleWorldTransform sx sy order => GdipScaleWorldTransform ext graphics sx sy order
  | .TranslateWorldTransform dx dy order => GdipTranslateWorldTransform ext graphics dx dy order
  | .MultiplyWorldTransform matrix order => GdipMultiplyWorldTransform ext graphics matrix order
  | .SetWorldTransform matrix => GdipSetWorldTransform ext graphics matrix
  | .ResetClip => GdipResetClip ext graphics
  | .SetClipGraphics srcgraphics mode => GdipSetClipGraphics ext graphics srcgraphics mode
  | .SetClipRegion region mode => GdipSetClipRegion ext graphics region mode
  | .SetClipHrgn hrgn mode => GdipSetClipHrgn ext graphics hrgn mode
  | .SetClipPath path mode => GdipSetClipPath ext graphics path mode
  | .SetClipRect x y width height mode => GdipSetClipRect ext graphics x y width height mode
  | .SetClipRectI x y width height mode => GdipSetClipRectI ext graphics x y width height mode
  | .TranslateClip dx dy => GdipTranslateClip ext graphics dx dy
  | .TranslateClipI dx dy => GdipTranslateClipI ext graphics dx dy
  | .SetPageUnit unit => GdipSetPageUnit graphics unit
  | .SetPageScale scale => GdipSetPageScale graphics scale
  | .SetSmoothingMode mode => GdipSetSmoothingMode graphics mode
  | .SetInterpolationMode mode => GdipSetInterpolationMode graphics mode
  | .SetCompositingMode mode => GdipSetCompositingMode graphics mode
  | .SetCompositingQuality quality => GdipSetCompositingQuality graphics quality
  | .SetTextRenderingHint hint => GdipSetTextRenderingHint graphics hint
  | .SetTextContrast contrast => GdipSetTextContrast graphics contrast
  | .SetPixelOffsetMode mode => GdipSetPixelOffsetMode graphics mode
  | .SetRenderingOrigin x y => GdipSetRenderingOrigin graphics x y

/-- The context after a sequence of setter calls, whatever status each returned. -/
def call_setters (ext : Ext Rgn Dev) (graphics : Option (GpGraphics Rgn)) :
    List (StateSetter Rgn) → Option (GpGraphics Rgn)
  | [] => graphics
  | s :: rest => call_setters ext (call_setter ext graphics s).2 rest

/-! ## Sequences of container calls -/

/-- One `GdipBeginContainer2` or `GdipEndContainer` call. -/
inductive ContainerCall
  | Begin
  | End (state : Nat)
  deriving DecidableEq

/-- One container call: the context left behind and, for a successful
`GdipBeginContainer2`, the id it returned. -/
def call_container (ext : Ext Rgn Dev) (graphics : Option (GpGraphics Rgn)) :
    ContainerCall → Option (GpGraphics Rgn) × Option Nat
  | .Begin =>
    let r := GdipBeginContainer2 ext graphics (some 0)
    (r.2.1, if r.1 = Ok then r.2.2 else none)
  | .End state => ((GdipEndContainer ext graphics state).2, none)

/-- A sequence of container calls: the final context and the ids returned by the
successful `GdipBeginContainer2` calls, in call order. -/
def call_containers (ext : Ext Rgn Dev) (graphics : Option (GpGraphics Rgn)) :
    List ContainerCall → Option (GpGraphics Rgn) × List Nat
  | [] => (graphics, [])
  | c :: rest =>
    let r := call_container ext graphics c
    let rs := call_containers ext r.1 rest
    (rs.1, r.2.toList ++ rs.2)

/-! ## Pixel access and compositing (graphics.c 359-475) -/

/-- Modelled from the spec: `GdipBitmapGetPixel` of image.c, the get-pixel
primitive of an in-memory destination (spec section 6), for a bitmap that stores
32-bit ARGB pixels: coordinates outside the bitmap are rejected. -/
def GdipBitmapGetPixel (bitmap : GpImage) (x y : Int) : GpStatus × ARGB :=
  if x < 0 ∨ y < 0 ∨ x ≥ bitmap.width ∨ y ≥ bitmap.height then (InvalidParameter, 0)
  else (Ok, bitmap.bits.getD (y * bitmap.width + x).toNat 0)

/-- Modelled from the spec: `GdipBitmapSetPixel` of image.c, the set-pixel
primitive of an in-memory destination (spec section 6), for a bitmap that stores
32-bit ARGB pixels: coordinates outside the bitmap are rejected and nothing is
written. -/
def GdipBitmapSetPixel (bitmap : GpImage) (x y : Int) (color : ARGB) : GpStatus × GpImage :=
  if x < 0 ∨ y < 0 ∨ x ≥ bitmap.width ∨ y ≥ bitmap.height then (InvalidParameter, bitmap)
  else (Ok, { bitmap with bits := bitmap.bits.set (y * bitmap.width + x).toNat color })

/-- The `ARGB` read at a byte offset of a pixel buffer, `*(ARGB* )(src + offset)`;
every offset the code forms is a multiple of 4. -/
def read_argb (src : List ARGB) (byte_offset : Int) : ARGB :=
  if byte_offset < 0 then 0 else src.getD (byte_offset / 4).toNat 0

/-- Body of the two loops of `alpha_blend_pixels` for one pixel. -/
def alpha_blend_pixel (ext : Ext Rgn Dev) (dst_x dst_y : Int) (src : List ARGB)
    (src_offset src_stride : Int) (dst_bitmap : GpImage) (x y : Int) : GpImage :=
  let dst_color := (GdipBitmapGetPixel dst_bitmap (x + dst_x) (y + dst_y)).2
  let src_color := read_argb src (src_offset + src_stride * y + 4 * x)
  (GdipBitmapSetPixel dst_bitmap (x + dst_x) (y + dst_y) (ext.color_over dst_color src_color)).2

/-- Embedding of `alpha_blend_pixels`: draw non-premultiplied ARGB data to the context.  The
source pointer is a pixel buffer and a byte offset into it. -/
def alpha_blend_pixels (ext : Ext Rgn Dev) (graphics : GpGraphics Rgn) (dev : Dev)
    (dst_x dst_y : Int) (src : List ARGB) (src_offset : Int)
    (src_width src_height src_stride : Int) : GpStatus × GpGraphics Rgn × Dev :=
  match graphics.image with
  | some image =>
    if image.type = ImageTypeBitmap then
      let dst_bitmap :=
        (List.range src_width.toNat).foldl
          (fun bmp (x : Nat) =>
            (List.range src_height.toNat).foldl
              (fun bmp (y : Nat) =>
                alpha_blend_pixel ext dst_x dst_y src src_offset src_stride bmp x y)
              bmp)
          image
      (Ok, { graphics with image := some dst_bitmap }, dev)
    else if image.type = ImageTypeMetafile then (NotImplemented, graphics, dev)
    else
      (Ok, graphics,
        (ext.gdi (.AlphaBlend dst_x dst_y src src_offset src_width src_height src_stride)
          graphics dev).2)
  | none =>
    (Ok, graphics,
      (ext.gdi (.AlphaBlend dst_x dst_y src src_offset src_width src_height src_stride)
        graphics dev).2)

/-- The loop of `alpha_blend_pixels_hrgn` over the rectangles of the region; it
stops at the first status that is not Ok. -/
def alpha_blend_rects (ext : Ext Rgn Dev) (dst_x dst_y : Int) (src : List ARGB)
    (src_stride : Int) :
    List RECT → GpStatus × GpGraphics Rgn × Dev → GpStatus × GpGraphics Rgn × Dev
  | [], acc => acc
  | rc :: rest, (stat, graphics, dev) =>
    if stat ≠ Ok then (stat, graphics, dev)
    else
      alpha_blend_rects ext dst_x dst_y src src_stride rest
        (alpha_blend_pixels ext graphics dev rc.left rc.top src
          ((rc.left - dst_x) * 4 + (rc.top - dst_y) * src_stride)
          (rc.right - rc.left) (rc.bottom - rc.top) src_stride)

/-- Embedding of `alpha_blend_pixels_hrgn`. -/
def alpha_blend_pixels_hrgn (ext : Ext Rgn Dev) (graphics : GpGraphics Rgn) (dev : Dev)
    (dst_x dst_y : Int) (src : List ARGB) (src_width src_height src_stride : Int)
    (hregion : HRGN) : GpStatus × GpGraphics Rgn × Dev :=
  let gdi_route :=
    let dev1 := (ext.gdi .SaveDC graphics dev).2
    let dev2 := (ext.gdi (.ExtSelectClipRgn hregion) graphics dev1).2
    let r := alpha_blend_pixels ext graphics dev2 dst_x dst_y src 0 src_width src_height
      src_stride
    (r.1, r.2.1, (ext.gdi .RestoreDC r.2.1 r.2.2).2)
  match graphics.image with
  | some image =>
    if image.type = ImageTypeBitmap then
      let rects := ext.GetRegionData hregion dev
      if !ext.GdipAlloc (32 + 16 * (rects.length : Int)) then (OutOfMemory, graphics, dev)
      else alpha_blend_rects ext dst_x dst_y src src_stride rects (Ok, graphics, dev)
    else if image.type = ImageTypeMetafile then (NotImplemented, graphics, dev)
    else gdi_route
  | none => gdi_route

/-! ## Brushes (graphics.c 889-1399) -/

/-- Embedding of `brush_can_fill_path`. -/
def brush_can_fill_path : GpBrush → Int
  | .SolidFill _ => 1
  | .Hatch hatch =>
    if hatch.forecol &&& 0xff000000 = 0xff000000 ∧ hatch.backcol &&& 0xff000000 = 0xff000000
    then 1 else 0
  | _ => 0

/-- Embedding of `brush_can_fill_pixels`. -/
def brush_can_fill_pixels : GpBrush → Int
  | .SolidFill _ => 1
  | .Hatch _ => 1
  | .LineGradient _ => 1
  | .Texture _ => 1
  | .PathGradient _ => 1
  | .Unknown _ => 0

/-- The store `argb_pixels[index] = color`. -/
def store_pixel (argb_pixels : List ARGB) (index : Int) (color : ARGB) : List ARGB :=
  if index < 0 then argb_pixels else argb_pixels.set index.toNat color

/-- The two nested loops `for x < Width, for y < Height` of `brush_fill_pixels`,
storing `color x y` at `x + y * cdwStride`. -/
def fill_pixels_loop (argb_pixels : List ARGB) (fill_area : GpRect) (cdwStride : Int)
    (color : Int → Int → ARGB) : List ARGB :=
  (List.range fill_area.Width.toNat).foldl
    (fun buf (x : Nat) =>
      (List.range fill_area.Height.toNat).foldl
        (fun buf (y : Nat) => store_pixel buf ((x : Int) + (y : Int) * cdwStride) (color x y))
        buf)
    argb_pixels

/-- The test `(hatch_data[7-hy] & (0x80 >> hx)) != 0` of the hatch branch, with
`hx = (x + X) % 8` and `hy = (y + Y) % 8` in C arithmetic (the remainder has the
sign of the dividend).  A negative shift count and a row index outside `0..7` are
undefined in C; here a negative shift yields no bit and a missing row is 0. -/
def hatch_bit (hatch_data : List Nat) (fill_area : GpRect) (x y : Int) : Bool :=
  let hx := Int.tmod (x + fill_area.X) 8
  let hy := Int.tmod (y + fill_area.Y) 8
  let row := if 7 - hy < 0 then 0 else hatch_data.getD (7 - hy).toNat 0
  let mask := if hx < 0 then 0 else 0x80 >>> hx.toNat
  row &&& mask ≠ 0

/-- Embedding of `brush_fill_pixels`: the status and the pixel buffer `argb_pixels` after the
call.  The solid and hatch branches are the loops of the source; the gradient
and texture rasters come from `Ext.brush_raster`, a metafile texture and an
unknown brush kind are `NotImplemented`. -/
def brush_fill_pixels (ext : Ext Rgn Dev) (graphics : GpGraphics Rgn) (brush : GpBrush)
    (argb_pixels : List ARGB) (fill_area : GpRect) (cdwStride : Int) :
    GpStatus × List ARGB :=
  match brush with
  | .SolidFill fill =>
    (Ok, fill_pixels_loop argb_pixels fill_area cdwStride (fun _ _ => fill.color))
  | .Hatch fill =>
    match ext.get_hatch_data fill.hatchstyle with
    | none => (NotImplemented, argb_pixels)
    | some hatch_data =>
      (Ok, fill_pixels_loop argb_pixels fill_area cdwStride
        (fun x y => if hatch_bit hatch_data fill_area x y then fill.forecol else fill.backcol))
  | .LineGradient fill =>
    ext.brush_raster graphics (.LineGradient fill) fill_area cdwStride argb_pixels
  | .Texture fill =>
    if fill.image.type ≠ ImageTypeBitmap then (NotImplemented, argb_pixels)
    else ext.brush_raster graphics (.Texture fill) fill_area cdwStride argb_pixels
  | .PathGradient fill =>
    ext.brush_raster graphics (.PathGradient fill) fill_area cdwStride argb_pixels
  | .Unknown _ => (NotImplemented, argb_pixels)

/-! ## Bounds and coordinate spaces (graphics.c 2058-2086, 6007-6061) -/

/-- Embedding of `get_graphics_bounds`. -/
def get_graphics_bounds (ext : Ext Rgn Dev) (graphics : GpGraphics Rgn) (dev : Dev) :
    GpStatus × GpRectF :=
  if graphics.hwnd ≠ 0 then
    match ext.GetClientRect graphics.hwnd dev with
    | none => (GenericError, ⟨0, 0, 0, 0⟩)
    | some wnd_rect =>
      (Ok, ⟨wnd_rect.left, wnd_rect.top, wnd_rect.right - wnd_rect.left,
        wnd_rect.bottom - wnd_rect.top⟩)
  else
    match graphics.image with
    | some image =>
      let r := ext.GdipGetImageBounds image
      (r.1, r.2.1)
    | none =>
      (Ok, ⟨0, 0, ext.GetDeviceCaps graphics.hdc HORZRES dev,
        ext.GetDeviceCaps graphics.hdc VERTRES dev⟩)

/-- Embedding of `get_graphics_transform`: the matrix that maps `src_space` to `dst_space`. -/
def get_graphics_transform (ext : Ext Rgn Dev) (graphics : GpGraphics Rgn)
    (dst_space src_space : Int) : GpStatus × GpMatrix :=
  let created := ext.GdipCreateMatrix
  if dst_space ≠ src_space ∧ created.1 = Ok then
    let scale_x0 := ext.units_to_pixels 1 graphics.unit graphics.xres
    let scale_y0 := ext.units_to_pixels 1 graphics.unit graphics.yres
    let scale_x := if graphics.unit ≠ UnitDisplay then scale_x0 * graphics.scale else scale_x0
    let scale_y := if graphics.unit ≠ UnitDisplay then scale_y0 * graphics.scale else scale_y0
    let m1 :=
      if src_space = CoordinateSpaceWorld then
        (ext.GdipMultiplyMatrix created.2 graphics.worldtrans MatrixOrderAppend).2
      else if src_space = CoordinateSpaceDevice then
        (ext.GdipScaleMatrix created.2 (1 / scale_x) (1 / scale_y) MatrixOrderAppend).2
      else created.2
    if dst_space = CoordinateSpaceWorld then
      let inverted_transform := ext.GdipCloneMatrix graphics.worldtrans
      if inverted_transform.1 = Ok then
        let inv := ext.GdipInvertMatrix inverted_transform.2
        if inv.1 = Ok then (Ok, (ext.GdipMultiplyMatrix m1 inv.2 MatrixOrderAppend).2)
        else (inv.1, m1)
      else (inverted_transform.1, m1)
    else if dst_space = CoordinateSpaceDevice then
      (Ok, (ext.GdipScaleMatrix m1 scale_x scale_y MatrixOrderAppend).2)
    else (Ok, m1)
  else (created.1, created.2)

/-- Embedding of `transform_and_round_points`: the points in device coordinates, rounded
(`pti`) and as left in the array `ptf`, which the function overwrites. -/
def transform_and_round_points (ext : Ext Rgn Dev) (graphics : GpGraphics Rgn)
    (ptf : List GpPointF) (count : Int) : List GpPoint × List GpPointF :=
  let scale_x0 := ext.units_to_pixels 1 graphics.unit graphics.xres
  let scale_y0 := ext.units_to_pixels 1 graphics.unit graphics.yres
  let scale_x := if graphics.unit ≠ UnitDisplay then scale_x0 * graphics.scale else scale_x0
  let scale_y := if graphics.unit ≠ UnitDisplay then scale_y0 * graphics.scale else scale_y0
  let matrix := (ext.GdipCloneMatrix graphics.worldtrans).2
  let scaled := (ext.GdipScaleMatrix matrix scale_x scale_y MatrixOrderAppend).2
  let moved := (ext.GdipTransformMatrixPoints scaled ptf count).2
  (moved.map (fun p => ⟨ext.gdip_round p.X, ext.gdip_round p.Y⟩), moved)

/-! ## Leasing the device context (graphics.c 5853-5981) -/

/-- Conversion of a `REAL` to `int`: truncation toward zero. -/
def real_to_int (r : REAL) : Int :=
  if 0 ≤ r then Rat.floor r else Rat.ceil r

/-- The test `graphics->image && graphics->image->type == ImageTypeMetafile`. -/
def image_is_metafile (image : Option GpImage) : Bool :=
  match image with
  | some img => decide (img.type = ImageTypeMetafile)
  | none => false

/-- The test `graphics->image && graphics->image->type == ImageTypeBitmap &&
((GpBitmap* )graphics->image)->format & PixelFormatAlpha`. -/
def image_is_alpha_bitmap (image : Option GpImage) : Bool :=
  match image with
  | some img => decide (img.type = ImageTypeBitmap ∧ img.format &&& PixelFormatAlpha ≠ 0)
  | none => false

/-- Embedding of `GdipGetDC`; `hdc` is the out pointer (`none` for NULL) and the third
component the handle stored through it. -/
def GdipGetDC (ext : Ext Rgn Dev) (graphics : Option (GpGraphics Rgn)) (hdc : Option HDC)
    (dev : Dev) : GpStatus × Option (GpGraphics Rgn) × Option HDC × Dev :=
  match graphics, hdc with
  | some g, some out =>
    if g.busy then (ObjectBusy, some g, some out, dev)
    else
      match g.image, image_is_metafile g.image with
      | some image, true =>
        let r := ext.METAFILE_GetDC image dev
        (r.1, some (if r.1 = Ok then { g with busy := true } else g), some r.2.1, r.2.2)
      | _, _ =>
        if g.hdc = 0 ∨ image_is_alpha_bitmap g.image then
          let bounds := get_graphics_bounds ext g dev
          if bounds.1 ≠ Ok then (bounds.1, some g, some out, dev)
          else
            let g1 :=
              { g with
                temp_hbitmap_width := real_to_int bounds.2.Width
                temp_hbitmap_height := real_to_int bounds.2.Height }
            let hbitmap :=
              ext.CreateDIBSection g1.temp_hbitmap_width g1.temp_hbitmap_height dev
            if hbitmap.1 = 0 then (GenericError, some g1, some out, hbitmap.2)
            else
              let temp_hdc := ext.CreateCompatibleDC hbitmap.2
              if temp_hdc.1 = 0 then
                (GenericError, some g1, some out,
                  (ext.gdi (.DeleteObject hbitmap.1) g1 temp_hdc.2).2)
              else
                let g2 :=
                  { g1 with
                    temp_bits :=
                      List.replicate (g1.temp_hbitmap_width * g1.temp_hbitmap_height).toNat
                        DC_BACKGROUND_KEY
                    temp_hbitmap := hbitmap.1
                    temp_hdc := temp_hdc.1
                    busy := true }
                (Ok, some g2, some temp_hdc.1,
                  (ext.gdi (.SelectObject temp_hdc.1 hbitmap.1) g2 temp_hdc.2).2)
        else (Ok, some { g with busy := true }, some g.hdc, dev)
  | _, _ => (InvalidParameter, graphics, hdc, dev)

/-- Embedding of `GdipReleaseDC`. -/
def GdipReleaseDC (ext : Ext Rgn Dev) (graphics : Option (GpGraphics Rgn)) (hdc : HDC)
    (dev : Dev) : GpStatus × Option (GpGraphics Rgn) × Dev :=
  match graphics with
  | none => (InvalidParameter, none, dev)
  | some g =>
    if hdc = 0 ∨ g.busy = false then (InvalidParameter, some g, dev)
    else
      match g.image, image_is_metafile g.image with
      | some image, true =>
        let r := ext.METAFILE_ReleaseDC image hdc dev
        (r.1, some (if r.1 = Ok then { g with busy := false } else g), r.2)
      | _, _ =>
        if g.temp_hdc = hdc then
          let drawn := ext.ReadDIBits g.temp_hbitmap g.temp_bits dev
          let count := (g.temp_hbitmap_width * g.temp_hbitmap_height).toNat
          let marked :=
            (drawn.take count).map
              (fun pos => if pos ≠ DC_BACKGROUND_KEY then pos ||| 0xff000000 else pos)
            ++ drawn.drop count
          let r := alpha_blend_pixels ext { g with temp_bits := marked } dev 0 0 marked 0
            g.temp_hbitmap_width g.temp_hbitmap_height (g.temp_hbitmap_width * 4)
          let dev1 := (ext.gdi (.DeleteDC g.temp_hdc) r.2.1 r.2.2).2
          let dev2 := (ext.gdi (.DeleteObject g.temp_hbitmap) r.2.1 dev1).2
          (Ok, some { r.2.1 with temp_hdc := 0, temp_hbitmap := 0, busy := false }, dev2)
        else if hdc ≠ g.hdc then (InvalidParameter, some g, dev)
        else (Ok, some { g with busy := false }, dev)

/-! ## Path rendering helper (graphics.c 1819-1942) -/

/-- The validation loop of `draw_poly`, started at index `i`: a point tagged
bezier must have two more points after it and the tag of the next point must
share a bit with `PathPointTypeBezier`; the loop then skips both.  `fuel` bounds
the number of iterations (`count` suffices). -/
def draw_poly_check (types : List Nat) (count : Int) : Nat → Int → Bool
  | 0, _ => true
  | fuel + 1, i =>
    if i < count then
      if types.getD i.toNat 0 &&& PathPointTypePathTypeMask = PathPointTypeBezier then
        if i + 2 ≥ count ∨ types.getD (i + 1).toNat 0 &&& PathPointTypeBezier = 0 ∨
            types.getD (i + 1).toNat 0 &&& PathPointTypeBezier = 0 then false
        else draw_poly_check types count fuel (i + 2 + 1)
      else draw_poly_check types count fuel (i + 1)
    else true

/-- The scan `for(j = 1; j < count && type[j] is Start; j++);` of `draw_poly`. -/
def draw_poly_first (types : List Nat) (count : Int) : Nat → Int → Int
  | 0, j => j
  | fuel + 1, j =>
    if j < count ∧ types.getD j.toNat 0 &&& PathPointTypePathTypeMask = PathPointTypeStart then
      draw_poly_first types count fuel (j + 1)
    else j

/-- Embedding of `draw_poly`: the status, and the device after the caps and the `PolyDraw`
call have been handed to GDI. -/
def draw_poly (ext : Ext Rgn Dev) (graphics : GpGraphics Rgn) (dev : Dev)
    (pen : Option GpPen) (pt : List GpPointF) (types : List Nat) (count : Int)
    (caps : Bool) : GpStatus × Dev :=
  if count = 0 then (Ok, dev)
  else if !ext.GdipAlloc (count * 8) ∨ !ext.GdipAlloc count ∨ !ext.GdipAlloc (count * 8) then
    (OutOfMemory, dev)
  else if !draw_poly_check types count count.toNat 1 then (GenericError, dev)
  else if caps then
    let last := types.getD (count - 1).toNat 0 &&& PathPointTypePathTypeMask
    if last = PathPointTypeBezier ∨ last = PathPointTypeLine then
      let dev1 := (ext.gdi (.EndCap pen pt types count) graphics dev).2
      let j := draw_poly_first types count count.toNat 1
      let first := types.getD j.toNat 0 &&& PathPointTypePathTypeMask
      if first = PathPointTypeBezier ∨ first = PathPointTypeLine then
        let dev2 := (ext.gdi (.StartCap pen pt types count) graphics dev1).2
        (Ok, (ext.gdi (.PolyDraw pen pt types count caps) graphics dev2).2)
      else (GenericError, dev1)
    else (GenericError, dev)
  else (Ok, (ext.gdi (.PolyDraw pen pt types count caps) graphics dev).2)

/-! ## Fill entry points (graphics.c 3769-4313, 4586-4614) -/

/-- Embedding of `GDI32_GdipFillPath`: the accelerated route. -/
def GDI32_GdipFillPath (ext : Ext Rgn Dev) (graphics : GpGraphics Rgn) (dev : Dev)
    (brush : GpBrush) (path : GpPath) : GpStatus × Dev :=
  if graphics.hdc = 0 ∨ brush_can_fill_path brush = 0 then (NotImplemented, dev)
  else
    let dev1 := (ext.gdi .SaveDC graphics dev).2
    let dev2 := (ext.gdi (.BeginPath path.fill) graphics dev1).2
    let r := draw_poly ext graphics dev2 none path.pathdata.Points path.pathdata.Types
      path.pathdata.Count false
    if r.1 ≠ Ok then (r.1, (ext.gdi .RestoreDC graphics r.2).2)
    else
      let dev3 := (ext.gdi (.BrushFillPath brush) graphics r.2).2
      (Ok, (ext.gdi .RestoreDC graphics dev3).2)

/-- Embedding of `GDI32_GdipFillRegion`: the accelerated route. -/
def GDI32_GdipFillRegion (ext : Ext Rgn Dev) (graphics : GpGraphics Rgn) (dev : Dev)
    (brush : GpBrush) (region : Rgn) : GpStatus × Dev :=
  if graphics.hdc = 0 ∨ brush_can_fill_path brush = 0 then (NotImplemented, dev)
  else
    let hrgn := ext.GdipGetRegionHRgn region (some graphics) dev
    if hrgn.1 ≠ Ok then (hrgn.1, dev)
    else
      let dev1 := (ext.gdi .SaveDC graphics dev).2
      let dev2 := (ext.gdi (.BrushFillRegion brush hrgn.2) graphics dev1).2
      let dev3 := (ext.gdi .RestoreDC graphics dev2).2
      (Ok, (ext.gdi (.DeleteObject hrgn.2) graphics dev3).2)

/-- Embedding of `SOFTWARE_GdipFillRegion`: the manual pixel route. -/
def SOFTWARE_GdipFillRegion (ext : Ext Rgn Dev) (graphics : GpGraphics Rgn) (dev : Dev)
    (brush : GpBrush) (region : Rgn) : GpStatus × GpGraphics Rgn × Dev :=
  if brush_can_fill_pixels brush = 0 then (NotImplemented, graphics, dev)
  else
    let bounds := get_graphics_bounds ext graphics dev
    let cloned := ext.GdipCloneRegion region
    let stat1 := if bounds.1 = Ok then cloned.1 else bounds.1
    let world_to_device :=
      get_graphics_transform ext graphics CoordinateSpaceDevice CoordinateSpaceWorld
    let transformed := ext.GdipTransformRegion cloned.2 world_to_device.2
    let stat2 := if world_to_device.1 = Ok then transformed.1 else world_to_device.1
    let combined := ext.GdipCombineRegionRect transformed.2 bounds.2 CombineModeIntersect
    let stat3 := if stat2 = Ok then combined.1 else stat2
    let hregion := ext.GdipGetRegionHRgn combined.2 none dev
    let stat4 := if stat3 = Ok then hregion.1 else stat3
    let stat := if stat1 = Ok then stat4 else stat1
    let box := ext.GetRgnBox hregion.2 dev
    if stat = Ok ∧ box.1 = NULLREGION then
      (Ok, graphics, (ext.gdi (.DeleteObject hregion.2) graphics dev).2)
    else if stat = Ok then
      let gp_bound_rect : GpRect :=
        { X := box.2.left, Y := box.2.top, Width := box.2.right - box.2.left,
          Height := box.2.bottom - box.2.top }
      if !ext.GdipAlloc (4 * gp_bound_rect.Width * gp_bound_rect.Height) then
        (OutOfMemory, graphics, (ext.gdi (.DeleteObject hregion.2) graphics dev).2)
      else
        let pixel_data :=
          List.replicate (gp_bound_rect.Width * gp_bound_rect.Height).toNat (0 : ARGB)
        let filled := brush_fill_pixels ext graphics brush pixel_data gp_bound_rect
          gp_bound_rect.Width
        if filled.1 ≠ Ok then
          (filled.1, graphics, (ext.gdi (.DeleteObject hregion.2) graphics dev).2)
        else
          let blended := alpha_blend_pixels_hrgn ext graphics dev gp_bound_rect.X
            gp_bound_rect.Y filled.2 gp_bound_rect.Width gp_bound_rect.Height
            (gp_bound_rect.Width * 4) hregion.2
          (blended.1, blended.2.1,
            (ext.gdi (.DeleteObject hregion.2) blended.2.1 blended.2.2).2)
    else (stat, graphics, dev)

/-- Embedding of `GdipFillRegion`. -/
def GdipFillRegion (ext : Ext Rgn Dev) (graphics : Option (GpGraphics Rgn)) (dev : Dev)
    (brush : Option GpBrush) (region : Option Rgn) :
    GpStatus × Option (GpGraphics Rgn) × Dev :=
  match graphics, brush, region with
  | some g, some b, some rgn =>
    if g.busy then (ObjectBusy, some g, dev)
    else
      let accel : GpStatus × Dev :=
        if g.image = none then GDI32_GdipFillRegion ext g dev b rgn else (NotImplemented, dev)
      let manual : GpStatus × GpGraphics Rgn × Dev :=
        if accel.1 = NotImplemented then SOFTWARE_GdipFillRegion ext g accel.2 b rgn
        else (accel.1, g, accel.2)
      if manual.1 = NotImplemented then (Ok, some manual.2.1, manual.2.2)
      else (manual.1, some manual.2.1, manual.2.2)
  | _, _, _ => (InvalidParameter, graphics, dev)

/-- Embedding of `SOFTWARE_GdipFillPath`: the manual pixel route, through a region. -/
def SOFTWARE_GdipFillPath (ext : Ext Rgn Dev) (graphics : GpGraphics Rgn) (dev : Dev)
    (brush : GpBrush) (path : GpPath) : GpStatus × GpGraphics Rgn × Dev :=
  if brush_can_fill_pixels brush = 0 then (NotImplemented, graphics, dev)
  else
    let rgn := ext.GdipCreateRegionPath path
    if rgn.1 = Ok then
      let r := GdipFillRegion ext (some graphics) dev (some brush) (some rgn.2)
      (r.1, r.2.1.getD graphics, r.2.2)
    else (rgn.1, graphics, dev)

/-- Embedding of `GdipFillPath`. -/
def GdipFillPath (ext : Ext Rgn Dev) (graphics : Option (GpGraphics Rgn)) (dev : Dev)
    (brush : Option GpBrush) (path : Option GpPath) :
    GpStatus × Option (GpGraphics Rgn) × Dev :=
  match brush, graphics, path with
  | some b, some g, some p =>
    if g.busy then (ObjectBusy, some g, dev)
    else
      let accel : GpStatus × Dev :=
        if g.image = none then GDI32_GdipFillPath ext g dev b p else (NotImplemented, dev)
      let manual : GpStatus × GpGraphics Rgn × Dev :=
        if accel.1 = NotImplemented then SOFTWARE_GdipFillPath ext g accel.2 b p
        else (accel.1, g, accel.2)
      if manual.1 = NotImplemented then (Ok, some manual.2.1, manual.2.2)
      else (manual.1, some manual.2.1, manual.2.2)
  | _, _, _ => (InvalidParameter, graphics, dev)

/-- Shared tail of the shape-filling entry points: build a path with `add` and
hand it to `GdipFillPath` (`stat = GdipCreatePath; if Ok, stat = GdipAddPath...;
if Ok, stat = GdipFillPath`). -/
def fill_built_path (ext : Ext Rgn Dev) (g : GpGraphics Rgn) (dev : Dev) (brush : GpBrush)
    (fill : Int) (add : GpPath → GpStatus × GpPath) :
    GpStatus × Option (GpGraphics Rgn) × Dev :=
  let path := ext.GdipCreatePath fill
  if path.1 = Ok then
    let added := add path.2
    if added.1 = Ok then GdipFillPath ext (some g) dev (some brush) (some added.2)
    else (added.1, some g, dev)
  else (path.1, some g, dev)

/-- Embedding of `GdipFillRectangle`. -/
def GdipFillRectangle (ext : Ext Rgn Dev) (graphics : Option (GpGraphics Rgn)) (dev : Dev)
    (brush : Option GpBrush) (x y width height : REAL) :
    GpStatus × Option (GpGraphics Rgn) × Dev :=
  match graphics, brush with
  | some g, some b =>
    if g.busy then (ObjectBusy, some g, dev)
    else
      fill_built_path ext g dev b FillModeAlternate
        (fun p => ext.GdipAddPathRectangle p x y width height)
  | _, _ => (InvalidParameter, graphics, dev)

/-- The loop of `GdipFillRectangles`: it stops at the first rectangle whose fill
does not return Ok. -/
def fill_rectangles_loop (ext : Ext Rgn Dev) (brush : Option GpBrush) (rects : List GpRectF) :
    Nat → Int → Option (GpGraphics Rgn) → Dev → GpStatus × Option (GpGraphics Rgn) × Dev
  | 0, _, graphics, dev => (Ok, graphics, dev)
  | n + 1, i, graphics, dev =>
    let rc := rects.getD i.toNat ⟨0, 0, 0, 0⟩
    let ret := GdipFillRectangle ext graphics dev brush rc.X rc.Y rc.Width rc.Height
    if ret.1 ≠ Ok then ret
    else fill_rectangles_loop ext brush rects n (i + 1) ret.2.1 ret.2.2

/-- Embedding of `GdipFillRectangles`: `count` iterations starting at index 0 (none when
`count` is not positive). -/
def GdipFillRectangles (ext : Ext Rgn Dev) (graphics : Option (GpGraphics Rgn)) (dev : Dev)
    (brush : Option GpBrush) (rects : Option (List GpRectF)) (count : Int) :
    GpStatus × Option (GpGraphics Rgn) × Dev :=
  match rects with
  | none => (InvalidParameter, graphics, dev)
  | some rs => fill_rectangles_loop ext brush rs count.toNat 0 graphics dev

/-- Embedding of `GdipFillEllipse`. -/
def GdipFillEllipse (ext : Ext Rgn Dev) (graphics : Option (GpGraphics Rgn)) (dev : Dev)
    (brush : Option GpBrush) (x y width height : REAL) :
    GpStatus × Option (GpGraphics Rgn) × Dev :=
  match graphics, brush with
  | some g, some b =>
    if g.busy then (ObjectBusy, some g, dev)
    else
      fill_built_path ext g dev b FillModeAlternate
        (fun p => ext.GdipAddPathEllipse p x y width height)
  | _, _ => (InvalidParameter, graphics, dev)

/-- Embedding of `GdipFillPie`. -/
def GdipFillPie (ext : Ext Rgn Dev) (graphics : Option (GpGraphics Rgn)) (dev : Dev)
    (brush : Option GpBrush) (x y width height startAngle sweepAngle : REAL) :
    GpStatus × Option (GpGraphics Rgn) × Dev :=
  match graphics, brush with
  | some g, some b =>
    if g.busy then (ObjectBusy, some g, dev)
    else
      fill_built_path ext g dev b FillModeAlternate
        (fun p => ext.GdipAddPathPie p x y width height startAngle sweepAngle)
  | _, _ => (InvalidParameter, graphics, dev)

/-- Embedding of `GdipFillPolygon`. -/
def GdipFillPolygon (ext : Ext Rgn Dev) (graphics : Option (GpGraphics Rgn)) (dev : Dev)
    (brush : Option GpBrush) (points : Option (List GpPointF)) (count : Int)
    (fillMode : Int) : GpStatus × Option (GpGraphics Rgn) × Dev :=
  match graphics, brush, points with
  | some g, some b, some pts =>
    if count = 0 then (InvalidParameter, some g, dev)
    else if g.busy then (ObjectBusy, some g, dev)
    else fill_built_path ext g dev b fillMode (fun p => ext.GdipAddPathPolygon p pts count)
  | _, _, _ => (InvalidParameter, graphics, dev)

/-- Embedding of `GdipFillClosedCurve2`. -/
def GdipFillClosedCurve2 (ext : Ext Rgn Dev) (graphics : Option (GpGraphics Rgn)) (dev : Dev)
    (brush : Option GpBrush) (points : Option (List GpPointF)) (count : Int)
    (tension : REAL) (fill : Int) : GpStatus × Option (GpGraphics Rgn) × Dev :=
  match graphics, brush, points with
  | some g, some b, some pts =>
    if g.busy then (ObjectBusy, some g, dev)
    else if count = 1 then (Ok, some g, dev)
    else
      let path := ext.GdipCreatePath fill
      if path.1 ≠ Ok then (path.1, some g, dev)
      else
        let added := ext.GdipAddPathClosedCurve2 path.2 pts count tension
        if added.1 ≠ Ok then (added.1, some g, dev)
        else GdipFillPath ext (some g) dev (some b) (some added.2)
  | _, _, _ => (InvalidParameter, graphics, dev)

/-- Embedding of `GdipGraphicsClear`. -/
def GdipGraphicsClear (ext : Ext Rgn Dev) (graphics : Option (GpGraphics Rgn)) (dev : Dev)
    (color : ARGB) : GpStatus × Option (GpGraphics Rgn) × Dev :=
  match graphics with
  | none => (InvalidParameter, none, dev)
  | some g =>
    if g.busy then (ObjectBusy, some g, dev)
    else
      let brush := ext.GdipCreateSolidFill color
      if brush.1 ≠ Ok then (brush.1, some g, dev)
      else
        let wnd_rect := get_graphics_bounds ext g dev
        if wnd_rect.1 ≠ Ok then (wnd_rect.1, some g, dev)
        else
          let r := GdipFillRectangle ext (some g) dev (some (.SolidFill brush.2))
            wnd_rect.2.X wnd_rect.2.Y wnd_rect.2.Width wnd_rect.2.Height
          (Ok, r.2.1, r.2.2)

/-! ## Draw entry points (graphics.c 2480-3737, 5745-5777) -/

/-- Shared shape of the pen-drawing entry points after their argument checks:
the busy check, the no-op on a context without `hdc`, then the request to GDI. -/
def stroke (ext : Ext Rgn Dev) (g : GpGraphics Rgn) (dev : Dev) (request : GdiDraw) :
    GpStatus × Option (GpGraphics Rgn) × Dev :=
  if g.busy then (ObjectBusy, some g, dev)
  else if g.hdc = 0 then (Ok, some g, dev)
  else
    let r := ext.gdi request g dev
    (r.1, some g, r.2)

/-- As `stroke`, for the entry points that return Ok whatever GDI reports. -/
def stroke_ok (ext : Ext Rgn Dev) (g : GpGraphics Rgn) (dev : Dev) (request : GdiDraw) :
    GpStatus × Option (GpGraphics Rgn) × Dev :=
  if g.busy then (ObjectBusy, some g, dev)
  else if g.hdc = 0 then (Ok, some g, dev)
  else (Ok, some g, (ext.gdi request g dev).2)

/-- Embedding of `GdipDrawArc`. -/
def GdipDrawArc (ext : Ext Rgn Dev) (graphics : Option (GpGraphics Rgn)) (dev : Dev)
    (pen : Option GpPen) (x y width height startAngle sweepAngle : REAL) :
    GpStatus × Option (GpGraphics Rgn) × Dev :=
  match graphics, pen with
  | some g, some p =>
    if width ≤ 0 ∨ height ≤ 0 then (InvalidParameter, some g, dev)
    else stroke ext g dev (.Arc p x y width height startAngle sweepAngle)
  | _, _ => (InvalidParameter, graphics, dev)

/-- Embedding of `GdipDrawBezier`. -/
def GdipDrawBezier (ext : Ext Rgn Dev) (graphics : Option (GpGraphics Rgn)) (dev : Dev)
    (pen : Option GpPen) (x1 y1 x2 y2 x3 y3 x4 y4 : REAL) :
    GpStatus × Option (GpGraphics Rgn) × Dev :=
  match graphics, pen with
  | some g, some p =>
    stroke ext g dev (.PolyBezier p [⟨x1, y1⟩, ⟨x2, y2⟩, ⟨x3, y3⟩, ⟨x4, y4⟩] 4)
  | _, _ => (InvalidParameter, graphics, dev)

/-- Embedding of `GdipDrawCurve2`. -/
def GdipDrawCurve2 (ext : Ext Rgn Dev) (graphics : Option (GpGraphics Rgn)) (dev : Dev)
    (pen : Option GpPen) (points : List GpPointF) (count : Int) (tension : REAL) :
    GpStatus × Option (GpGraphics Rgn) × Dev :=
  match graphics, pen with
  | some g, some p =>
    if g.busy then (ObjectBusy, some g, dev)
    else if count < 2 then (InvalidParameter, some g, dev)
    else if g.hdc = 0 then (Ok, some g, dev)
    else if !ext.GdipAlloc ((count * 3 - 2) * 8) then (OutOfMemory, some g, dev)
    else
      let r := ext.gdi (.Curve p points count tension) g dev
      (r.1, some g, r.2)
  | _, _ => (InvalidParameter, graphics, dev)

/-- Embedding of `GdipDrawEllipse`. -/
def GdipDrawEllipse (ext : Ext Rgn Dev) (graphics : Option (GpGraphics Rgn)) (dev : Dev)
    (pen : Option GpPen) (x y width height : REAL) :
    GpStatus × Option (GpGraphics Rgn) × Dev :=
  match graphics, pen with
  | some g, some p => stroke_ok ext g dev (.Ellipse p x y width height)
  | _, _ => (InvalidParameter, graphics, dev)

/-- Embedding of `GdipDrawLine`. -/
def GdipDrawLine (ext : Ext Rgn Dev) (graphics : Option (GpGraphics Rgn)) (dev : Dev)
    (pen : Option GpPen) (x1 y1 x2 y2 : REAL) : GpStatus × Option (GpGraphics Rgn) × Dev :=
  match pen, graphics with
  | some p, some g => stroke ext g dev (.Polyline p [⟨x1, y1⟩, ⟨x2, y2⟩] 2)
  | _, _ => (InvalidParameter, graphics, dev)

/-- Embedding of `GdipDrawLines`. -/
def GdipDrawLines (ext : Ext Rgn Dev) (graphics : Option (GpGraphics Rgn)) (dev : Dev)
    (pen : Option GpPen) (points : List GpPointF) (count : Int) :
    GpStatus × Option (GpGraphics Rgn) × Dev :=
  match pen, graphics with
  | some p, some g =>
    if count < 2 then (InvalidParameter, some g, dev)
    else stroke ext g dev (.Polyline p points count)
  | _, _ => (InvalidParameter, graphics, dev)

/-- Embedding of `GdipDrawPath`. -/
def GdipDrawPath (ext : Ext Rgn Dev) (graphics : Option (GpGraphics Rgn)) (dev : Dev)
    (pen : Option GpPen) (path : GpPath) : GpStatus × Option (GpGraphics Rgn) × Dev :=
  match pen, graphics with
  | some p, some g =>
    if g.busy then (ObjectBusy, some g, dev)
    else if g.hdc = 0 then (Ok, some g, dev)
    else
      let dev1 := (ext.gdi (.PrepareDC p) g dev).2
      let r := draw_poly ext g dev1 (some p) path.pathdata.Points path.pathdata.Types
        path.pathdata.Count true
      (r.1, some g, (ext.gdi .RestoreDC g r.2).2)
  | _, _ => (InvalidParameter, graphics, dev)

/-- Embedding of `GdipDrawPie`. -/
def GdipDrawPie (ext : Ext Rgn Dev) (graphics : Option (GpGraphics Rgn)) (dev : Dev)
    (pen : Option GpPen) (x y width height startAngle sweepAngle : REAL) :
    GpStatus × Option (GpGraphics Rgn) × Dev :=
  match graphics, pen with
  | some g, some p => stroke_ok ext g dev (.Pie p x y width height startAngle sweepAngle)
  | _, _ => (InvalidParameter, graphics, dev)

/-- Embedding of `GdipDrawPolygon`. -/
def GdipDrawPolygon (ext : Ext Rgn Dev) (graphics : Option (GpGraphics Rgn)) (dev : Dev)
    (pen : Option GpPen) (points : List GpPointF) (count : Int) :
    GpStatus × Option (GpGraphics Rgn) × Dev :=
  match graphics, pen with
  | some g, some p =>
    if count ≤ 0 then (InvalidParameter, some g, dev)
    else stroke_ok ext g dev (.Polygon p points count)
  | _, _ => (InvalidParameter, graphics, dev)

/-- Embedding of `GdipDrawRectangle`. -/
def GdipDrawRectangle (ext : Ext Rgn Dev) (graphics : Option (GpGraphics Rgn)) (dev : Dev)
    (pen : Option GpPen) (x y width height : REAL) :
    GpStatus × Option (GpGraphics Rgn) × Dev :=
  match pen, graphics with
  | some p, some g =>
    stroke_ok ext g dev
      (.Polygon p [⟨x, y⟩, ⟨x + width, y⟩, ⟨x + width, y + height⟩, ⟨x, y + height⟩] 4)
  | _, _ => (InvalidParameter, graphics, dev)

/-- Embedding of `GdipDrawRectangles`. -/
def GdipDrawRectangles (ext : Ext Rgn Dev) (graphics : Option (GpGraphics Rgn)) (dev : Dev)
    (pen : Option GpPen) (rects : Option (List GpRectF)) (count : Int) :
    GpStatus × Option (GpGraphics Rgn) × Dev :=
  match graphics, pen, rects with
  | some g, some p, some rs =>
    if count < 1 then (InvalidParameter, some g, dev)
    else if g.busy then (ObjectBusy, some g, dev)
    else if g.hdc = 0 then (Ok, some g, dev)
    else if !ext.GdipAlloc (4 * count * 8) ∨ !ext.GdipAlloc (4 * count * 8) then
      (OutOfMemory, some g, dev)
    else (Ok, some g, (ext.gdi (.Rectangles p rs count) g dev).2)
  | _, _, _ => (InvalidParameter, graphics, dev)

/-- Embedding of `GdipDrawImagePointsRect` (the abort callback, which is only told about a
failed picture rendering, is left out).  The source has no busy check. -/
def GdipDrawImagePointsRect (ext : Ext Rgn Dev) (graphics : Option (GpGraphics Rgn))
    (dev : Dev) (image : Option GpImage) (points : Option (List GpPointF)) (count : Int)
    (srcx srcy srcwidth srcheight : REAL) (srcUnit : Int)
    (imageAttributes : Option GpImageAttributes) :
    GpStatus × Option (GpGraphics Rgn) × Dev :=
  if count > 3 then (NotImplemented, graphics, dev)
  else
    match graphics, image, points with
    | some g, some img, some pts =>
      if count ≠ 3 then (InvalidParameter, some g, dev)
      else
        let p0 := pts.getD 0 ⟨0, 0⟩
        let p1 := pts.getD 1 ⟨0, 0⟩
        let p2 := pts.getD 2 ⟨0, 0⟩
        let p3 : GpPointF := ⟨p2.X + p1.X - p0.X, p2.Y + p1.Y - p0.Y⟩
        if srcwidth = 0 ∨ srcheight = 0 ∨ p3.X = p0.X ∨ p3.Y = p0.Y then (Ok, some g, dev)
        else
          let ptf := (transform_and_round_points ext g [p0, p1, p2, p3] 4).2
          let d0 := ptf.getD 0 ⟨0, 0⟩
          let d1 := ptf.getD 1 ⟨0, 0⟩
          let d2 := ptf.getD 2 ⟨0, 0⟩
          let sx := ext.units_to_pixels srcx srcUnit img.xres
          let sy := ext.units_to_pixels srcy srcUnit img.yres
          let sw := ext.units_to_pixels srcwidth srcUnit img.xres
          let sh := ext.units_to_pixels srcheight srcUnit img.yres
          if img.picture ≠ 0 then
            let r := ext.gdi (.PictureRender img ptf sx sy sw sh) g dev
            if r.1 ≠ Ok then (GenericError, some g, r.2) else (Ok, some g, r.2)
          else if img.type = ImageTypeBitmap then
            let use_software : Bool :=
              imageAttributes.isSome ||
              (match g.image with
                | some dst => decide (dst.type = ImageTypeBitmap)
                | none => false) ||
              decide (d1.Y ≠ d0.Y) || decide (d2.X ≠ d0.X) ||
              decide (d1.X - d0.X ≠ sw) || decide (d2.Y - d0.Y ≠ sh) ||
              decide (sx < 0) || decide (sy < 0) ||
              decide (sx + sw > img.width) || decide (sy + sh > img.height)
            if use_software then
              let r := ext.draw_image_software g img ptf sx sy sw sh imageAttributes dev
              (r.1, some r.2.1, r.2.2)
            else (Ok, some g, (ext.gdi (.BitmapBlit img ptf sx sy sw sh) g dev).2)
          else (NotImplemented, some g, dev)
    | _, _, _ => (InvalidParameter, graphics, dev)

/-! ## Predicates of the statements -/

/-- The fields no setter and no container operation writes. -/
def SameSurface (g g' : GpGraphics Rgn) : Prop :=
  g'.hdc = g.hdc ∧ g'.hwnd = g.hwnd ∧ g'.owndc = g.owndc ∧ g'.image = g.image ∧
  g'.xres = g.xres ∧ g'.yres = g.yres ∧ g'.busy = g.busy ∧
  g'.containers = g.containers ∧ g'.contid = g.contid ∧
  g'.temp_hbitmap = g.temp_hbitmap ∧ g'.temp_hbitmap_width = g.temp_hbitmap_width ∧
  g'.temp_hbitmap_height = g.temp_hbitmap_height ∧ g'.temp_bits = g.temp_bits ∧
  g'.temp_hdc = g.temp_hdc

/-- Ids on the stack lie in `1 .. contid` and strictly decrease from the newest
snapshot to the oldest. -/
def LiveIdsOrdered (g : GpGraphics Rgn) : Prop :=
  (∀ c ∈ g.containers, 1 ≤ c.contid ∧ c.contid ≤ g.contid) ∧
  List.Pairwise (fun a b : GraphicsContainerItem Rgn => b.contid < a.contid) g.containers

/-- Shape of a destination bitmap: the size of `img` and one stored pixel for each
of its `width * height` positions. -/
def SameShape (img dst : GpImage) : Prop :=
  dst.width = img.width ∧ dst.height = img.height ∧
  dst.bits.length = (img.width * img.height).toNat

/-! ## Statements of the specification, for comparison with the code -/

/-- The hatch rule as the specification words it: pixel `(x, y)` of the fill area
takes the foreground colour when bit `(x + X) mod 8`, counted from the most
significant bit, of pattern row `7 - (y + Y) mod 8` is set, with `mod` the
non-negative remainder. -/
def hatch_bit_spec (hatch_data : List Nat) (fill_area : GpRect) (x y : Int) : Bool :=
  let hx := (x + fill_area.X) % 8
  let hy := (y + fill_area.Y) % 8
  hatch_data.getD (7 - hy).toNat 0 &&& (0x80 >>> hx.toNat) ≠ 0

/-! ## Gradient colours (graphics.c 477-554) -/

def WrapModeTile : Int := 0
def WrapModeTileFlipX : Int := 1
def WrapModeTileFlipY : Int := 2
def WrapModeTileFlipXY : Int := 3
def WrapModeClamp : Int := 4

/-- Conversion of an `int` to `ARGB`, a 32-bit unsigned integer. -/
def int_to_argb (z : Int) : ARGB :=
  (z % (UINT_MODULUS : Int)).toNat

/-! ### Single-precision arithmetic

The operands of `blend_colors` are `float` values and every operation of its
expression is done in `float`: the result of each subtraction, multiplication and
addition is rounded to IEEE binary32, to the nearest value, a tie going to the
even mantissa. -/

/-- The power `2 ^ e` for an integer exponent. -/
def two_pow (e : Int) : REAL :=
  if 0 ≤ e then ((2 ^ e.toNat : Nat) : REAL) else 1 / ((2 ^ (-e).toNat : Nat) : REAL)

/-- The integer nearest to `q`, a tie going to the even neighbour. -/
def round_half_even (q : REAL) : Int :=
  let f := Rat.floor q
  if q - f < 1 / 2 then f
  else if 1 / 2 < q - f then f + 1
  else if f % 2 = 0 then f else f + 1

/-- The position of the leading binary digit of `n`, found by halving `n` at most
`fuel` times: `2 ^ k ≤ n < 2 ^ (k + 1)` for `n ≥ 1` and `fuel ≥ n`. -/
def binary_log : Nat → Nat → Nat
  | 0, _ => 0
  | fuel + 1, n => if n < 2 then 0 else binary_log fuel (n / 2) + 1

/-- The binary exponent `e` of a non-zero value: `2 ^ e ≤ |q| < 2 ^ (e + 1)`. -/
def float_exponent (q : REAL) : Int :=
  let e0 : Int := (binary_log q.num.natAbs q.num.natAbs : Int) - (binary_log q.den q.den : Int)
  if two_pow e0 ≤ (if q < 0 then -q else q) then e0 else e0 - 1

/-- Rounding to `float`: the mantissa has 24 binary digits, and below `2 ^ -126`
the spacing of the subnormal values is used.  Values beyond the largest `float`
are rounded in the same way; infinities are not modelled. -/
def float_round (q : REAL) : REAL :=
  if q = 0 then 0
  else
    let e := if float_exponent q < -126 then -126 else float_exponent q
    (round_half_even (q / two_pow (e - 23)) : REAL) * two_pow (e - 23)

def float_add (a b : REAL) : REAL := float_round (a + b)
def float_sub (a b : REAL) : REAL := float_round (a - b)
def float_mul (a b : REAL) : REAL := float_round (a * b)

/-- Embedding of `blend_colors`.  The expression
`a1*(1.0f - position)+a2*(position)` is evaluated in `float`, each operation
rounding its result; the channel values are below 2^24 and convert to `float` as
they are.  `(int)` is `real_to_int`; `a3 << 24` and the channel values are stored
into the unsigned `result` modulo 2^32; the loop
`for (i = 0xff; i <= 0xff0000; i = i << 8)` runs over the three channel masks. -/
def blend_colors (start end_ : ARGB) (position : REAL) : ARGB :=
  let a1 : Int := (((start >>> 24) &&& 0xff : Nat) : Int)
  let a2 : Int := (((end_ >>> 24) &&& 0xff : Nat) : Int)
  let a3 : Int := real_to_int
    (float_add (float_mul (a1 : REAL) (float_sub 1 position)) (float_mul (a2 : REAL) position))
  let result : ARGB := 0 ||| int_to_argb (a3 * 2 ^ 24)
  [0xff, 0xff00, 0xff0000].foldl
    (fun (result : ARGB) (i : Nat) =>
      result ||| (int_to_argb (real_to_int
        (float_add (float_mul ((start &&& i : Nat) : REAL) (float_sub 1 position))
          (float_mul ((end_ &&& i : Nat) : REAL) position))) &&& i))
    result

/-- C library `fmodf`: `x - n * y` with `n` the quotient `x / y` truncated toward
zero, so the result has the sign of `x`. -/
def fmodf (x y : REAL) : REAL :=
  x - (real_to_int (x / y) : REAL) * y

/-- The scan `while (position > blendpos[i]) i++`, started at `i`; `none` when it
runs past the end of the table. -/
def locate_blend (blendpos : List REAL) (position : REAL) : Nat → Nat → Option Nat
  | 0, _ => none
  | fuel + 1, i =>
    match blendpos.get? i with
    | none => none
    | some p => if position > p then locate_blend blendpos position fuel (i + 1) else some i

/-- Embedding of `blend_line_gradient`; `none` when a table is read past its end. -/
def blend_line_gradient (brush : GpLineGradient) (position : REAL) : Option ARGB :=
  let position : REAL :=
    if brush.wrap = WrapModeTile then
      let position := fmodf position 1
      if position < 0 then position + 1 else position
    else
      let position := fmodf position 2
      let position := if position < 0 then position + 2 else position
      if position > 1 then 2 - position else position
  let blendfac : Option REAL :=
    if brush.blendcount = 1 then some position
    else do
      let i ← locate_blend brush.blendpos position brush.blendpos.length 1
      let left_blendpos ← brush.blendpos.get? (i - 1)
      let left_blendfac ← brush.blendfac.get? (i - 1)
      let right_blendpos ← brush.blendpos.get? i
      let right_blendfac ← brush.blendfac.get? i
      let range := right_blendpos - left_blendpos
      some ((left_blendfac * (right_blendpos - position)
        + right_blendfac * (position - left_blendpos)) / range)
  match blendfac with
  | none => none
  | some blendfac =>
    if brush.pblendcount = 0 then
      some (blend_colors brush.startcolor brush.endcolor blendfac)
    else do
      let i ← locate_blend brush.pblendpos blendfac brush.pblendpos.length 1
      let left_blendpos ← brush.pblendpos.get? (i - 1)
      let left_blendcolor ← brush.pblendcolor.get? (i - 1)
      let right_blendpos ← brush.pblendpos.get? i
      let right_blendcolor ← brush.pblendcolor.get? i
      some (blend_colors left_blendcolor right_blendcolor
        ((blendfac - left_blendpos) / (right_blendpos - left_blendpos)))

/-! ## Mapping points between coordinate spaces (graphics.c 6063-6089) -/

/-- Embedding of `GdipTransformPoints`: the status and the point array afterwards. -/
def GdipTransformPoints (ext : Ext Rgn Dev) (graphics : Option (GpGraphics Rgn))
    (dst_space src_space : Int) (points : Option (List GpPointF)) (count : Int) :
    GpStatus × Option (List GpPointF) :=
  match graphics, points with
  | some g, some pts =>
    if count ≤ 0 then (InvalidParameter, points)
    else if g.busy then (ObjectBusy, points)
    else if src_space = dst_space then (Ok, points)
    else
      let matrix := get_graphics_transform ext g dst_space src_space
      if matrix.1 = Ok then
        let r := ext.GdipTransformMatrixPoints matrix.2 pts count
        (r.1, some r.2)
      else (matrix.1, points)
  | _, _ => (InvalidParameter, points)

/-! ## Affine algebra of the matrix operations (matrix.c) -/

/-- Modelled from the spec: the product of two 2x3 affine matrices, `left` applied
first (the result of `GdipMultiplyMatrix (left, right, MatrixOrderAppend)`). -/
def matrix_multiply (left right : GpMatrix) : GpMatrix where
  matrix0 := left.matrix0 * right.matrix0 + left.matrix1 * right.matrix2
  matrix1 := left.matrix0 * right.matrix1 + left.matrix1 * right.matrix3
  matrix2 := left.matrix2 * right.matrix0 + left.matrix3 * right.matrix2
  matrix3 := left.matrix2 * right.matrix1 + left.matrix3 * right.matrix3
  matrix4 := left.matrix4 * right.matrix0 + left.matrix5 * right.matrix2 + right.matrix4
  matrix5 := left.matrix4 * right.matrix1 + left.matrix5 * right.matrix3 + right.matrix5

/-- Modelled from the spec: the determinant of the linear part of an affine matrix. -/
def matrix_determinant (m : GpMatrix) : REAL :=
  m.matrix0 * m.matrix3 - m.matrix1 * m.matrix2

/-- Modelled from the spec: the inverse of an affine matrix with non-zero determinant. -/
def matrix_invert (m : GpMatrix) : GpMatrix where
  matrix0 := m.matrix3 / matrix_determinant m
  matrix1 := -m.matrix1 / matrix_determinant m
  matrix2 := -m.matrix2 / matrix_determinant m
  matrix3 := m.matrix0 / matrix_determinant m
  matrix4 := (m.matrix2 * m.matrix5 - m.matrix3 * m.matrix4) / matrix_determinant m
  matrix5 := -(m.matrix0 * m.matrix5 - m.matrix1 * m.matrix4) / matrix_determinant m

/-- Modelled from the spec: the image of a point under an affine matrix. -/
def matrix_transform_point (m : GpMatrix) (p : GpPointF) : GpPointF where
  X := p.X * m.matrix0 + p.Y * m.matrix2 + m.matrix4
  Y := p.X * m.matrix1 + p.Y * m.matrix3 + m.matrix5

/-- The identity matrix that `GdipCreateMatrix` makes. -/
def matrix_identity : GpMatrix := ⟨1, 0, 0, 1, 0, 0⟩

/-- The external matrix operations are the affine algebra above. -/
structure AffineExt (ext : Ext Rgn Dev) : Prop where
  create : ext.GdipCreateMatrix = (Ok, matrix_identity)
  clone : ∀ m, ext.GdipCloneMatrix m = (Ok, m)
  multiply : ∀ m n, ext.GdipMultiplyMatrix m n MatrixOrderAppend = (Ok, matrix_multiply m n)
  scale : ∀ m sx sy, ext.GdipScaleMatrix m sx sy MatrixOrderAppend
    = (Ok, matrix_multiply m ⟨sx, 0, 0, sy, 0, 0⟩)
  invert : ∀ m, matrix_determinant m ≠ 0 → ext.GdipInvertMatrix m = (Ok, matrix_invert m)
  transform : ∀ m pts, ext.GdipTransformMatrixPoints m pts pts.length
    = (Ok, pts.map (matrix_transform_point m))

/-! ## Line caps (graphics.c 1422-1615) -/

def LineCapFlat : Int := 0
def LineCapSquare : Int := 1
def LineCapRound : Int := 2
def LineCapTriangle : Int := 3
def LineCapNoAnchor : Int := 0x10
def LineCapSquareAnchor : Int := 0x11
def LineCapRoundAnchor : Int := 0x12
def LineCapDiamondAnchor : Int := 0x13
def LineCapArrowAnchor : Int := 0x14
def LineCapCustom : Int := 0xff

def ANCHOR_WIDTH : REAL := 2

/-- The constants `M_PI`, `M_PI_2` and `M_PI_4` of math.h. -/
def M_PI : REAL := 3.14159265358979323846
def M_PI_2 : REAL := 1.57079632679489661923
def M_PI_4 : REAL := 0.78539816339744830962

/-- The functions of the C library that `draw_cap` and `apply_image_attributes` call,
and `gdiplus_atan2 (dy, dx)` of gdiplus.c; their values are REAL numbers. -/
structure Libm where
  cos : REAL → REAL
  sin : REAL → REAL
  sqrt : REAL → REAL
  gdiplus_atan2 : REAL → REAL → REAL
  powf : REAL → REAL → REAL

/-- The four vertices `ptf[0..3]` that `draw_cap` computes in the branch
`LineCapSquare` / `LineCapSquareAnchor` / `LineCapDiamondAnchor`. -/
def draw_cap_square_points (libm : Libm) (cap : Int) (size theta x2 y2 : REAL) :
    List GpPointF :=
  let size := size * (if Int.land cap LineCapNoAnchor ≠ 0 then ANCHOR_WIDTH else 1) / 2
  let dsmall :=
    if cap = LineCapDiamondAnchor then libm.cos (theta + M_PI_2) * size
    else libm.cos (theta + M_PI_4) * size
  let dbig :=
    if cap = LineCapDiamondAnchor then libm.sin (theta + M_PI_2) * size
    else libm.sin (theta + M_PI_4) * size
  [⟨x2 - dsmall, y2 - dbig⟩, ⟨x2 + dbig, y2 - dsmall⟩,
   ⟨x2 + dsmall, y2 + dbig⟩, ⟨x2 - dbig, y2 + dsmall⟩]

/-- The vertices `ptf[0..]` of the other polygonal caps of `draw_cap`. -/
def draw_cap_points (libm : Libm) (cap : Int) (size theta x2 y2 : REAL) : List GpPointF :=
  if cap = LineCapArrowAnchor then
    let size := size * 4 / libm.sqrt 3
    [⟨x2 - libm.cos (M_PI / 6 + theta) * size, y2 - libm.sin (M_PI / 6 + theta) * size⟩,
     ⟨x2 - libm.cos (-M_PI / 6 + theta) * size, y2 - libm.sin (-M_PI / 6 + theta) * size⟩,
     ⟨x2, y2⟩]
  else if cap = LineCapRoundAnchor then
    let d := ANCHOR_WIDTH * size / 2
    [⟨x2 - d, y2 - d⟩, ⟨x2 + d, y2 + d⟩]
  else if cap = LineCapTriangle then
    let size := size / 2
    let dx := libm.cos (M_PI_2 + theta) * size
    let dy := libm.sin (M_PI_2 + theta) * size
    [⟨x2 - dx, y2 - dy⟩, ⟨x2 + dx, y2 + dy⟩,
     ⟨x2 + libm.cos theta * size, y2 + libm.sin theta * size⟩]
  else if cap = LineCapRound then
    let d := size / 2
    let dx := -libm.cos (M_PI_2 + theta) * size
    let dy := -libm.sin (M_PI_2 + theta) * size
    [⟨x2 - d, y2 - d⟩, ⟨x2 + d, y2 + d⟩, ⟨x2 - dx, y2 - dy⟩, ⟨x2 + dx, y2 + dy⟩]
  else []

/-- Embedding of `draw_cap`: the device after the cap anchored on `(x2, y2)` was
drawn.  The brush and pen that are created, selected and restored are the
request `CapObjects`; the custom cap, whose points come from matrix.c, is the
request `CapCustom`. -/
def draw_cap (ext : Ext Rgn Dev) (libm : Libm) (graphics : GpGraphics Rgn) (dev : Dev)
    (color : Nat) (cap : Int) (size : REAL) (custom : Option GpCustomLineCap)
    (x1 y1 x2 y2 : REAL) : Dev :=
  if x1 = x2 ∧ y1 = y2 then dev
  else
    let theta := libm.gdiplus_atan2 (y2 - y1) (x2 - x1)
    let customstroke : Bool :=
      match custom with
      | some c => decide (cap = LineCapCustom) && !c.fill
      | none => false
    let dev1 := if customstroke then dev else (ext.gdi (.CapObjects color true) graphics dev).2
    let dev2 :=
      if cap = LineCapSquare ∨ cap = LineCapSquareAnchor ∨ cap = LineCapDiamondAnchor then
        let ptf := draw_cap_square_points libm cap size theta x2 y2
        (ext.gdi (.CapPolygon (transform_and_round_points ext graphics ptf 4).1) graphics dev1).2
      else if cap = LineCapArrowAnchor ∨ cap = LineCapTriangle then
        let ptf := draw_cap_points libm cap size theta x2 y2
        (ext.gdi (.CapPolygon (transform_and_round_points ext graphics ptf 3).1) graphics dev1).2
      else if cap = LineCapRoundAnchor then
        let ptf := draw_cap_points libm cap size theta x2 y2
        (ext.gdi (.CapEllipse (transform_and_round_points ext graphics ptf 2).1) graphics dev1).2
      else if cap = LineCapRound then
        let ptf := draw_cap_points libm cap size theta x2 y2
        (ext.gdi (.CapPie (transform_and_round_points ext graphics ptf 4).1) graphics dev1).2
      else if cap = LineCapCustom then
        match custom with
        | some c => (ext.gdi (.CapCustom c size theta x2 y2) graphics dev1).2
        | none => dev1
      else dev1
    if customstroke then dev2 else (ext.gdi (.CapObjects color false) graphics dev2).2

/-! ## Creating a context (graphics.c 2166-2226) -/

def LOGPIXELSX : Int := 88
def LOGPIXELSY : Int := 90

/-- Byte size handed to `GdipAlloc` for a context (i386 layout); it only indexes the
allocation oracle. -/
def sizeof_GpGraphics : Int := 112

/-- Embedding of `GdipCreateFromHDC2`.  `hDevice` is a handle (0 is NULL);
`graphics` is the out-pointer: `none` is NULL, `some slot` a pointer to a slot
holding `slot`.  The result is the status and the out-pointer with its slot
afterwards; the slot is `none` where the function leaves NULL or a freed block
in it.  Fields that the function does not assign are the zeroes of `GdipAlloc`. -/
def GdipCreateFromHDC2 (ext : Ext Rgn Dev) (dev : Dev) (hdc : HDC) (hDevice : Nat)
    (graphics : Option (Option (GpGraphics Rgn))) :
    GpStatus × Option (Option (GpGraphics Rgn)) :=
  if hDevice ≠ 0 then (NotImplemented, graphics)
  else if hdc = 0 then (OutOfMemory, graphics)
  else
    match graphics with
    | none => (InvalidParameter, none)
    | some _ =>
      if !ext.GdipAlloc sizeof_GpGraphics then (OutOfMemory, some none)
      else
        let worldtrans := ext.GdipCreateMatrix
        if worldtrans.1 ≠ Ok then (worldtrans.1, some none)
        else
          let clip := ext.GdipCreateRegion
          if clip.1 ≠ Ok then (clip.1, some none)
          else
            (Ok, some (some
              { hdc := hdc
                hwnd := ext.WindowFromDC hdc dev
                owndc := false
                image := none
                smoothing := SmoothingModeDefault
                compqual := CompositingQualityDefault
                interpolation := InterpolationModeBilinear
                pixeloffset := PixelOffsetModeDefault
                compmode := CompositingModeSourceOver
                texthint := 0
                unit := UnitDisplay
                scale := 1
                xres := ext.GetDeviceCaps hdc LOGPIXELSX dev
                yres := ext.GetDeviceCaps hdc LOGPIXELSY dev
                worldtrans := worldtrans.2
                busy := false
                clip := clip.2
                textcontrast := 4
                containers := []
                contid := 0
                origin_x := 0
                origin_y := 0
                temp_hbitmap := 0
                temp_hbitmap_width := 0
                temp_hbitmap_height := 0
                temp_bits := []
                temp_hdc := 0 }))

/-- Embedding of `GdipCreateFromHDC`. -/
def GdipCreateFromHDC (ext : Ext Rgn Dev) (dev : Dev) (hdc : HDC)
    (graphics : Option (Option (GpGraphics Rgn))) :
    GpStatus × Option (Option (GpGraphics Rgn)) :=
  GdipCreateFromHDC2 ext dev hdc 0 graphics

/-! ## Sampling a bitmap (graphics.c 720-830) -/

/-- Embedding of `get_bitmap_sample_size`: the rectangle stored through `rect`.
`floorf` and `ceilf` are `Rat.floor` and `Rat.ceil`. -/
def get_bitmap_sample_size (ext : Ext Rgn Dev) (interpolation wrap : Int) (bitmap : GpImage)
    (srcx srcy srcwidth srcheight : REAL) : GpRect :=
  let smooth : Bool :=
    decide (interpolation = InterpolationModeHighQualityBilinear) ||
    decide (interpolation = InterpolationModeHighQualityBicubic) ||
    decide (interpolation = InterpolationModeBicubic) ||
    decide (interpolation = InterpolationModeBilinear)
  let left : Int := if smooth then Rat.floor srcx else ext.gdip_round srcx
  let top : Int := if smooth then Rat.floor srcy else ext.gdip_round srcy
  let right : Int :=
    if smooth then Rat.ceil (srcx + srcwidth) else ext.gdip_round (srcx + srcwidth)
  let bottom : Int :=
    if smooth then Rat.ceil (srcy + srcheight) else ext.gdip_round (srcy + srcheight)
  if wrap = WrapModeClamp then
    let left := if left < 0 then 0 else left
    let top := if top < 0 then 0 else top
    let right := if right ≥ bitmap.width then bitmap.width - 1 else right
    let bottom := if bottom ≥ bitmap.height then bitmap.height - 1 else bottom
    ⟨left, top, right - left + 1, bottom - top + 1⟩
  else
    let tile_x : Bool := decide (left < 0) || decide (right ≥ bitmap.width)
    let tile_y : Bool := decide (top < 0) || decide (bottom ≥ bitmap.height)
    let left' := if tile_x then 0 else left
    let right' := if tile_x then bitmap.width - 1 else right
    let top' := if tile_y then 0 else top
    let bottom' := if tile_y then bitmap.height - 1 else bottom
    ⟨left', top', right' - left' + 1, bottom' - top' + 1⟩

/-- Conversion of an `INT` to `UINT`: the value modulo 2^32. -/
def int_to_uint (z : Int) : Nat :=
  (z % (UINT_MODULUS : Int)).toNat

/-- Conversion of a `UINT` to `INT`: values from 2^31 on wrap to negative ones. -/
def uint_to_int (n : Nat) : Int :=
  if n % UINT_MODULUS < 2 ^ 31 then ((n % UINT_MODULUS : Nat) : Int)
  else ((n % UINT_MODULUS : Nat) : Int) - (UINT_MODULUS : Int)

/-- The tiling step of `sample_bitmap_pixel` for one axis, `size` being the `UINT`
width or height, `flip` the test `(wrap & 1) == 1` or `(wrap & 2) == 2`.  Every
operation that mixes the `INT` coordinate with `size` is done in `UINT`, modulo
2^32, and the result is stored back into the `INT` coordinate. -/
def tile_coordinate (size : Nat) (flip : Bool) (x : Int) : Int :=
  let x : Int :=
    if x < 0 then
      uint_to_int ((size * 2 % UINT_MODULUS + int_to_uint x % (size * 2 % UINT_MODULUS))
        % UINT_MODULUS)
    else x
  if flip then
    if (int_to_uint x / size) % 2 = 0 then uint_to_int (int_to_uint x % size)
    else uint_to_int ((size + UINT_MODULUS - 1 + UINT_MODULUS - int_to_uint x % size)
      % UINT_MODULUS)
  else uint_to_int (int_to_uint x % size)

/-- Embedding of `sample_bitmap_pixel`; `bits` are the `DWORD` values of the sample
window `src_rect`, row by row. -/
def sample_bitmap_pixel (src_rect : GpRect) (bits : List ARGB) (width height : Nat)
    (x y : Int) (attributes : GpImageAttributes) : ARGB :=
  let outside : Bool :=
    decide (attributes.wrap = WrapModeClamp) &&
    (decide (x < 0) || decide (y < 0) || decide (int_to_uint x ≥ width) ||
      decide (int_to_uint y ≥ height))
  if outside then attributes.outside_color
  else
    let x := if attributes.wrap = WrapModeClamp then x
      else tile_coordinate width (decide (Int.land attributes.wrap 1 = 1)) x
    let y := if attributes.wrap = WrapModeClamp then y
      else tile_coordinate height (decide (Int.land attributes.wrap 2 = 2)) y
    if x < src_rect.X ∨ y < src_rect.Y ∨ x ≥ src_rect.X + src_rect.Width ∨
        y ≥ src_rect.Y + src_rect.Height then 0xffcd0084
    else bits.getD ((x - src_rect.X) + (y - src_rect.Y) * src_rect.Width).toNat 0

/-! ## Resampling (graphics.c 832-882) -/

/-- Embedding of `resample_bitmap_pixel`: `InterpolationModeNearestNeighbor` takes
one sample at the rounded point; `InterpolationModeBilinear` and, through
`default`, every other mode blend the four neighbours, or take one sample when
floor and ceiling coincide on both axes. -/
def resample_bitmap_pixel (ext : Ext Rgn Dev) (src_rect : GpRect) (bits : List ARGB)
    (width height : Nat) (point : GpPointF) (attributes : GpImageAttributes)
    (interpolation : Int) : ARGB :=
  if interpolation = InterpolationModeNearestNeighbor then
    sample_bitmap_pixel src_rect bits width height
      (ext.gdip_round point.X) (ext.gdip_round point.Y) attributes
  else
    let leftxf : REAL := (Rat.floor point.X : Int)
    let leftx : Int := real_to_int leftxf
    let rightx : Int := real_to_int ((Rat.ceil point.X : Int) : REAL)
    let topyf : REAL := (Rat.floor point.Y : Int)
    let topy : Int := real_to_int topyf
    let bottomy : Int := real_to_int ((Rat.ceil point.Y : Int) : REAL)
    if leftx = rightx ∧ topy = bottomy then
      sample_bitmap_pixel src_rect bits width height leftx topy attributes
    else
      let topleft := sample_bitmap_pixel src_rect bits width height leftx topy attributes
      let topright := sample_bitmap_pixel src_rect bits width height rightx topy attributes
      let bottomleft := sample_bitmap_pixel src_rect bits width height leftx bottomy attributes
      let bottomright :=
        sample_bitmap_pixel src_rect bits width height rightx bottomy attributes
      let x_offset := point.X - leftxf
      let top := blend_colors topleft topright x_offset
      let bottom := blend_colors bottomleft bottomright x_offset
      blend_colors top bottom (point.Y - topyf)

/-- The coordinates at which `resample_bitmap_pixel` calls `sample_bitmap_pixel`
for a point, in the order of the calls. -/
def resample_coordinates (ext : Ext Rgn Dev) (point : GpPointF) (interpolation : Int) :
    List (Int × Int) :=
  if interpolation = InterpolationModeNearestNeighbor then
    [(ext.gdip_round point.X, ext.gdip_round point.Y)]
  else
    let leftx : Int := real_to_int ((Rat.floor point.X : Int) : REAL)
    let rightx : Int := real_to_int ((Rat.ceil point.X : Int) : REAL)
    let topy : Int := real_to_int ((Rat.floor point.Y : Int) : REAL)
    let bottomy : Int := real_to_int ((Rat.ceil point.Y : Int) : REAL)
    if leftx = rightx ∧ topy = bottomy then [(leftx, topy)]
    else [(leftx, topy), (rightx, topy), (leftx, bottomy), (rightx, bottomy)]

/-! ## Integer and sub-array front ends (graphics.c 2838-2894, 4142-4169) -/

def sizeof_GpRectF : Int := 16
def sizeof_GpPointF : Int := 8

/-- The conversion loop of `GdipFillRectanglesI` for one rectangle, assignment by
assignment, on an element of the block that `GdipAlloc` has zeroed. -/
def fill_rectangles_convert (rc : GpRect) : GpRectF :=
  let rectF : GpRectF := ⟨0, 0, 0, 0⟩
  let rectF := { rectF with X := (rc.X : REAL) }
  let rectF := { rectF with Y := (rc.Y : REAL) }
  let rectF := { rectF with X := (rc.Width : REAL) }
  let rectF := { rectF with Height := (rc.Height : REAL) }
  rectF

/-- Embedding of `GdipFillRectanglesI`. -/
def GdipFillRectanglesI (ext : Ext Rgn Dev) (graphics : Option (GpGraphics Rgn)) (dev : Dev)
    (brush : Option GpBrush) (rects : Option (List GpRect)) (count : Int) :
    GpStatus × Option (GpGraphics Rgn) × Dev :=
  match rects with
  | none => (InvalidParameter, graphics, dev)
  | some rs =>
    if count ≤ 0 then (InvalidParameter, graphics, dev)
    else if !ext.GdipAlloc (sizeof_GpRectF * count) then (OutOfMemory, graphics, dev)
    else
      let rectsF := (List.range count.toNat).map
        (fun (i : Nat) => fill_rectangles_convert (rs.getD i ⟨0, 0, 0, 0⟩))
      GdipFillRectangles ext graphics dev brush (some rectsF) count

/-- The array that starts at `points + offset`: the points from index `offset` on.
Memory in front of the array, which a negative offset reaches, is read as
points (0, 0) here. -/
def points_from (points : List GpPointF) (offset : Int) : List GpPointF :=
  if 0 ≤ offset then points.drop offset.toNat
  else List.replicate (-offset).toNat ⟨0, 0⟩ ++ points

/-- Embedding of `GdipDrawCurve3`. -/
def GdipDrawCurve3 (ext : Ext Rgn Dev) (graphics : Option (GpGraphics Rgn)) (dev : Dev)
    (pen : Option GpPen) (points : List GpPointF) (count offset numberOfSegments : Int)
    (tension : REAL) : GpStatus × Option (GpGraphics Rgn) × Dev :=
  if offset ≥ count ∨ numberOfSegments > count - offset - 1 ∨ numberOfSegments ≤ 0 then
    (InvalidParameter, graphics, dev)
  else
    GdipDrawCurve2 ext graphics dev pen (points_from points offset) (numberOfSegments + 1)
      tension

/-- Embedding of `GdipDrawCurve2I`. -/
def GdipDrawCurve2I (ext : Ext Rgn Dev) (graphics : Option (GpGraphics Rgn)) (dev : Dev)
    (pen : Option GpPen) (points : Option (List GpPoint)) (count : Int) (tension : REAL) :
    GpStatus × Option (GpGraphics Rgn) × Dev :=
  match points with
  | none => (InvalidParameter, graphics, dev)
  | some pts =>
    if !ext.GdipAlloc (sizeof_GpPointF * count) then (OutOfMemory, graphics, dev)
    else
      let pointsF := (List.range count.toNat).map
        (fun (i : Nat) => (⟨((pts.getD i ⟨0, 0⟩).X : REAL), ((pts.getD i ⟨0, 0⟩).Y : REAL)⟩ :
          GpPointF))
      GdipDrawCurve2 ext graphics dev pen pointsF count tension

/-- As `points_from`, for an array of integer points. -/
def points_from_int (points : List GpPoint) (offset : Int) : List GpPoint :=
  if 0 ≤ offset then points.drop offset.toNat
  else List.replicate (-offset).toNat ⟨0, 0⟩ ++ points

/-- Embedding of `GdipDrawCurve3I`. -/
def GdipDrawCurve3I (ext : Ext Rgn Dev) (graphics : Option (GpGraphics Rgn)) (dev : Dev)
    (pen : Option GpPen) (points : List GpPoint) (count offset numberOfSegments : Int)
    (tension : REAL) : GpStatus × Option (GpGraphics Rgn) × Dev :=
  if count < 0 then (OutOfMemory, graphics, dev)
  else if offset ≥ count ∨ numberOfSegments > count - offset - 1 ∨ numberOfSegments ≤ 0 then
    (InvalidParameter, graphics, dev)
  else
    GdipDrawCurve2I ext graphics dev pen (some (points_from_int points offset))
      (numberOfSegments + 1) tension

/-! ## The hatch pattern bitmap (graphics.c 125-168) -/

/-- Embedding of `create_hatch_bitmap`: the handle, the 64 `DWORD`s `bits` of the
8 x 8 section in storage order, and the device.  The section starts zeroed; an
unsupported style fills it with the foreground colour. -/
def create_hatch_bitmap (ext : Ext Rgn Dev) (dev : Dev) (hatch : GpHatch) :
    HBITMAP × List ARGB × Dev :=
  let r := ext.CreateDIBSection 8 8 dev
  if r.1 ≠ 0 then
    match ext.get_hatch_data hatch.hatchstyle with
    | some hatch_data =>
      (r.1,
        (List.range 8).foldl
          (fun bits (y : Nat) =>
            (List.range 8).foldl
              (fun bits (x : Nat) =>
                store_pixel bits ((y : Int) * 8 + (x : Int))
                  (if hatch_data.getD y 0 &&& (0x80 >>> x) ≠ 0 then hatch.forecol
                    else hatch.backcol))
              bits)
          (List.replicate 64 0),
        r.2)
    | none =>
      (r.1,
        (List.range 64).foldl (fun bits (y : Nat) => store_pixel bits (y : Int) hatch.forecol)
          (List.replicate 64 0),
        r.2)
  else (0, [], r.2)

/-- Modelled from the spec: the pixel in column `x` of visual row `y` (counted from
the top) of a bottom-up bitmap `height` rows high, whose stored row `height - 1 - y`
is that visual row. -/
def bottom_up_pixel (bits : List ARGB) (width height x y : Nat) : ARGB :=
  bits.getD ((height - 1 - y) * width + x) 0

/-! ## Colour adjustment of a pixel buffer (graphics.c 556-718) -/

def ColorAdjustTypeDefault : Int := 0
def ColorAdjustTypeBitmap : Int := 1
def ColorAdjustTypeBrush : Int := 2
def ColorAdjustTypePen : Int := 3
def ColorAdjustTypeText : Int := 4

def ColorMatrixFlagsDefault : Int := 0
def ColorMatrixFlagsSkipGrays : Int := 1
def ColorMatrixFlagsAltGray : Int := 2

/-- The clamp `min (max (floorf (v * 255.0), 0.0), 255.0)` of `transform_color`,
stored in an `unsigned char`. -/
def clamp_channel (v : REAL) : Nat :=
  (min (max (Rat.floor (v * 255)) 0) 255).toNat

/-- Embedding of `transform_color`; `matrix` is `m[j][i]`, row `j`, column `i`. -/
def transform_color (color : ARGB) (matrix : List (List REAL)) : ARGB :=
  let val : List REAL :=
    [(((color >>> 16) &&& 0xff : Nat) : REAL) / 255,
     (((color >>> 8) &&& 0xff : Nat) : REAL) / 255,
     ((color &&& 0xff : Nat) : REAL) / 255,
     (((color >>> 24) &&& 0xff : Nat) : REAL) / 255,
     1]
  let res (i : Nat) : REAL :=
    (List.range 5).foldl
      (fun acc (j : Nat) => acc + (matrix.getD j []).getD i 0 * val.getD j 0) 0
  let a := clamp_channel (res 3)
  let r := clamp_channel (res 0)
  let g := clamp_channel (res 1)
  let b := clamp_channel (res 2)
  (a <<< 24) ||| (r <<< 16) ||| (g <<< 8) ||| b

/-- Embedding of `color_is_gray`. -/
def color_is_gray (color : ARGB) : Bool :=
  decide ((color >>> 16) &&& 0xff = (color >>> 8) &&& 0xff) &&
    decide ((color >>> 8) &&& 0xff = color &&& 0xff)

/-- The loops `for (x < width) for (y < height)` of `apply_image_attributes`, which
replace the pixel at `data + stride * y + sizeof(ARGB) * x` by `f` of it.  The
buffer is a list of `DWORD`s, so `stride` is taken to be a multiple of 4. -/
def adjust_pixels (data : List ARGB) (width height : Nat) (stride : Int)
    (f : ARGB → ARGB) : List ARGB :=
  (List.range width).foldl
    (fun buf (x : Nat) =>
      (List.range height).foldl
        (fun buf (y : Nat) =>
          store_pixel buf ((stride * (y : Int) + 4 * (x : Int)) / 4)
            (f (buf.getD ((stride * (y : Int) + 4 * (x : Int)) / 4).toNat 0)))
        buf)
    data

/-- The colour-key test and store of `apply_image_attributes` for one pixel. -/
def apply_color_key (key : color_key) (src_color : ARGB) : ARGB :=
  let min_blue := key.low &&& 0xff
  let min_green := (key.low >>> 8) &&& 0xff
  let min_red := (key.low >>> 16) &&& 0xff
  let max_blue := key.high &&& 0xff
  let max_green := (key.high >>> 8) &&& 0xff
  let max_red := (key.high >>> 16) &&& 0xff
  let blue := src_color &&& 0xff
  let green := (src_color >>> 8) &&& 0xff
  let red := (src_color >>> 16) &&& 0xff
  if blue ≥ min_blue ∧ green ≥ min_green ∧ red ≥ min_red ∧
      blue ≤ max_blue ∧ green ≤ max_green ∧ red ≤ max_red then 0x00000000
  else src_color

/-- The remap step for one pixel: the first of the `mapsize` entries whose old
colour is the pixel gives the new colour. -/
def apply_color_remap (table : color_remap_table) (src_color : ARGB) : ARGB :=
  match (table.colormap.take table.mapsize.toNat).find? (fun e => e.1 = src_color) with
  | some e => e.2
  | none => src_color

/-- The colour-matrix step for one pixel. -/
def apply_color_matrix (colormatrices : color_matrix) (src_color : ARGB) : ARGB :=
  if colormatrices.flags = ColorMatrixFlagsDefault ∨ !color_is_gray src_color then
    transform_color src_color colormatrices.colormatrix
  else if colormatrices.flags = ColorMatrixFlagsAltGray then
    transform_color src_color colormatrices.graymatrix
  else src_color

/-- The gamma step for one pixel; the channels are stored in `BYTE`s. -/
def apply_gamma (libm : Libm) (gamma : REAL) (src_color : ARGB) : ARGB :=
  let channel (c : Nat) : Nat :=
    int_to_uint (Rat.floor (libm.powf ((c : REAL) / 255) gamma * 255)) % 256
  let blue := channel (src_color &&& 0xff)
  let green := channel ((src_color >>> 8) &&& 0xff)
  let red := channel ((src_color >>> 16) &&& 0xff)
  (src_color &&& 0xff000000) ||| (red <<< 16) ||| (green <<< 8) ||| blue

/-- Embedding of `apply_image_attributes`: the buffer after the four stages.  An
entry of a per-category array that the list does not hold is a disabled one. -/
def apply_image_attributes (libm : Libm) (attributes : GpImageAttributes) (data : List ARGB)
    (width height : Nat) (stride : Int) (type : Int) : List ARGB :=
  let key_type := attributes.colorkeys.getD type.toNat ⟨false, 0, 0⟩
  let key_default := attributes.colorkeys.getD ColorAdjustTypeDefault.toNat ⟨false, 0, 0⟩
  let data :=
    if key_type.enabled ∨ key_default.enabled then
      adjust_pixels data width height stride
        (apply_color_key (if key_type.enabled then key_type else key_default))
    else data
  let table_type := attributes.colorremaptables.getD type.toNat ⟨false, 0, []⟩
  let table_default :=
    attributes.colorremaptables.getD ColorAdjustTypeDefault.toNat ⟨false, 0, []⟩
  let data :=
    if table_type.enabled ∨ table_default.enabled then
      adjust_pixels data width height stride
        (apply_color_remap (if table_type.enabled then table_type else table_default))
    else data
  let matrix_type := attributes.colormatrices.getD type.toNat ⟨false, 0, [], []⟩
  let matrix_default :=
    attributes.colormatrices.getD ColorAdjustTypeDefault.toNat ⟨false, 0, [], []⟩
  let data :=
    if matrix_type.enabled ∨ matrix_default.enabled then
      adjust_pixels data width height stride
        (apply_color_matrix (if matrix_type.enabled then matrix_type else matrix_default))
    else data
  let gamma_type := attributes.gamma_enabled.getD type.toNat false
  let gamma_default := attributes.gamma_enabled.getD ColorAdjustTypeDefault.toNat false
  if gamma_type ∨ gamma_default then
    adjust_pixels data width height stride
      (apply_gamma libm
        (if gamma_type then attributes.gamma.getD type.toNat 0
          else attributes.gamma.getD ColorAdjustTypeDefault.toNat 0))
  else data

/-- The colour-key rule as the specification words it: the red, green and blue
channels of the pixel each lie in the inclusive range from the channel of `low`
to the channel of `high`. -/
def in_color_key_range (key : color_key) (pixel : ARGB) : Bool :=
  decide ((key.low / 2 ^ 16) % 256 ≤ (pixel / 2 ^ 16) % 256 ∧
    (pixel / 2 ^ 16) % 256 ≤ (key.high / 2 ^ 16) % 256) &&
  decide ((key.low / 2 ^ 8) % 256 ≤ (pixel / 2 ^ 8) % 256 ∧
    (pixel / 2 ^ 8) % 256 ≤ (key.high / 2 ^ 8) % 256) &&
  decide (key.low % 256 ≤ pixel % 256 ∧ pixel % 256 ≤ key.high % 256)

/-! ## Reachable contexts (graphics.c 4400-4414) -/

/-- Embedding of `GdipGetInterpolationMode`; `mode` is the out pointer (`none` for
NULL) and the second component the value stored through it. -/
def GdipGetInterpolationMode (graphics : Option (GpGraphics Rgn)) (mode : Option Int) :
    GpStatus × Option Int :=
  match graphics, mode with
  | some g, some _ =>
    if g.busy then (ObjectBusy, mode) else (Ok, some g.interpolation)
  | _, _ => (InvalidParameter, mode)

/-- One call on a context: a container call or a state setter. -/
inductive GraphicsCall (Rgn : Type)
  | container (c : ContainerCall)
  | setter (s : StateSetter Rgn)

/-- The context after a sequence of container and setter calls, whatever status
each returned. -/
def call_graphics (ext : Ext Rgn Dev) (graphics : Option (GpGraphics Rgn)) :
    List (GraphicsCall Rgn) → Option (GpGraphics Rgn)
  | [] => graphics
  | .container c :: rest => call_graphics ext (call_container ext graphics c).1 rest
  | .setter s :: rest => call_graphics ext (call_setter ext graphics s).2 rest

/-- The ids `n, n - 1, ..., 1`. -/
def ids_down : Nat → List Nat
  | 0 => []
  | n + 1 => (n + 1) :: ids_down n

/-- A mode that `GdipSetInterpolationMode` stores: none of Invalid, Default,
LowQuality and HighQuality. -/
def StoredInterpolationMode (mode : Int) : Prop :=
  mode ≠ InterpolationModeInvalid ∧ mode ≠ InterpolationModeDefault ∧
  mode ≠ InterpolationModeLowQuality ∧ mode ≠ InterpolationModeHighQuality

end Model

section Samples

/-! ## A small executable instance of the external operations

Used by the closed examples only: regions are natural numbers, the device
state is the list of the requests GDI received, clones are exact copies and
every allocation succeeds. -/

def sampleExt : Ext Nat (List GdiDraw) where
  GdipAlloc := fun _ => true
  GdipCreateMatrix := (Ok, ⟨1, 0, 0, 1, 0, 0⟩)
  GdipCloneMatrix := fun m => (Ok, m)
  GdipInvertMatrix := fun m => (Ok, m)
  GdipRotateMatrix := fun m _ _ => (Ok, m)
  GdipScaleMatrix := fun m sx sy _ => (Ok, { m with matrix0 := sx, matrix3 := sy })
  GdipTranslateMatrix := fun m dx dy _ => (Ok, { m with matrix4 := dx, matrix5 := dy })
  GdipMultiplyMatrix := fun _ n _ => (Ok, n)
  GdipCloneRegion := fun r => (Ok, r)
  GdipCombineRegionRegion := fun a b mode => (Ok, if mode = CombineModeReplace then b else a + b)
  GdipCombineRegionRect := fun a _ _ => (Ok, a + 1)
  GdipCombineRegionPath := fun a path _ =>
    match path with
    | none => (InvalidParameter, a)
    | some _ => (Ok, a + 2)
  GdipCreateRegionHrgn := fun h => if h = 0 then (InvalidParameter, 0) else (Ok, h)
  GdipCreateRegionPath := fun _ => (Ok, 3)
  GdipCreateRegion := (Ok, 1)
  GdipSetInfinite := fun _ => (Ok, 0)
  GdipTranslateRegion := fun a _ _ => (Ok, a)
  GdipTransformRegion := fun a _ => (Ok, a)
  GdipGetRegionHRgn := fun _ _ _ => (Ok, 9)
  GdipCreatePath := fun fill => (Ok, { fill := fill, pathdata := ⟨0, [], []⟩ })
  GdipAddPathRectangle := fun p x y w h =>
    (Ok, { p with pathdata := ⟨4, [⟨x, y⟩, ⟨w, y⟩, ⟨w, h⟩, ⟨x, h⟩], [0, 1, 1, 129]⟩ })
  GdipAddPathEllipse := fun p _ _ _ _ => (Ok, p)
  GdipAddPathPie := fun p _ _ _ _ _ _ => (Ok, p)
  GdipAddPathPolygon := fun p pts count => (Ok, { p with pathdata := ⟨count, pts, []⟩ })
  GdipAddPathClosedCurve2 := fun p _ _ _ => (Ok, p)
  GdipCreateSolidFill := fun c => (Ok, ⟨c⟩)
  GdipGetImageBounds := fun img => (Ok, ⟨0, 0, img.width, img.height⟩, UnitPixel)
  GdipTransformMatrixPoints := fun _ pts _ => (Ok, pts)
  units_to_pixels := fun units _ _ => units
  gdip_round := fun x => Rat.floor x
  METAFILE_GetDC := fun _ dev => (Ok, 77, dev)
  METAFILE_ReleaseDC := fun _ _ dev => (Ok, dev)
  GetClientRect := fun _ _ => some ⟨0, 0, 4, 4⟩
  GetDeviceCaps := fun _ _ _ => 96
  WindowFromDC := fun _ _ => 0
  CreateDIBSection := fun _ _ dev => (55, dev)
  CreateCompatibleDC := fun dev => (66, dev)
  ReadDIBits := fun _ bits _ => bits
  GetRgnBox := fun _ _ => (2, ⟨0, 0, 2, 2⟩)
  GetRegionData := fun _ _ => [⟨0, 0, 2, 2⟩]
  get_hatch_data := fun _ => none
  color_over := fun bg fg =>
    if (fg >>> 24) &&& 0xff = 0xff then fg else if (fg >>> 24) &&& 0xff = 0 then bg else fg
  brush_raster := fun _ _ _ _ buf => (Ok, buf)
  draw_image_software := fun g _ _ _ _ _ _ _ dev => (Ok, g, dev)
  gdi := fun d _ dev => (Ok, dev ++ [d])

/-- A context bound to the device surface `hdc = 5`. -/
def sampleGraphics : GpGraphics Nat where
  hdc := 5
  hwnd := 0
  owndc := false
  image := none
  smoothing := 0
  compqual := 0
  interpolation := 3
  pixeloffset := 0
  compmode := 0
  texthint := 0
  unit := 1
  scale := 1
  xres := 96
  yres := 96
  worldtrans := ⟨1, 0, 0, 1, 0, 0⟩
  busy := false
  clip := 0
  textcontrast := 4
  containers := []
  contid := 0
  origin_x := 0
  origin_y := 0
  temp_hbitmap := 0
  temp_hbitmap_width := 0
  temp_hbitmap_height := 0
  temp_bits := []
  temp_hdc := 0

/-- The snapshot of `sampleGraphics` under the id `n`. -/
def sampleContainer (n : Nat) : GraphicsContainerItem Nat where
  contid := n
  smoothing := 0
  compqual := 0
  interpolation := 3
  compmode := 0
  texthint := 0
  scale := 1
  unit := 1
  pixeloffset := 0
  textcontrast := 4
  worldtrans := ⟨1, 0, 0, 1, 0, 0⟩
  clip := 0
  origin_x := 0
  origin_y := 0

/-- An image rendered through its `IPicture`. -/
def samplePicture : GpImage where
  type := ImageTypeUnknown
  picture := 1
  xres := 96
  yres := 96
  width := 4
  height := 4
  format := 0
  hbitmap := 0
  hdc := 0
  bits := []

/-- A solid opaque red brush. -/
def sampleBrush : GpBrush := .SolidFill ⟨0xFFFF0000⟩

/-- A one-pixel solid pen. -/
def samplePen : GpPen where
  style := 0
  unit := UnitPixel
  width := 1
  endcap := 0
  startcap := 0
  customstart := none
  customend := none
  dash := 0
  numdashes := 0
  dashes := []
  brush := sampleBrush

/-- A 2 x 2 bitmap whose pixels are all 0x00000000. -/
def sampleBitmap : GpImage where
  type := ImageTypeBitmap
  picture := 0
  xres := 96
  yres := 96
  width := 2
  height := 2
  format := 0x26200A
  hbitmap := 0
  hdc := 0
  bits := [0, 0, 0, 0]

/-- A context bound to `sampleBitmap`. -/
def sampleBitmapGraphics : GpGraphics Nat :=
  { sampleGraphics with hdc := 0, image := some sampleBitmap }

/-- The external operations of `sampleExt` with one supported hatch style, whose
8 x 8 pattern has every bit set. -/
def hatchExt : Ext Nat (List GdiDraw) :=
  { sampleExt with
    get_hatch_data := fun _ => some [0xff, 0xff, 0xff, 0xff, 0xff, 0xff, 0xff, 0xff] }

/-- A hatch brush: opaque white on opaque black. -/
def sampleHatch : GpHatch where
  hatchstyle := 0
  forecol := 0xFFFFFFFF
  backcol := 0xFF000000

/-- A two-stop gradient from opaque red to opaque blue, tiled, without tables. -/
def sampleLineGradient : GpLineGradient where
  startpoint := ⟨0, 0⟩
  endpoint := ⟨10, 0⟩
  startcolor := 0xFFFF0000
  endcolor := 0xFF0000FF
  wrap := WrapModeTile
  blendcount := 1
  blendfac := [1]
  blendpos := [1]
  pblendcount := 0
  pblendcolor := []
  pblendpos := []

/-- The external operations of `sampleExt` with the matrix operations of the
affine algebra. -/
def affineExt : Ext Nat (List GdiDraw) :=
  { sampleExt with
    GdipCreateMatrix := (Ok, matrix_identity)
    GdipCloneMatrix := fun m => (Ok, m)
    GdipInvertMatrix := fun m =>
      if matrix_determinant m ≠ 0 then (Ok, matrix_invert m) else (InvalidParameter, m)
    GdipScaleMatrix := fun m sx sy order =>
      (Ok, if order = MatrixOrderAppend then matrix_multiply m ⟨sx, 0, 0, sy, 0, 0⟩
        else matrix_multiply ⟨sx, 0, 0, sy, 0, 0⟩ m)
    GdipMultiplyMatrix := fun m n order =>
      (Ok, if order = MatrixOrderAppend then matrix_multiply m n else matrix_multiply n m)
    GdipTransformMatrixPoints := fun m pts count =>
      (Ok, (pts.take count.toNat).map (matrix_transform_point m) ++ pts.drop count.toNat) }

/-- A context whose world transform doubles and shifts. -/
def sampleTransformGraphics : GpGraphics Nat :=
  { sampleGraphics with worldtrans := ⟨2, 0, 0, 2, 3, 1⟩ }

/-- A table-driven C library: the values of the functions at the angles 0,
`M_PI_4` and `M_PI_2`, to eight decimal places. -/
def sampleLibm : Libm where
  cos := fun x => if x = 0 then 1 else if x = M_PI_4 then 0.70710678 else 0
  sin := fun x => if x = 0 then 0 else if x = M_PI_4 then 0.70710678 else 1
  sqrt := fun x => if x = 3 then 1.73205081 else x
  gdiplus_atan2 := fun dy dx =>
    if dy = 0 then (if 0 ≤ dx then 0 else M_PI) else if 0 < dy then M_PI_2 else -M_PI_2
  powf := fun x y => if y = 1 then x else if x = 0 then 0 else 1

/-- The external operations of `sampleExt`, except that a rectangle of negative
width is refused when it is added to a path. -/
def refusingExt : Ext Nat (List GdiDraw) :=
  { sampleExt with
    GdipAddPathRectangle := fun p _ _ w _ =>
      if w < 0 then (InvalidParameter, p) else (Ok, p) }

/-- Three rectangles, the second of negative width. -/
def sampleRects : List GpRectF :=
  [⟨0, 0, 1, 1⟩, ⟨0, 0, -1, 1⟩, ⟨0, 0, 2, 2⟩]

/-- Image attributes with the wrap mode `WrapModeTile` and nothing else set. -/
def tileAttributes : GpImageAttributes where
  wrap := WrapModeTile
  outside_color := 0
  clamp := false
  colorkeys := []
  colorremaptables := []
  colormatrices := []
  gamma_enabled := []
  gamma := []

/-- A 4 x 4 bitmap. -/
def sampleBitmap4 : GpImage :=
  { sampleBitmap with width := 4, height := 4, bits := List.replicate 16 0 }

/-- The external operations of `sampleExt` with one supported hatch style, whose
pattern is a diagonal: row `i` has bit `i`, counted from the most significant
bit, set. -/
def diagonalExt : Ext Nat (List GdiDraw) :=
  { sampleExt with
    get_hatch_data := fun _ => some [0x80, 0x40, 0x20, 0x10, 0x08, 0x04, 0x02, 0x01] }

/-- Image attributes whose only enabled stage is a colour key of the default
category, from black to (16, 16, 16). -/
def keyAttributes : GpImageAttributes :=
  { tileAttributes with colorkeys := [⟨true, 0x000000, 0x101010⟩] }

/-- The context that `GdipCreateFromHDC2` makes for the device context 5 with the
operations of `sampleExt`. -/
def freshGraphics : GpGraphics Nat where
  hdc := 5
  hwnd := 0
  owndc := false
  image := none
  smoothing := SmoothingModeDefault
  compqual := CompositingQualityDefault
  interpolation := InterpolationModeBilinear
  pixeloffset := PixelOffsetModeDefault
  compmode := CompositingModeSourceOver
  texthint := 0
  unit := UnitDisplay
  scale := 1
  xres := ((96 : Int) : REAL)
  yres := ((96 : Int) : REAL)
  worldtrans := ⟨1, 0, 0, 1, 0, 0⟩
  busy := false
  clip := 1
  textcontrast := 4
  containers := []
  contid := 0
  origin_x := 0
  origin_y := 0
  temp_hbitmap := 0
  temp_hbitmap_width := 0
  temp_hbitmap_height := 0
  temp_bits := []
  temp_hdc := 0

/-- The external operations of `sampleExt` with `gdip_round` rounding to the
nearest integer, halves upward. -/
def roundExt : Ext Nat (List GdiDraw) :=
  { sampleExt with gdip_round := fun x => Rat.floor (x + 1 / 2) }

/-- The sixteen pixels of a 4 x 4 window, each holding its own index. -/
def indexBits : List ARGB := [0, 1, 2, 3, 4, 5, 6, 7, 8, 9, 10, 11, 12, 13, 14, 15]

end Samples

/-! ## Theorems -/

section Theorems

variable {Rgn Dev : Type}

theorem SameSurface.refl (g : GpGraphics Rgn) : SameSurface g g := by
  simp [SameSurface]

theorem SameSurface.trans {g g' g'' : GpGraphics Rgn} (h : SameSurface g g')
    (h' : SameSurface g' g'') : SameSurface g g'' := by
  simp only [SameSurface] at *
  obtain ⟨a1, a2, a3, a4, a5, a6, a7, a8, a9, a10, a11, a12, a13, a14⟩ := h
  obtain ⟨b1, b2, b3, b4, b5, b6, b7, b8, b9, b10, b11, b12, b13, b14⟩ := h'
  simp [*]

/-- A setter call on a non-NULL context returns a non-NULL context that differs
from the old one in restorable fields only. -/
theorem call_setter_frame (ext : Ext Rgn Dev) (g : GpGraphics Rgn) (s : StateSetter Rgn) :
    ∃ g', (call_setter ext (some g) s).2 = some g' ∧ SameSurface g g' := by
  cases s <;>
    simp only [call_setter, GdipResetWorldTransform, GdipRotateWorldTransform,
      GdipScaleWorldTransform, GdipTranslateWorldTransform, GdipMultiplyWorldTransform,
      GdipSetWorldTransform, GdipResetClip, GdipSetClipGraphics, GdipSetClipRegion,
      GdipSetClipHrgn, GdipSetClipPath, GdipSetClipRect, GdipSetClipRectI, GdipTranslateClip,
      GdipTranslateClipI, GdipSetPageUnit, GdipSetPageScale, GdipSetSmoothingMode,
      GdipSetInterpolationMode, GdipSetCompositingMode, GdipSetCompositingQuality,
      GdipSetTextRenderingHint, GdipSetTextContrast, GdipSetPixelOffsetMode,
      GdipSetRenderingOrigin] <;>
    (repeat' split) <;> simp_all [SameSurface]

theorem call_setters_frame (ext : Ext Rgn Dev) (setters : List (StateSetter Rgn))
    (g : GpGraphics Rgn) :
    ∃ g', call_setters ext (some g) setters = some g' ∧ SameSurface g g' := by
  induction setters generalizing g with
  | nil => exact ⟨g, rfl, SameSurface.refl g⟩
  | cons s rest ih =>
    obtain ⟨g1, h1, f1⟩ := call_setter_frame ext g s
    obtain ⟨g2, h2, f2⟩ := ih g1
    exact ⟨g2, by simp [call_setters, h1, h2], f1.trans f2⟩

/-- The snapshot `init_container` takes when the allocation and both clones
succeed with equal copies. -/
theorem init_container_ok (ext : Ext Rgn Dev) (g : GpGraphics Rgn)
    (sts : GpStatus) (c : GraphicsContainerItem Rgn)
    (hm : ext.GdipCloneMatrix g.worldtrans = (Ok, g.worldtrans))
    (hr : ext.GdipCloneRegion g.clip = (Ok, g.clip))
    (h : init_container ext g = (sts, some c)) :
    sts = Ok ∧ c =
      { contid := (g.contid + 1) % UINT_MODULUS
        smoothing := g.smoothing
        compqual := g.compqual
        interpolation := g.interpolation
        compmode := g.compmode
        texthint := g.texthint
        scale := g.scale
        unit := g.unit
        textcontrast := g.textcontrast
        pixeloffset := g.pixeloffset
        origin_x := g.origin_x
        origin_y := g.origin_y
        worldtrans := g.worldtrans
        clip := g.clip } := by
  unfold init_container at h
  split at h
  · simp at h
  · simp only [hm, hr, ne_eq, not_true_eq_false, if_false] at h
    simp only [Prod.mk.injEq, Option.some.injEq] at h
    exact ⟨h.1.symm, h.2.symm⟩

theorem init_container_some (ext : Ext Rgn Dev) (g : GpGraphics Rgn)
    (o : Option (GraphicsContainerItem Rgn)) (h : init_container ext g = (Ok, o)) :
    ∃ c, o = some c := by
  simp only [init_container] at h
  split_ifs at h with h1 h2 h3
  · simp at h
  · simp only [Prod.mk.injEq] at h
    exact absurd h.1 h2
  · simp only [Prod.mk.injEq] at h
    exact absurd h.1 h3
  · simp only [Prod.mk.injEq] at h
    exact ⟨_, h.2.symm⟩

theorem uint_succ_pred (n : Nat) (h : n < UINT_MODULUS) :
    ((n + 1) % UINT_MODULUS + UINT_MODULUS - 1) % UINT_MODULUS = n := by
  unfold UINT_MODULUS at *
  omega

/-- C1: a container opened by `GdipBeginContainer2` and closed by
`GdipEndContainer` with the returned id, with any sequence of state setters in
between, leaves the context exactly as it was before the container was opened
(transform, clip, unit, scale, quality fields, origin, `contid` and container
stack), provided cloning the transform and the clip yields equal copies. -/
theorem begin_setters_end_restores (ext : Ext Rgn Dev) (g g1 : GpGraphics Rgn)
    (s0 s : Nat) (setters : List (StateSetter Rgn))
    (hid : g.contid < UINT_MODULUS)
    (hm : ext.GdipCloneMatrix g.worldtrans = (Ok, g.worldtrans))
    (hr : ext.GdipCloneRegion g.clip = (Ok, g.clip))
    (hbegin : GdipBeginContainer2 ext (some g) (some s0) = (Ok, some g1, some s)) :
    GdipEndContainer ext (call_setters ext (some g1) setters) s = (Ok, some g) := by
  -- the container pushed by the begin call
  simp only [GdipBeginContainer2] at hbegin
  split at hbegin
  next container hinit =>
    obtain ⟨-, hc⟩ := init_container_ok ext g Ok container hm hr hinit
    simp only [Prod.mk.injEq, Option.some.injEq, true_and] at hbegin
    obtain ⟨hg1, hs⟩ := hbegin
    obtain ⟨g2, h2, hf⟩ := call_setters_frame ext setters g1
    rw [h2]
    simp only [SameSurface] at hf
    obtain ⟨a1, a2, a3, a4, a5, a6, a7, a8, a9, a10, a11, a12, a13, a14⟩ := hf
    subst hg1
    simp only at a1 a2 a3 a4 a5 a6 a7 a8 a9 a10 a11 a12 a13 a14
    have hcid : container.contid = s := hs
    have hcw : container.worldtrans = g.worldtrans := by rw [hc]
    have hcc : container.clip = g.clip := by rw [hc]
    simp only [GdipEndContainer, a8, find_container, hcid, if_true, restore_container,
      hcw, hcc, hm, hr, ne_eq, not_true_eq_false, if_false, remove_containers_on_top,
      List.drop_succ_cons, List.drop_zero, Prod.mk.injEq, Option.some.injEq, true_and]
    have hn : (s + UINT_MODULUS - 1) % UINT_MODULUS = g.contid := by
      rw [← hcid, hc]
      exact uint_succ_pred g.contid hid
    rw [hn]
    cases g2
    cases g
    simp_all
  next st o hne hinit =>
    simp only [Prod.mk.injEq] at hbegin
    obtain ⟨h1, -, -⟩ := hbegin
    subst h1
    obtain ⟨c, hc⟩ := init_container_some ext g o hinit
    exact absurd hc (hne c rfl)

theorem begin_setters_end_restores_witness :
    GdipEndContainer sampleExt
      (call_setters sampleExt
        (some { sampleGraphics with containers := [sampleContainer 1], contid := 1 })
        [.SetSmoothingMode 4, .SetClipRect 1 2 3 4 CombineModeReplace,
         .TranslateWorldTransform 7 8 0, .SetPageScale 2, .SetRenderingOrigin 3 4]) 1
      = (Ok, some sampleGraphics) :=
  begin_setters_end_restores sampleExt sampleGraphics
    { sampleGraphics with containers := [sampleContainer 1], contid := 1 } 0 1
    [.SetSmoothingMode 4, .SetClipRect 1 2 3 4 CombineModeReplace,
     .TranslateWorldTransform 7 8 0, .SetPageScale 2, .SetRenderingOrigin 3 4]
    (by decide) (by rfl) (by rfl) (by decide)

theorem find_container_none (state : Nat)
    (l : List (GraphicsContainerItem Rgn)) (h : ∀ c ∈ l, c.contid ≠ state) :
    find_container state l = none := by
  induction l with
  | nil => rfl
  | cons c rest ih =>
    have hc : c.contid ≠ state := h c (List.mem_cons_self c rest)
    simp only [find_container, hc, if_false]
    exact ih (fun d hd => h d (List.mem_cons_of_mem c hd))

/-- C2: `GdipEndContainer` with an id that no snapshot on the container stack
carries (any id when the stack is empty) returns Ok and leaves every field of the
context, the stack included, unchanged. -/
theorem end_container_unknown_id (ext : Ext Rgn Dev) (g : GpGraphics Rgn)
    (id : Nat) (h : ∀ c ∈ g.containers, c.contid ≠ id) :
    GdipEndContainer ext (some g) id = (Ok, some g) := by
  simp [GdipEndContainer, find_container_none id g.containers h]

theorem end_container_unknown_id_witness :
    GdipEndContainer sampleExt
      (some { sampleGraphics with containers := [sampleContainer 1], contid := 1 }) 2
      = (Ok, some { sampleGraphics with containers := [sampleContainer 1], contid := 1 }) :=
  end_container_unknown_id sampleExt
    { sampleGraphics with containers := [sampleContainer 1], contid := 1 } 2 (by decide)

theorem find_container_append (c : GraphicsContainerItem Rgn)
    (newer older : List (GraphicsContainerItem Rgn))
    (h : ∀ d ∈ newer, d.contid ≠ c.contid) :
    find_container c.contid (newer ++ c :: older) = some c := by
  induction newer with
  | nil => simp [find_container]
  | cons d rest ih =>
    have hd : d.contid ≠ c.contid := h d (List.mem_cons_self d rest)
    simp only [List.cons_append, find_container, hd, if_false]
    exact ih (fun e he => h e (List.mem_cons_of_mem d he))

theorem remove_containers_on_top_append (c : GraphicsContainerItem Rgn)
    (newer older : List (GraphicsContainerItem Rgn))
    (h : ∀ d ∈ newer, d.contid ≠ c.contid) :
    remove_containers_on_top c.contid (newer ++ c :: older) = c :: older := by
  induction newer with
  | nil => simp [remove_containers_on_top]
  | cons d rest ih =>
    have hd : d.contid ≠ c.contid := h d (List.mem_cons_self d rest)
    simp only [List.cons_append, remove_containers_on_top, hd, if_false]
    exact ih (fun e he => h e (List.mem_cons_of_mem d he))

theorem nodup_ids_newer (c : GraphicsContainerItem Rgn)
    (newer older : List (GraphicsContainerItem Rgn))
    (h : ((newer ++ c :: older).map (fun d => d.contid)).Nodup) :
    ∀ d ∈ newer, d.contid ≠ c.contid := by
  intro d hd heq
  rw [List.map_append, List.map_cons] at h
  have hdis := (List.nodup_append.mp h).2.2
  exact hdis (List.mem_map_of_mem (fun d => d.contid) hd)
    (by rw [heq]; exact List.mem_cons_self _ _)

/-- C3: on a stack `newer ++ c :: older` (newest first) whose ids are pairwise
distinct, `GdipEndContainer` with the id of `c` restores the state saved in `c`
(not a newer snapshot) and leaves exactly `older` on the stack: `c` and every
snapshot pushed after it are removed, the ones pushed before it stay, unchanged
and in order (the clones made by the restore being equal copies). -/
theorem end_container_truncates (ext : Ext Rgn Dev) (g : GpGraphics Rgn)
    (c : GraphicsContainerItem Rgn) (newer older : List (GraphicsContainerItem Rgn))
    (hstack : g.containers = newer ++ c :: older)
    (hdistinct : (g.containers.map (fun d => d.contid)).Nodup)
    (hm : ext.GdipCloneMatrix c.worldtrans = (Ok, c.worldtrans))
    (hr : ext.GdipCloneRegion c.clip = (Ok, c.clip)) :
    GdipEndContainer ext (some g) c.contid =
      (Ok, some
        { g with
          worldtrans := c.worldtrans
          clip := c.clip
          contid := (c.contid + UINT_MODULUS - 1) % UINT_MODULUS
          smoothing := c.smoothing
          compqual := c.compqual
          interpolation := c.interpolation
          compmode := c.compmode
          texthint := c.texthint
          scale := c.scale
          unit := c.unit
          textcontrast := c.textcontrast
          pixeloffset := c.pixeloffset
          origin_x := c.origin_x
          origin_y := c.origin_y
          containers := older }) := by
  rw [hstack] at hdistinct
  have hnewer := nodup_ids_newer c newer older hdistinct
  simp [GdipEndContainer, hstack, find_container_append c newer older hnewer,
    restore_container, hm, hr, remove_containers_on_top_append c newer older hnewer]

theorem end_container_truncates_witness :
    GdipEndContainer sampleExt
      (some { sampleGraphics with
        smoothing := 4
        containers :=
          [sampleContainer 3, { sampleContainer 2 with smoothing := 2 }, sampleContainer 1]
        contid := 3 }) 2
      = (Ok, some { sampleGraphics with
          smoothing := 2, containers := [sampleContainer 1], contid := 1 }) :=
  end_container_truncates sampleExt
    { sampleGraphics with
      smoothing := 4
      containers :=
        [sampleContainer 3, { sampleContainer 2 with smoothing := 2 }, sampleContainer 1]
      contid := 3 }
    { sampleContainer 2 with smoothing := 2 } [sampleContainer 3] [sampleContainer 1]
    (by rfl) (by decide) (by rfl) (by rfl)

/-- C4 as stated fails: on a fresh context, Begin (id 1), End(1), Begin hands out
the id 1 a second time, so the returned ids are not strictly increasing. -/
theorem begin_ids_not_increasing :
    ¬ List.Pairwise (fun a b => a < b)
      (call_containers sampleExt (some sampleGraphics) [.Begin, .End 1, .Begin]).2 := by
  decide

theorem init_container_contid (ext : Ext Rgn Dev) (g : GpGraphics Rgn) (sts : GpStatus)
    (c : GraphicsContainerItem Rgn) (h : init_container ext g = (sts, some c)) :
    c.contid = (g.contid + 1) % UINT_MODULUS := by
  simp only [init_container] at h
  split_ifs at h with h1 h2 h3
  · simp at h
  · simp at h
  · simp at h
  · simp only [Prod.mk.injEq, Option.some.injEq] at h
    rw [← h.2]

/-- What a `GdipBeginContainer2` call on a non-NULL context can do. -/
theorem begin_container_cases (ext : Ext Rgn Dev) (g : GpGraphics Rgn)
    (s0 : Nat) :
    (∃ sts, sts ≠ Ok ∧ GdipBeginContainer2 ext (some g) (some s0) = (sts, some g, some s0)) ∨
    (∃ c : GraphicsContainerItem Rgn, c.contid = (g.contid + 1) % UINT_MODULUS ∧
      GdipBeginContainer2 ext (some g) (some s0) =
        (Ok, some { g with containers := c :: g.containers, contid := c.contid },
          some c.contid)) := by
  simp only [GdipBeginContainer2]
  split
  next container hinit =>
    exact Or.inr ⟨container, init_container_contid ext g Ok container hinit, rfl⟩
  next sts o hne hinit =>
    refine Or.inl ⟨sts, ?_, rfl⟩
    intro hs
    subst hs
    obtain ⟨c, hc⟩ := init_container_some ext g o hinit
    exact hne c rfl hc

theorem find_container_split (state : Nat)
    (l : List (GraphicsContainerItem Rgn)) (c : GraphicsContainerItem Rgn)
    (h : find_container state l = some c) :
    ∃ newer older, l = newer ++ c :: older ∧ (∀ d ∈ newer, d.contid ≠ c.contid) ∧
      c.contid = state := by
  induction l with
  | nil => simp [find_container] at h
  | cons d rest ih =>
    simp only [find_container] at h
    split_ifs at h with hd
    · simp only [Option.some.injEq] at h
      subst h
      exact ⟨[], rest, rfl, by simp, hd⟩
    · obtain ⟨newer, older, hl, hn, hc⟩ := ih h
      refine ⟨d :: newer, older, by simp [hl], ?_, hc⟩
      intro e he
      rcases List.mem_cons.mp he with rfl | he'
      · rw [hc]; exact hd
      · exact hn e he'

/-- What a `GdipEndContainer` call on a non-NULL context can do. -/
theorem end_container_cases (ext : Ext Rgn Dev) (g : GpGraphics Rgn)
    (state : Nat) :
    (∃ sts, GdipEndContainer ext (some g) state = (sts, some g)) ∨
    (∃ (c : GraphicsContainerItem Rgn) (newer older : List (GraphicsContainerItem Rgn))
        (g' : GpGraphics Rgn),
      g.containers = newer ++ c :: older ∧ c.contid = state ∧
      GdipEndContainer ext (some g) state = (Ok, some g') ∧
      g'.containers = older ∧
      g'.contid = (c.contid + UINT_MODULUS - 1) % UINT_MODULUS) := by
  simp only [GdipEndContainer]
  split
  next hfind => exact Or.inl ⟨Ok, rfl⟩
  next c hfind =>
    obtain ⟨newer, older, hl, hn, hc⟩ := find_container_split state g.containers c hfind
    simp only [restore_container]
    split_ifs with h1 h2 h3
    all_goals first
      | exact Or.inl ⟨_, rfl⟩
      | (exfalso; simp_all; done)
      | skip
    refine Or.inr ⟨c, newer, older, _, hl, hc, rfl, ?_, rfl⟩
    simp only [hl]
    rw [← hc, remove_containers_on_top_append c newer older hn]
    rfl

theorem begin_container_inv (ext : Ext Rgn Dev) (g : GpGraphics Rgn) (s0 : Nat)
    (hinv : LiveIdsOrdered g) (hlt : g.contid + 1 < UINT_MODULUS) :
    ∃ g', (GdipBeginContainer2 ext (some g) (some s0)).2.1 = some g' ∧
      LiveIdsOrdered g' ∧ g'.contid ≤ g.contid + 1 := by
  rcases begin_container_cases ext g s0 with ⟨sts, -, h⟩ | ⟨c, hc, h⟩
  · exact ⟨g, by rw [h], hinv, Nat.le_succ _⟩
  · rw [Nat.mod_eq_of_lt hlt] at hc
    refine ⟨_, by rw [h], ⟨?_, ?_⟩, by simp [hc]⟩
    · intro d hd
      rcases List.mem_cons.mp hd with rfl | hd'
      · exact ⟨by omega, Nat.le_refl _⟩
      · have := hinv.1 d hd'
        simp only
        omega
    · refine List.Pairwise.cons ?_ hinv.2
      intro d hd
      have := hinv.1 d hd
      omega

theorem end_container_inv (ext : Ext Rgn Dev) (g : GpGraphics Rgn) (state : Nat)
    (hinv : LiveIdsOrdered g) (hlt : g.contid < UINT_MODULUS) :
    ∃ g', (GdipEndContainer ext (some g) state).2 = some g' ∧
      LiveIdsOrdered g' ∧ g'.contid ≤ g.contid := by
  rcases end_container_cases ext g state with ⟨sts, h⟩ | ⟨c, newer, older, g', hl, -, h, hc', hid'⟩
  · exact ⟨g, by rw [h], hinv, Nat.le_refl _⟩
  · have hcmem : c ∈ g.containers := by rw [hl]; simp
    have hcb := hinv.1 c hcmem
    have hid : g'.contid = c.contid - 1 := by
      rw [hid']
      unfold UINT_MODULUS at *
      omega
    have hpw := hinv.2
    rw [hl] at hpw
    have hpw' := (List.pairwise_append.mp hpw).2.1
    refine ⟨g', by rw [h], ⟨?_, ?_⟩, by omega⟩
    · intro d hd
      rw [hc'] at hd
      have hdlt : d.contid < c.contid := List.rel_of_pairwise_cons hpw' hd
      have hdmem : d ∈ g.containers := by rw [hl]; simp [hd]
      have := hinv.1 d hdmem
      omega
    · rw [hc']
      exact (List.pairwise_cons.mp hpw').2

theorem call_containers_inv (ext : Ext Rgn Dev) (calls : List ContainerCall)
    (g : GpGraphics Rgn) (hinv : LiveIdsOrdered g)
    (hlt : g.contid + calls.length < UINT_MODULUS) :
    ∃ g', (call_containers ext (some g) calls).1 = some g' ∧
      LiveIdsOrdered g' ∧ g'.contid ≤ g.contid + calls.length := by
  induction calls generalizing g with
  | nil => exact ⟨g, rfl, hinv, Nat.le_refl _⟩
  | cons c rest ih =>
    simp only [List.length_cons] at hlt
    cases c with
    | Begin =>
      obtain ⟨g1, h1, i1, b1⟩ := begin_container_inv ext g 0 hinv (by omega)
      obtain ⟨g2, h2, i2, b2⟩ := ih g1 i1 (by omega)
      exact ⟨g2, by simp only [call_containers, call_container, h1, h2], i2,
        by simp only [List.length_cons]; omega⟩
    | End state =>
      obtain ⟨g1, h1, i1, b1⟩ := end_container_inv ext g state hinv (by omega)
      obtain ⟨g2, h2, i2, b2⟩ := ih g1 i1 (by omega)
      exact ⟨g2, by simp only [call_containers, call_container, h1, h2], i2,
        by simp only [List.length_cons]; omega⟩

/-- C4 (amended): after any sequence of fewer than 2^32 - 1 container calls on a
freshly created context, the id a successful `GdipBeginContainer2` returns is
`contid + 1` and is greater than the id of every snapshot then on the container
stack, so the ids of live snapshots are never duplicated; ids of snapshots that
`GdipEndContainer` discarded are not excluded from being returned again. -/
theorem begin_id_above_live_ids (ext : Ext Rgn Dev) (g0 g g' : GpGraphics Rgn)
    (calls : List ContainerCall) (s0 id : Nat)
    (hstack : g0.containers = []) (hcontid : g0.contid = 0)
    (hlen : calls.length + 1 < UINT_MODULUS)
    (hrun : (call_containers ext (some g0) calls).1 = some g)
    (hbegin : GdipBeginContainer2 ext (some g) (some s0) = (Ok, some g', some id)) :
    id = g.contid + 1 ∧ ∀ c ∈ g.containers, c.contid < id := by
  have hinv0 : LiveIdsOrdered g0 := by simp [LiveIdsOrdered, hstack]
  obtain ⟨g1, h1, hinv, hb⟩ := call_containers_inv ext calls g0 hinv0 (by omega)
  rw [hrun] at h1
  simp only [Option.some.injEq] at h1
  subst h1
  rw [hcontid] at hb
  have hlt : g.contid + 1 < UINT_MODULUS := by omega
  have hidv : id = g.contid + 1 := by
    rcases begin_container_cases ext g s0 with ⟨sts, hne, h⟩ | ⟨c, hc, h⟩
    · rw [h] at hbegin
      simp only [Prod.mk.injEq] at hbegin
      exact absurd hbegin.1 hne
    · rw [h] at hbegin
      simp only [Prod.mk.injEq, Option.some.injEq, true_and] at hbegin
      rw [← hbegin.2, hc, Nat.mod_eq_of_lt hlt]
  refine ⟨hidv, ?_⟩
  intro c hc
  have := hinv.1 c hc
  omega

theorem begin_id_above_live_ids_witness :
    (2 : Nat) = 1 + 1 ∧ ∀ c ∈ [sampleContainer 1], c.contid < 2 :=
  begin_id_above_live_ids sampleExt sampleGraphics
    { sampleGraphics with containers := [sampleContainer 1], contid := 1 }
    { sampleGraphics with containers := [sampleContainer 2, sampleContainer 1], contid := 2 }
    [.Begin, .Begin, .End 2] 0 2 (by rfl) (by rfl) (by decide) (by decide) (by decide)

theorem get_dc_busy (ext : Ext Rgn Dev) (g : GpGraphics Rgn) (out : HDC) (dev : Dev)
    (hb : g.busy = true) :
    GdipGetDC ext (some g) (some out) dev = (ObjectBusy, some g, some out, dev) := by
  simp [GdipGetDC, hb]

theorem get_dc_device_surface (ext : Ext Rgn Dev) (g : GpGraphics Rgn) (out : HDC) (dev : Dev)
    (hb : g.busy = false) (hh : g.hdc ≠ 0) (hi : g.image = none) :
    GdipGetDC ext (some g) (some out) dev =
      (Ok, some { g with busy := true }, some g.hdc, dev) := by
  simp [GdipGetDC, hb, hh, hi, image_is_metafile, image_is_alpha_bitmap]

/-- C5: on a busy context `GdipGetDC` (non-NULL out pointer) returns ObjectBusy
and changes nothing; on a context that is not busy and is bound to a device
surface (`hdc` non-NULL, no image) it returns Ok, yields the context's `hdc`,
sets `busy` and changes no other field. -/
theorem get_dc_busy_and_device (ext : Ext Rgn Dev) (g : GpGraphics Rgn) (out : HDC)
    (dev : Dev) :
    (g.busy = true → GdipGetDC ext (some g) (some out) dev = (ObjectBusy, some g, some out, dev)) ∧
    (g.busy = false → g.hdc ≠ 0 → g.image = none →
      GdipGetDC ext (some g) (some out) dev =
        (Ok, some { g with busy := true }, some g.hdc, dev)) :=
  ⟨get_dc_busy ext g out dev, get_dc_device_surface ext g out dev⟩

theorem get_dc_busy_and_device_witness :
    GdipGetDC sampleExt (some { sampleGraphics with busy := true }) (some 0) [] =
        (ObjectBusy, some { sampleGraphics with busy := true }, some 0, []) ∧
    GdipGetDC sampleExt (some sampleGraphics) (some 0) [] =
        (Ok, some { sampleGraphics with busy := true }, some 5, []) :=
  ⟨(get_dc_busy_and_device sampleExt { sampleGraphics with busy := true } 0 []).1 rfl,
   (get_dc_busy_and_device sampleExt sampleGraphics 0 []).2 rfl (by decide) rfl⟩

/-- C6: `GdipReleaseDC` on a context that is not busy returns InvalidParameter
and changes nothing; on a busy device-surface context without a temporary
surface, releasing the context's own `hdc` returns Ok and clears `busy`, releasing
any other non-NULL handle returns InvalidParameter and leaves the context busy;
and `GdipGetDC` followed by `GdipReleaseDC` of the handle it returned brings an
idle device-surface context back to exactly its prior state. -/
theorem release_dc_idle_state (ext : Ext Rgn Dev) (g : GpGraphics Rgn) (h out : HDC)
    (dev : Dev) :
    (g.busy = false → GdipReleaseDC ext (some g) h dev = (InvalidParameter, some g, dev)) ∧
    (g.busy = true → g.image = none → g.temp_hdc = 0 → g.hdc ≠ 0 →
      GdipReleaseDC ext (some g) g.hdc dev = (Ok, some { g with busy := false }, dev)) ∧
    (g.busy = true → g.image = none → g.temp_hdc = 0 → h ≠ 0 → h ≠ g.hdc →
      GdipReleaseDC ext (some g) h dev = (InvalidParameter, some g, dev)) ∧
    (g.busy = false → g.image = none → g.temp_hdc = 0 → g.hdc ≠ 0 →
      GdipReleaseDC ext (GdipGetDC ext (some g) (some out) dev).2.1
        ((GdipGetDC ext (some g) (some out) dev).2.2.1.getD 0)
        (GdipGetDC ext (some g) (some out) dev).2.2.2 = (Ok, some g, dev)) := by
  refine ⟨?_, ?_, ?_, ?_⟩
  · intro hb
    simp [GdipReleaseDC, hb]
  · intro hb hi ht hh
    have hne : ¬ (0 = g.hdc) := fun e => hh e.symm
    simp [GdipReleaseDC, hb, hi, ht, hh, hne, image_is_metafile]
  · intro hb hi ht h0 hne
    have hne' : ¬ (0 = h) := fun e => h0 e.symm
    simp [GdipReleaseDC, hb, hi, ht, h0, hne, hne', image_is_metafile]
  · intro hb hi ht hh
    have hne : ¬ (0 = g.hdc) := fun e => hh e.symm
    rw [get_dc_device_surface ext g out dev hb hh hi]
    simp only [Option.getD_some]
    simp only [GdipReleaseDC, hi, ht, hh, hne, image_is_metafile, false_or, if_false,
      Bool.true_eq_false, ne_eq, not_true_eq_false, Prod.mk.injEq, Option.some.injEq,
      true_and, and_true]
    cases g
    simp_all

theorem release_dc_idle_state_witness :
    GdipReleaseDC sampleExt (some sampleGraphics) 5 [] =
        (InvalidParameter, some sampleGraphics, []) ∧
    GdipReleaseDC sampleExt (some { sampleGraphics with busy := true }) 5 [] =
        (Ok, some sampleGraphics, []) ∧
    GdipReleaseDC sampleExt (some { sampleGraphics with busy := true }) 6 [] =
        (InvalidParameter, some { sampleGraphics with busy := true }, []) ∧
    GdipReleaseDC sampleExt (GdipGetDC sampleExt (some sampleGraphics) (some 0) []).2.1
        ((GdipGetDC sampleExt (some sampleGraphics) (some 0) []).2.2.1.getD 0)
        (GdipGetDC sampleExt (some sampleGraphics) (some 0) []).2.2.2 =
        (Ok, some sampleGraphics, []) :=
  ⟨(release_dc_idle_state sampleExt sampleGraphics 5 0 []).1 rfl,
   (release_dc_idle_state sampleExt { sampleGraphics with busy := true } 5 0 []).2.1
      rfl rfl rfl (by decide),
   (release_dc_idle_state sampleExt { sampleGraphics with busy := true } 6 0 []).2.2.1
      rfl rfl rfl (by decide) (by decide),
   (release_dc_idle_state sampleExt sampleGraphics 5 0 []).2.2.2 rfl rfl rfl (by decide)⟩

/-- The clip setters that check `busy`: on a busy context each returns
ObjectBusy and leaves the context unchanged (`GdipSetClipHrgn` first builds a
region from the handle and returns the status of that step when it fails). -/
theorem clip_setters_reject_busy (ext : Ext Rgn Dev) (g : GpGraphics Rgn)
    (hb : g.busy = true) :
    (∀ x y w h mode, GdipSetClipRect ext (some g) x y w h mode = (ObjectBusy, some g)) ∧
    (∀ x y w h mode, GdipSetClipRectI ext (some g) x y w h mode = (ObjectBusy, some g)) ∧
    (∀ rgn mode, GdipSetClipRegion ext (some g) (some rgn) mode = (ObjectBusy, some g)) ∧
    (∀ path mode, GdipSetClipPath ext (some g) path mode = (ObjectBusy, some g)) ∧
    (∀ hrgn mode, (ext.GdipCreateRegionHrgn hrgn).1 = Ok →
      GdipSetClipHrgn ext (some g) hrgn mode = (ObjectBusy, some g)) ∧
    (∀ hrgn mode, (GdipSetClipHrgn ext (some g) hrgn mode).2 = some g) ∧
    GdipResetClip ext (some g) = (ObjectBusy, some g) ∧
    (∀ dx dy, GdipTranslateClip ext (some g) dx dy = (ObjectBusy, some g)) ∧
    (∀ dx dy, GdipTranslateClipI ext (some g) dx dy = (ObjectBusy, some g)) := by
  refine ⟨?_, ?_, ?_, ?_, ?_, ?_, ?_, ?_, ?_⟩ <;>
    simp [GdipSetClipRect, GdipSetClipRectI, GdipSetClipRegion, GdipSetClipPath, GdipSetClipHrgn,
      GdipResetClip, GdipTranslateClip, GdipTranslateClipI, hb]
  · intro hrgn hok hne
    exact absurd hok hne
  · intro hrgn
    split <;> rfl

/-- C7 (code defect): `GdipSetClipGraphics` never looks at `busy`.  Whatever the
flag, it replaces the clip by the result of `GdipCombineRegionRegion` and returns
the status of that call; on the busy sample context the clip 0 becomes 7 and the
call returns Ok. -/
theorem set_clip_graphics_ignores_busy :
    (∀ (Rgn Dev : Type) (ext : Ext Rgn Dev) (g src : GpGraphics Rgn) (mode : Int),
      GdipSetClipGraphics ext (some g) (some src) mode =
        ((ext.GdipCombineRegionRegion g.clip src.clip mode).1,
          some { g with clip := (ext.GdipCombineRegionRegion g.clip src.clip mode).2 })) ∧
    GdipSetClipGraphics sampleExt (some { sampleGraphics with busy := true })
        (some { sampleGraphics with clip := 7 }) CombineModeReplace =
      (Ok, some { sampleGraphics with busy := true, clip := 7 }) :=
  ⟨fun _ _ _ _ _ _ => rfl, by decide⟩

/-- The draw and fill entry points that check `busy`: on a busy context, with
arguments that pass their argument checks, each returns ObjectBusy and leaves
the context and the device untouched. -/
theorem draw_fill_reject_busy (ext : Ext Rgn Dev) (g : GpGraphics Rgn) (dev : Dev)
    (pen : GpPen) (brush : GpBrush) (hb : g.busy = true) :
    (∀ x1 y1 x2 y2, GdipDrawLine ext (some g) dev (some pen) x1 y1 x2 y2 =
      (ObjectBusy, some g, dev)) ∧
    (∀ pts count, 2 ≤ count → GdipDrawLines ext (some g) dev (some pen) pts count =
      (ObjectBusy, some g, dev)) ∧
    (∀ x y w h a b, 0 < w → 0 < h → GdipDrawArc ext (some g) dev (some pen) x y w h a b =
      (ObjectBusy, some g, dev)) ∧
    (∀ x1 y1 x2 y2 x3 y3 x4 y4,
      GdipDrawBezier ext (some g) dev (some pen) x1 y1 x2 y2 x3 y3 x4 y4 =
        (ObjectBusy, some g, dev)) ∧
    (∀ pts count t, GdipDrawCurve2 ext (some g) dev (some pen) pts count t =
      (ObjectBusy, some g, dev)) ∧
    (∀ pts count, 0 < count → GdipDrawPolygon ext (some g) dev (some pen) pts count =
      (ObjectBusy, some g, dev)) ∧
    (∀ x y w h, GdipDrawRectangle ext (some g) dev (some pen) x y w h =
      (ObjectBusy, some g, dev)) ∧
    (∀ rs count, 1 ≤ count → GdipDrawRectangles ext (some g) dev (some pen) (some rs) count =
      (ObjectBusy, some g, dev)) ∧
    (∀ x y w h a b, GdipDrawPie ext (some g) dev (some pen) x y w h a b =
      (ObjectBusy, some g, dev)) ∧
    (∀ path, GdipDrawPath ext (some g) dev (some pen) path = (ObjectBusy, some g, dev)) ∧
    (∀ x y w h, GdipDrawEllipse ext (some g) dev (some pen) x y w h =
      (ObjectBusy, some g, dev)) ∧
    (∀ path, GdipFillPath ext (some g) dev (some brush) (some path) =
      (ObjectBusy, some g, dev)) ∧
    (∀ rgn, GdipFillRegion ext (some g) dev (some brush) (some rgn) =
      (ObjectBusy, some g, dev)) ∧
    (∀ x y w h, GdipFillRectangle ext (some g) dev (some brush) x y w h =
      (ObjectBusy, some g, dev)) ∧
    (∀ rs count, 1 ≤ count → GdipFillRectangles ext (some g) dev (some brush) (some rs) count =
      (ObjectBusy, some g, dev)) ∧
    (∀ x y w h, GdipFillEllipse ext (some g) dev (some brush) x y w h =
      (ObjectBusy, some g, dev)) ∧
    (∀ x y w h a b, GdipFillPie ext (some g) dev (some brush) x y w h a b =
      (ObjectBusy, some g, dev)) ∧
    (∀ pts count mode, count ≠ 0 →
      GdipFillPolygon ext (some g) dev (some brush) (some pts) count mode =
        (ObjectBusy, some g, dev)) ∧
    (∀ pts count t mode,
      GdipFillClosedCurve2 ext (some g) dev (some brush) (some pts) count t mode =
        (ObjectBusy, some g, dev)) ∧
    (∀ color, GdipGraphicsClear ext (some g) dev color = (ObjectBusy, some g, dev)) := by
  refine ⟨?_, ?_, ?_, ?_, ?_, ?_, ?_, ?_, ?_, ?_, ?_, ?_, ?_, ?_, ?_, ?_, ?_, ?_, ?_, ?_⟩
  · intros; simp [GdipDrawLine, stroke, hb]
  · intro pts count hc
    have : ¬ count < 2 := by omega
    simp [GdipDrawLines, stroke, hb, this]
  · intro x y w h a b hw hh
    have h1 : ¬ w ≤ 0 := not_le.mpr hw
    have h2 : ¬ h ≤ 0 := not_le.mpr hh
    simp [GdipDrawArc, stroke, hb, h1, h2]
  · intros; simp [GdipDrawBezier, stroke, hb]
  · intros; simp [GdipDrawCurve2, hb]
  · intro pts count hc
    have : ¬ count ≤ 0 := by omega
    simp [GdipDrawPolygon, stroke_ok, hb, this]
  · intros; simp [GdipDrawRectangle, stroke_ok, hb]
  · intro rs count hc
    have : ¬ count < 1 := by omega
    simp [GdipDrawRectangles, hb, this]
  · intros; simp [GdipDrawPie, stroke_ok, hb]
  · intros; simp [GdipDrawPath, hb]
  · intros; simp [GdipDrawEllipse, stroke_ok, hb]
  · intros; simp [GdipFillPath, hb]
  · intros; simp [GdipFillRegion, hb]
  · intros; simp [GdipFillRectangle, hb]
  · intro rs count hc
    obtain ⟨n, hn⟩ : ∃ n, count.toNat = n + 1 := ⟨count.toNat - 1, by omega⟩
    simp [GdipFillRectangles, hn, fill_rectangles_loop, GdipFillRectangle, hb]
  · intros; simp [GdipFillEllipse, hb]
  · intros; simp [GdipFillPie, hb]
  · intro pts count mode hc
    simp [GdipFillPolygon, hb, hc]
  · intros; simp [GdipFillClosedCurve2, hb]
  · intros; simp [GdipGraphicsClear, hb]

/-- C8 (code defect): `GdipDrawImagePointsRect` has no busy check.  On the busy
sample context, with three points and a picture image, it returns Ok and hands
the picture to GDI; `GdipFillRectangles` with a count of 0 returns Ok as well. -/
theorem draw_image_points_rect_ignores_busy :
    GdipDrawImagePointsRect sampleExt (some { sampleGraphics with busy := true }) []
        (some samplePicture) (some [⟨0, 0⟩, ⟨4, 0⟩, ⟨0, 4⟩]) 3 0 0 4 4 UnitPixel none =
      (Ok, some { sampleGraphics with busy := true },
        [.PictureRender samplePicture [⟨0, 0⟩, ⟨4, 0⟩, ⟨0, 4⟩, ⟨4, 4⟩] 0 0 4 4]) ∧
    GdipFillRectangles sampleExt (some { sampleGraphics with busy := true }) []
        (some sampleBrush) (some []) 0 =
      (Ok, some { sampleGraphics with busy := true }, []) := by
  constructor
  · norm_num [GdipDrawImagePointsRect, transform_and_round_points, sampleExt, samplePicture,
      sampleGraphics]
  · rfl

/-- What the manual pixel route reports as unsupported: `brush_fill_pixels`
returns NotImplemented for a brush of unknown kind, a hatch style without
pattern data and a texture whose image is not a bitmap, and
`alpha_blend_pixels_hrgn` returns NotImplemented for a metafile destination. -/
theorem manual_route_not_implemented (ext : Ext Rgn Dev) (g : GpGraphics Rgn) (dev : Dev)
    (buf : List ARGB) (area : GpRect) (stride : Int) :
    (∀ bt, (brush_fill_pixels ext g (.Unknown bt) buf area stride).1 = NotImplemented) ∧
    (∀ h : GpHatch, ext.get_hatch_data h.hatchstyle = none →
      (brush_fill_pixels ext g (.Hatch h) buf area stride).1 = NotImplemented) ∧
    (∀ t : GpTexture, t.image.type ≠ ImageTypeBitmap →
      (brush_fill_pixels ext g (.Texture t) buf area stride).1 = NotImplemented) ∧
    (∀ img x y w h hrgn, g.image = some img → img.type = ImageTypeMetafile →
      (alpha_blend_pixels_hrgn ext g dev x y buf w h stride hrgn).1 = NotImplemented) := by
  refine ⟨?_, ?_, ?_, ?_⟩
  · intro bt; rfl
  · intro h hh; simp [brush_fill_pixels, hh]
  · intro t ht; simp [brush_fill_pixels, ht]
  · intro img x y w h hrgn hi ht
    simp [alpha_blend_pixels_hrgn, hi, ht, ImageTypeMetafile, ImageTypeBitmap]

/-- C9: `GdipFillPath` and `GdipFillRegion` never return NotImplemented.  On a
context that is not busy the accelerated route is tried only when no image is
bound; a status other than NotImplemented from it is the result; when it is
skipped or returns NotImplemented the manual pixel route runs, and a
NotImplemented from the manual route is turned into Ok. -/
theorem fill_never_not_implemented (ext : Ext Rgn Dev) (graphics : Option (GpGraphics Rgn))
    (dev : Dev) (brush : Option GpBrush) (path : Option GpPath) (region : Option Rgn) :
    (GdipFillPath ext graphics dev brush path).1 ≠ NotImplemented ∧
    (GdipFillRegion ext graphics dev brush region).1 ≠ NotImplemented ∧
    (∀ g b p, g.busy = false → g.image ≠ none →
      GdipFillPath ext (some g) dev (some b) (some p) =
        (if (SOFTWARE_GdipFillPath ext g dev b p).1 = NotImplemented then Ok
          else (SOFTWARE_GdipFillPath ext g dev b p).1,
         some (SOFTWARE_GdipFillPath ext g dev b p).2.1,
         (SOFTWARE_GdipFillPath ext g dev b p).2.2)) ∧
    (∀ g b p, g.busy = false → g.image = none →
      (GDI32_GdipFillPath ext g dev b p).1 ≠ NotImplemented →
      GdipFillPath ext (some g) dev (some b) (some p) =
        ((GDI32_GdipFillPath ext g dev b p).1, some g, (GDI32_GdipFillPath ext g dev b p).2)) ∧
    (∀ g b p, g.busy = false → g.image = none →
      (GDI32_GdipFillPath ext g dev b p).1 = NotImplemented →
      GdipFillPath ext (some g) dev (some b) (some p) =
        (if (SOFTWARE_GdipFillPath ext g (GDI32_GdipFillPath ext g dev b p).2 b p).1
            = NotImplemented then Ok
          else (SOFTWARE_GdipFillPath ext g (GDI32_GdipFillPath ext g dev b p).2 b p).1,
         some (SOFTWARE_GdipFillPath ext g (GDI32_GdipFillPath ext g dev b p).2 b p).2.1,
         (SOFTWARE_GdipFillPath ext g (GDI32_GdipFillPath ext g dev b p).2 b p).2.2)) ∧
    (∀ g b r, g.busy = false → g.image ≠ none →
      GdipFillRegion ext (some g) dev (some b) (some r) =
        (if (SOFTWARE_GdipFillRegion ext g dev b r).1 = NotImplemented then Ok
          else (SOFTWARE_GdipFillRegion ext g dev b r).1,
         some (SOFTWARE_GdipFillRegion ext g dev b r).2.1,
         (SOFTWARE_GdipFillRegion ext g dev b r).2.2)) ∧
    (∀ g b r, g.busy = false → g.image = none →
      (GDI32_GdipFillRegion ext g dev b r).1 ≠ NotImplemented →
      GdipFillRegion ext (some g) dev (some b) (some r) =
        ((GDI32_GdipFillRegion ext g dev b r).1, some g,
          (GDI32_GdipFillRegion ext g dev b r).2)) ∧
    (∀ g b r, g.busy = false → g.image = none →
      (GDI32_GdipFillRegion ext g dev b r).1 = NotImplemented →
      GdipFillRegion ext (some g) dev (some b) (some r) =
        (if (SOFTWARE_GdipFillRegion ext g (GDI32_GdipFillRegion ext g dev b r).2 b r).1
            = NotImplemented then Ok
          else (SOFTWARE_GdipFillRegion ext g (GDI32_GdipFillRegion ext g dev b r).2 b r).1,
         some (SOFTWARE_GdipFillRegion ext g (GDI32_GdipFillRegion ext g dev b r).2 b r).2.1,
         (SOFTWARE_GdipFillRegion ext g (GDI32_GdipFillRegion ext g dev b r).2 b r).2.2)) := by
  refine ⟨?_, ?_, ?_, ?_, ?_, ?_, ?_, ?_⟩
  · simp only [GdipFillPath]
    split
    · split_ifs <;> simp_all
    · simp
  · simp only [GdipFillRegion]
    split
    · split_ifs <;> simp_all
    · simp
  · intro g b p hb hi
    simp only [GdipFillPath, hb, hi]
    split_ifs <;> simp_all
  · intro g b p hb hi hne
    simp [GdipFillPath, hb, hi, hne]
  · intro g b p hb hi he
    simp only [GdipFillPath, hb, hi, he]
    split_ifs <;> simp_all
  · intro g b r hb hi
    simp only [GdipFillRegion, hb, hi]
    split_ifs <;> simp_all
  · intro g b r hb hi hne
    simp [GdipFillRegion, hb, hi, hne]
  · intro g b r hb hi he
    simp only [GdipFillRegion, hb, hi, he]
    split_ifs <;> simp_all

theorem fill_never_not_implemented_witness :
    (GdipFillPath sampleExt (some sampleBitmapGraphics) [] (some (.Unknown 9))
        (some ⟨FillModeAlternate, ⟨0, [], []⟩⟩)).1 ≠ NotImplemented ∧
    GdipFillRegion sampleExt (some sampleBitmapGraphics) [] (some sampleBrush) (some 3) =
      (if (SOFTWARE_GdipFillRegion sampleExt sampleBitmapGraphics [] sampleBrush 3).1
            = NotImplemented then Ok
        else (SOFTWARE_GdipFillRegion sampleExt sampleBitmapGraphics [] sampleBrush 3).1,
       some (SOFTWARE_GdipFillRegion sampleExt sampleBitmapGraphics [] sampleBrush 3).2.1,
       (SOFTWARE_GdipFillRegion sampleExt sampleBitmapGraphics [] sampleBrush 3).2.2) ∧
    GdipFillPath sampleExt (some sampleGraphics) [] (some sampleBrush)
        (some ⟨FillModeAlternate, ⟨0, [], []⟩⟩) =
      ((GDI32_GdipFillPath sampleExt sampleGraphics [] sampleBrush
          ⟨FillModeAlternate, ⟨0, [], []⟩⟩).1, some sampleGraphics,
        (GDI32_GdipFillPath sampleExt sampleGraphics [] sampleBrush
          ⟨FillModeAlternate, ⟨0, [], []⟩⟩).2) :=
  ⟨(fill_never_not_implemented sampleExt (some sampleBitmapGraphics) [] (some (.Unknown 9))
      (some ⟨FillModeAlternate, ⟨0, [], []⟩⟩) none).1,
   (fill_never_not_implemented sampleExt none [] none none none).2.2.2.2.2.1
      sampleBitmapGraphics sampleBrush 3 rfl (by decide),
   (fill_never_not_implemented sampleExt none [] none none none).2.2.2.1
      sampleGraphics sampleBrush ⟨FillModeAlternate, ⟨0, [], []⟩⟩ rfl rfl (by decide)⟩

/-! ### Loops that write one colour -/

/-- A left fold whose steps keep an invariant `I` and a property `K`. -/
theorem foldl_keep {α β : Type} (f : β → α → β) (R : α → Prop) (I K : β → Prop)
    (hI : ∀ b a, R a → I b → I (f b a))
    (hK : ∀ b a, R a → I b → K b → K (f b a)) :
    ∀ (l : List α) (b : β), (∀ a ∈ l, R a) → I b → K b →
      I (l.foldl f b) ∧ K (l.foldl f b) := by
  intro l
  induction l with
  | nil => intro b _ hi hk; exact ⟨hi, hk⟩
  | cons a rest ih =>
    intro b hR hi hk
    have ha : R a := hR a (List.mem_cons_self a rest)
    exact ih (f b a) (fun x hx => hR x (List.mem_cons_of_mem a hx)) (hI b a ha hi)
      (hK b a ha hi hk)

/-- A left fold in which the step for `a` establishes `Q a` and no step destroys
an established `Q a'`: afterwards `Q a` holds for every element of the list. -/
theorem foldl_establish {α β : Type} (f : β → α → β) (R : α → Prop) (I : β → Prop)
    (Q : α → β → Prop)
    (hI : ∀ b a, R a → I b → I (f b a))
    (hset : ∀ b a, R a → I b → Q a (f b a))
    (hkeep : ∀ b a a', R a → I b → Q a' b → Q a' (f b a)) :
    ∀ (l : List α) (b : β), (∀ a ∈ l, R a) → I b →
      I (l.foldl f b) ∧ ∀ a ∈ l, Q a (l.foldl f b) := by
  intro l
  induction l with
  | nil => intro b _ hi; exact ⟨hi, by simp⟩
  | cons a rest ih =>
    intro b hR hi
    have ha : R a := hR a (List.mem_cons_self a rest)
    have hRrest : ∀ x ∈ rest, R x := fun x hx => hR x (List.mem_cons_of_mem a hx)
    obtain ⟨hi', hq⟩ := ih (f b a) hRrest (hI b a ha hi)
    refine ⟨hi', ?_⟩
    intro x hx
    rcases List.mem_cons.mp hx with rfl | hx'
    · exact (foldl_keep f R I (Q x) hI (fun b a ra ib qb => hkeep b a x ra ib qb) rest (f b x)
        hRrest (hI b x ha hi) (hset b x ha hi)).2
    · exact hq x hx'

theorem store_pixel_length (buf : List ARGB) (index : Int) (color : ARGB) :
    (store_pixel buf index color).length = buf.length := by
  unfold store_pixel
  split <;> simp

theorem store_pixel_same (buf : List ARGB) (index : Int) (color : ARGB) (h0 : 0 ≤ index)
    (hlt : index.toNat < buf.length) :
    (store_pixel buf index color).getD index.toNat 0 = color := by
  have hn : ¬ index < 0 := by omega
  simp [store_pixel, hn, List.getD_eq_getElem?_getD, List.getElem?_set, hlt]

theorem store_pixel_keep (buf : List ARGB) (index : Int) (color : ARGB) (i : Nat)
    (h : buf.getD i 0 = color) : (store_pixel buf index color).getD i 0 = color := by
  unfold store_pixel
  split
  · exact h
  · by_cases hi : index.toNat = i
    · by_cases hl : i < buf.length
      · subst hi
        simp [List.getD_eq_getElem?_getD, List.getElem?_set, hl]
      · have hnone : buf.getD i 0 = 0 := by
          simp [List.getD_eq_getElem?_getD, List.getElem?_eq_none (not_lt.mp hl)]
        have hnone' : (buf.set index.toNat color).getD i 0 = 0 := by
          simp [List.getD_eq_getElem?_getD, List.getElem?_eq_none, not_lt.mp hl]
        rw [hnone', ← hnone, h]
    · simp only [List.getD_eq_getElem?_getD, List.getElem?_set, hi, if_false] at h ⊢
      exact h

theorem pixel_index_bound (x y w h : Nat) (hx : x < w) (hy : y < h) :
    x + y * w < w * h := by
  have h1 : (y + 1) * w ≤ h * w := Nat.mul_le_mul_right w hy
  have h2 : (y + 1) * w = y * w + w := by ring
  have h3 : h * w = w * h := Nat.mul_comm h w
  omega

/-- The raster that `fill_pixels_loop` leaves when every pixel gets the colour
`c`: all `Width * Height` pixels hold `c`. -/
theorem fill_pixels_loop_const (buf : List ARGB) (area : GpRect) (c : ARGB)
    (hlen : buf.length = (area.Width * area.Height).toNat) (x y : Nat)
    (hx : (x : Int) < area.Width) (hy : (y : Int) < area.Height) :
    (fill_pixels_loop buf area area.Width (fun _ _ => c)).getD (x + y * area.Width.toNat) 0
      = c := by
  have hw : (area.Width.toNat : Int) = area.Width := Int.toNat_of_nonneg (by omega)
  have hh : (area.Height.toNat : Int) = area.Height := Int.toNat_of_nonneg (by omega)
  have hL : (area.Width * area.Height).toNat = area.Width.toNat * area.Height.toNat := by
    rw [← hw, ← hh]
    simp only [Int.toNat_ofNat, ← Nat.cast_mul]
  -- pixel property and loop invariants
  let I : List ARGB → Prop := fun b => b.length = area.Width.toNat * area.Height.toNat
  let K : Nat → Nat → List ARGB → Prop :=
    fun x' y' b => b.getD (x' + y' * area.Width.toNat) 0 = c
  have hidx : ∀ x' y' : Nat, ((x' : Int) + (y' : Int) * area.Width).toNat
      = x' + y' * area.Width.toNat := by
    intro x' y'
    rw [← hw]
    simp only [← Nat.cast_mul, ← Nat.cast_add, Int.toNat_ofNat]
  have hstepI : ∀ (x' : Nat) (b : List ARGB) (y' : Nat), I b →
      I (store_pixel b ((x' : Int) + (y' : Int) * area.Width) c) := by
    intro x' b y' hb
    simp only [I, store_pixel_length]
    exact hb
  have inner : ∀ (x' : Nat), x' < area.Width.toNat → ∀ b, I b →
      I ((List.range area.Height.toNat).foldl
          (fun buf (y : Nat) => store_pixel buf ((x' : Int) + (y : Int) * area.Width) c) b) ∧
      ∀ y' ∈ List.range area.Height.toNat,
        K x' y' ((List.range area.Height.toNat).foldl
          (fun buf (y : Nat) => store_pixel buf ((x' : Int) + (y : Int) * area.Width) c) b) := by
    intro x' hx' b hb
    refine foldl_establish _ (fun y' => y' < area.Height.toNat) I (fun y' b => K x' y' b)
      (fun b y' _ ib => hstepI x' b y' ib) ?_ ?_ _ b (fun a ha => List.mem_range.mp ha) hb
    · intro b y' hy' ib
      have hlt := pixel_index_bound x' y' _ _ hx' hy'
      have := store_pixel_same b ((x' : Int) + (y' : Int) * area.Width) c
        (by rw [← hw]; positivity)
        (by rw [hidx]; simp only [I] at ib; omega)
      rw [hidx] at this
      exact this
    · intro b y' a' _ _ hk
      exact store_pixel_keep b _ c _ hk
  have innerKeep : ∀ (x' : Nat) (P : List ARGB → Prop),
      (∀ b idx, P b → P (store_pixel b idx c)) → ∀ b, I b → P b →
      P ((List.range area.Height.toNat).foldl
          (fun buf (y : Nat) => store_pixel buf ((x' : Int) + (y : Int) * area.Width) c) b) := by
    intro x' P hP b hb hp
    exact (foldl_keep _ (fun _ => True) I P (fun b y' _ ib => hstepI x' b y' ib)
      (fun b y' _ _ pb => hP b _ pb) _ b (fun _ _ => trivial) hb hp).2
  have outer := foldl_establish
    (fun buf (x' : Nat) => (List.range area.Height.toNat).foldl
      (fun buf (y : Nat) => store_pixel buf ((x' : Int) + (y : Int) * area.Width) c) buf)
    (fun x' => x' < area.Width.toNat) I
    (fun x' b => ∀ y' < area.Height.toNat, K x' y' b)
    (fun b x' hx' ib => (inner x' hx' b ib).1)
    (fun b x' hx' ib y' hy' => (inner x' hx' b ib).2 y' (List.mem_range.mpr hy'))
    (fun b x' a' _ ib hq =>
      innerKeep x' (fun b => ∀ y' < area.Height.toNat, K a' y' b)
        (fun b idx pb y' hy' => store_pixel_keep b idx c _ (pb y' hy')) b ib hq)
    (List.range area.Width.toNat) buf (fun a ha => List.mem_range.mp ha)
    (by simp only [I]; rw [hlen, hL])
  have hxn : x < area.Width.toNat := by omega
  have hyn : y < area.Height.toNat := by omega
  exact outer.2 x (List.mem_range.mpr hxn) y hyn

theorem set_pixel_shape (img dst : GpImage) (x y : Int) (c : ARGB) (h : SameShape img dst) :
    SameShape img (GdipBitmapSetPixel dst x y c).2 := by
  unfold GdipBitmapSetPixel
  split
  · exact h
  · simpa [SameShape] using h

theorem bitmap_index_bound (img : GpImage) (x y : Int) (hx0 : 0 ≤ x) (hx : x < img.width)
    (hy0 : 0 ≤ y) (hy : y < img.height) :
    0 ≤ y * img.width + x ∧ (y * img.width + x).toNat < (img.width * img.height).toNat := by
  have h1 : 0 ≤ y * img.width := Int.mul_nonneg hy0 (by omega)
  have h2 : (y + 1) * img.width ≤ img.height * img.width :=
    Int.mul_le_mul_of_nonneg_right (by omega) (by omega)
  have h3 : (y + 1) * img.width = y * img.width + img.width := by ring
  have h4 : img.height * img.width = img.width * img.height := Int.mul_comm _ _
  constructor
  · omega
  · have : y * img.width + x < img.width * img.height := by omega
    omega

theorem set_pixel_same (img dst : GpImage) (x y : Int) (c : ARGB) (h : SameShape img dst)
    (hx0 : 0 ≤ x) (hx : x < img.width) (hy0 : 0 ≤ y) (hy : y < img.height) :
    GdipBitmapGetPixel (GdipBitmapSetPixel dst x y c).2 x y = (Ok, c) := by
  obtain ⟨hw, hh, hl⟩ := h
  obtain ⟨hi0, hil⟩ := bitmap_index_bound img x y hx0 hx hy0 hy
  have hoob : ¬ (x < 0 ∨ y < 0 ∨ x ≥ dst.width ∨ y ≥ dst.height) := by omega
  simp only [GdipBitmapSetPixel, GdipBitmapGetPixel, hoob, if_false, Prod.mk.injEq, true_and]
  rw [hw]
  simp [List.getD_eq_getElem?_getD, List.getElem?_set, hl, hil]

theorem set_pixel_keep (dst : GpImage) (x y qx qy : Int) (c : ARGB)
    (hq : GdipBitmapGetPixel dst qx qy = (Ok, c)) :
    GdipBitmapGetPixel (GdipBitmapSetPixel dst x y c).2 qx qy = (Ok, c) := by
  unfold GdipBitmapSetPixel
  split
  · exact hq
  · unfold GdipBitmapGetPixel at hq ⊢
    simp only
    split at hq
    · simp at hq
    · rename_i hin
      simp only [hin, if_false, Prod.mk.injEq, true_and] at hq ⊢
      have := store_pixel_keep dst.bits (y * dst.width + x) c (qy * dst.width + qx).toNat hq
      unfold store_pixel at this
      split at this
      · rename_i hneg
        -- a negative index cannot arise inside the bitmap
        have h1 : 0 ≤ y * dst.width := Int.mul_nonneg (by omega) (by omega)
        omega
      · exact this

/-- Result of `alpha_blend_pixels` on a bitmap destination with a source raster whose
`src_width * src_height` pixels all hold an opaque colour `c`: every destination
pixel under the raster holds `c` afterwards. -/
theorem alpha_blend_pixels_opaque (ext : Ext Rgn Dev) (g : GpGraphics Rgn) (dev : Dev)
    (img : GpImage) (c : ARGB) (src : List ARGB) (dst_x dst_y w h : Int)
    (hover : ∀ bg fg, (fg >>> 24) &&& 0xff = 0xff → ext.color_over bg fg = fg)
    (hc : (c >>> 24) &&& 0xff = 0xff)
    (hi : g.image = some img) (ht : img.type = ImageTypeBitmap)
    (hbits : img.bits.length = (img.width * img.height).toNat)
    (hsrc : ∀ x y : Nat, (x : Int) < w → (y : Int) < h → src.getD (x + y * w.toNat) 0 = c) :
    ∃ dst, alpha_blend_pixels ext g dev dst_x dst_y src 0 w h (w * 4)
        = (Ok, { g with image := some dst }, dev) ∧
      ∀ x y : Nat, (x : Int) < w → (y : Int) < h →
        0 ≤ x + dst_x → x + dst_x < img.width → 0 ≤ y + dst_y → y + dst_y < img.height →
        GdipBitmapGetPixel dst (x + dst_x) (y + dst_y) = (Ok, c) := by
  have hread : ∀ x y : Nat, (x : Int) < w → (y : Int) < h →
      read_argb src (0 + w * 4 * (y : Int) + 4 * (x : Int)) = c := by
    intro x y hx hy
    have hw0 : (w.toNat : Int) = w := Int.toNat_of_nonneg (by omega)
    have hnn : ¬ (0 + w * 4 * (y : Int) + 4 * (x : Int) < 0) := by
      have : 0 ≤ w * 4 * (y : Int) := by
        rw [← hw0]; positivity
      omega
    have hdiv : (0 + w * 4 * (y : Int) + 4 * (x : Int)) / 4 = (x : Int) + (y : Int) * w := by
      have : 0 + w * 4 * (y : Int) + 4 * (x : Int) = 4 * ((x : Int) + (y : Int) * w) := by ring
      rw [this]
      exact Int.mul_ediv_cancel_left _ (by norm_num)
    have hidx : ((x : Int) + (y : Int) * w).toNat = x + y * w.toNat := by
      rw [← hw0]
      simp only [← Nat.cast_mul, ← Nat.cast_add, Int.toNat_ofNat]
    simp only [read_argb, hnn, if_false, hdiv, hidx]
    exact hsrc x y hx hy
  -- one step of the inner loop stores `c`
  have hstep : ∀ (bmp : GpImage) (x y : Nat), (x : Int) < w → (y : Int) < h →
      alpha_blend_pixel ext dst_x dst_y src 0 (w * 4) bmp x y
        = (GdipBitmapSetPixel bmp (x + dst_x) (y + dst_y) c).2 := by
    intro bmp x y hx hy
    simp only [alpha_blend_pixel, hread x y hx hy, hover _ c hc]
  let I : GpImage → Prop := fun b => SameShape img b
  let K : Nat → Nat → GpImage → Prop := fun x y b =>
    0 ≤ (x : Int) + dst_x → (x : Int) + dst_x < img.width → 0 ≤ (y : Int) + dst_y →
      (y : Int) + dst_y < img.height →
      GdipBitmapGetPixel b (x + dst_x) (y + dst_y) = (Ok, c)
  have inner : ∀ (x : Nat), (x : Int) < w → ∀ b, I b →
      I ((List.range h.toNat).foldl
          (fun bmp (y : Nat) => alpha_blend_pixel ext dst_x dst_y src 0 (w * 4) bmp x y) b) ∧
      ∀ y ∈ List.range h.toNat,
        K x y ((List.range h.toNat).foldl
          (fun bmp (y : Nat) => alpha_blend_pixel ext dst_x dst_y src 0 (w * 4) bmp x y) b) := by
    intro x hx b hb
    refine foldl_establish _ (fun y : Nat => (y : Int) < h) I (fun y b => K x y b) ?_ ?_ ?_ _ b
      (fun a ha => by have := List.mem_range.mp ha; omega) hb
    · intro b y hy ib
      rw [hstep b x y hx hy]
      exact set_pixel_shape img b _ _ c ib
    · intro b y hy ib h1 h2 h3 h4
      rw [hstep b x y hx hy]
      exact set_pixel_same img b _ _ c ib h1 h2 h3 h4
    · intro b y y' hy ib hk h1 h2 h3 h4
      rw [hstep b x y hx hy]
      exact set_pixel_keep b _ _ _ _ c (hk h1 h2 h3 h4)
  have innerKeep : ∀ (x : Nat), (x : Int) < w → ∀ (P : GpImage → Prop),
      (∀ b px py, P b → P (GdipBitmapSetPixel b px py c).2) → ∀ b, I b → P b →
      P ((List.range h.toNat).foldl
          (fun bmp (y : Nat) => alpha_blend_pixel ext dst_x dst_y src 0 (w * 4) bmp x y) b) := by
    intro x hx P hP b hb hp
    refine (foldl_keep _ (fun y : Nat => (y : Int) < h) I P ?_ ?_ _ b
      (fun a ha => by have := List.mem_range.mp ha; omega) hb hp).2
    · intro b y hy ib
      rw [hstep b x y hx hy]
      exact set_pixel_shape img b _ _ c ib
    · intro b y hy _ pb
      rw [hstep b x y hx hy]
      exact hP b _ _ pb
  have outer := foldl_establish
    (fun bmp (x : Nat) => (List.range h.toNat).foldl
      (fun bmp (y : Nat) => alpha_blend_pixel ext dst_x dst_y src 0 (w * 4) bmp x y) bmp)
    (fun x : Nat => (x : Int) < w) I
    (fun x b => ∀ y : Nat, (y : Int) < h → K x y b)
    (fun b x hx ib => (inner x hx b ib).1)
    (fun b x hx ib y hy =>
      (inner x hx b ib).2 y (List.mem_range.mpr (by omega)))
    (fun b x x' hx ib hq =>
      innerKeep x hx (fun b => ∀ y : Nat, (y : Int) < h → K x' y b)
        (fun b px py pb y hy h1 h2 h3 h4 =>
          set_pixel_keep b _ _ _ _ c (pb y hy h1 h2 h3 h4)) b ib hq)
    (List.range w.toNat) img (fun a ha => by have := List.mem_range.mp ha; omega)
    ⟨rfl, rfl, hbits⟩
  refine ⟨_, by simp only [alpha_blend_pixels, hi, ht, if_true]; rfl, ?_⟩
  intro x y hx hy h1 h2 h3 h4
  exact outer.2 x (List.mem_range.mpr (by omega)) y hy h1 h2 h3 h4

/-- C10: the manual fill route with a solid brush.  `brush_fill_pixels` over the
fill area returns Ok and every raster pixel equals the brush colour.  When the
brush colour has alpha 255 and the context is bitmap-backed (whatever the
destination held, all-zero pixels included), `alpha_blend_pixels` of that raster
at the origin of the fill area returns Ok and every destination pixel covered by
the fill area then equals the brush colour exactly; `color_over` is assumed to
return the foreground colour when its alpha is 255. -/
theorem solid_fill_manual_route (ext : Ext Rgn Dev) (g : GpGraphics Rgn) (dev : Dev)
    (img : GpImage) (color : ARGB) (fill_area : GpRect) :
    (brush_fill_pixels ext g (.SolidFill ⟨color⟩)
        (List.replicate (fill_area.Width * fill_area.Height).toNat 0) fill_area
        fill_area.Width).1 = Ok ∧
    (∀ x y : Int, 0 ≤ x → x < fill_area.Width → 0 ≤ y → y < fill_area.Height →
      (brush_fill_pixels ext g (.SolidFill ⟨color⟩)
        (List.replicate (fill_area.Width * fill_area.Height).toNat 0) fill_area
        fill_area.Width).2.getD (x + y * fill_area.Width).toNat 0 = color) ∧
    ((∀ bg fg, (fg >>> 24) &&& 0xff = 0xff → ext.color_over bg fg = fg) →
      (color >>> 24) &&& 0xff = 0xff →
      g.image = some img → img.type = ImageTypeBitmap →
      img.bits.length = (img.width * img.height).toNat →
      ∃ dst,
        alpha_blend_pixels ext g dev fill_area.X fill_area.Y
          (brush_fill_pixels ext g (.SolidFill ⟨color⟩)
            (List.replicate (fill_area.Width * fill_area.Height).toNat 0) fill_area
            fill_area.Width).2
          0 fill_area.Width fill_area.Height (fill_area.Width * 4)
          = (Ok, { g with image := some dst }, dev) ∧
        ∀ x y : Int, fill_area.X ≤ x → x < fill_area.X + fill_area.Width →
          fill_area.Y ≤ y → y < fill_area.Y + fill_area.Height →
          0 ≤ x → x < img.width → 0 ≤ y → y < img.height →
          GdipBitmapGetPixel dst x y = (Ok, color)) := by
  have hraster : ∀ x y : Nat, (x : Int) < fill_area.Width → (y : Int) < fill_area.Height →
      (brush_fill_pixels ext g (.SolidFill ⟨color⟩)
        (List.replicate (fill_area.Width * fill_area.Height).toNat 0) fill_area
        fill_area.Width).2.getD (x + y * fill_area.Width.toNat) 0 = color := by
    intro x y hx hy
    simp only [brush_fill_pixels]
    exact fill_pixels_loop_const _ fill_area color (by simp) x y hx hy
  refine ⟨rfl, ?_, ?_⟩
  · intro x y hx0 hx hy0 hy
    have hw0 : (fill_area.Width.toNat : Int) = fill_area.Width :=
      Int.toNat_of_nonneg (by omega)
    have hidx : (x + y * fill_area.Width).toNat = x.toNat + y.toNat * fill_area.Width.toNat := by
      have hxn : (x.toNat : Int) = x := Int.toNat_of_nonneg hx0
      have hyn : (y.toNat : Int) = y := Int.toNat_of_nonneg hy0
      rw [← hxn, ← hyn, ← hw0]
      simp only [← Nat.cast_mul, ← Nat.cast_add, Int.toNat_ofNat]
    rw [hidx]
    exact hraster x.toNat y.toNat (by omega) (by omega)
  · intro hover hc hi ht hbits
    obtain ⟨dst, hblend, hpix⟩ := alpha_blend_pixels_opaque ext g dev img color _ fill_area.X
      fill_area.Y fill_area.Width fill_area.Height hover hc hi ht hbits hraster
    refine ⟨dst, hblend, ?_⟩
    intro x y hx1 hx2 hy1 hy2 hx0 hxw hy0 hyh
    have hxn : ((x - fill_area.X).toNat : Int) = x - fill_area.X :=
      Int.toNat_of_nonneg (by omega)
    have hyn : ((y - fill_area.Y).toNat : Int) = y - fill_area.Y :=
      Int.toNat_of_nonneg (by omega)
    have := hpix (x - fill_area.X).toNat (y - fill_area.Y).toNat (by omega) (by omega)
      (by omega) (by omega) (by omega) (by omega)
    rw [hxn, hyn] at this
    simpa using this

theorem solid_fill_manual_route_witness :
    ∃ dst,
      alpha_blend_pixels sampleExt sampleBitmapGraphics [] 0 0
        (brush_fill_pixels sampleExt sampleBitmapGraphics (.SolidFill ⟨0xFFFF0000⟩)
          (List.replicate 4 0) ⟨0, 0, 2, 2⟩ 2).2
        0 2 2 (2 * 4)
        = (Ok, { sampleBitmapGraphics with image := some dst }, []) ∧
      ∀ x y : Int, 0 ≤ x → x < 0 + 2 → 0 ≤ y → y < 0 + 2 →
        0 ≤ x → x < 2 → 0 ≤ y → y < 2 →
        GdipBitmapGetPixel dst x y = (Ok, 0xFFFF0000) :=
  (solid_fill_manual_route sampleExt sampleBitmapGraphics [] sampleBitmap 0xFFFF0000
    ⟨0, 0, 2, 2⟩).2.2 (fun bg fg h => by simp [sampleExt, h]) (by decide) rfl rfl (by decide)

/-- The manual route evaluated: a 2 x 2 zeroed bitmap filled with opaque red. -/
theorem solid_fill_manual_route_evaluated :
    alpha_blend_pixels sampleExt sampleBitmapGraphics [] 0 0
        (brush_fill_pixels sampleExt sampleBitmapGraphics (.SolidFill ⟨0xFFFF0000⟩)
          (List.replicate 4 0) ⟨0, 0, 2, 2⟩ 2).2
        0 2 2 8
      = (Ok, { sampleBitmapGraphics with
          image := some { sampleBitmap with
            bits := [0xFFFF0000, 0xFFFF0000, 0xFFFF0000, 0xFFFF0000] } }, []) := by
  decide

/-- Distinct ids are an invariant of the contexts that container calls produce:
after fewer than 2^32 calls on a freshly created context the ids on the stack
are pairwise distinct. -/
theorem call_containers_ids_nodup (ext : Ext Rgn Dev) (g0 : GpGraphics Rgn)
    (calls : List ContainerCall) (hstack : g0.containers = []) (hcontid : g0.contid = 0)
    (hlen : calls.length < UINT_MODULUS) :
    ∃ g, (call_containers ext (some g0) calls).1 = some g ∧
      (g.containers.map (fun d => d.contid)).Nodup := by
  have hinv0 : LiveIdsOrdered g0 := by simp [LiveIdsOrdered, hstack]
  obtain ⟨g, hg, hinv, -⟩ := call_containers_inv ext calls g0 hinv0 (by omega)
  refine ⟨g, hg, ?_⟩
  rw [List.Nodup, List.pairwise_map]
  exact hinv.2.imp (fun h => by omega)

/-! ### Hatch fills -/

/-- Where the absolute coordinates `x + X` and `y + Y` are not negative the hatch
loop selects the bit that the specification names. -/
theorem hatch_bit_nonneg (hatch_data : List Nat) (fill_area : GpRect) (x y : Int)
    (hx : 0 ≤ x + fill_area.X) (hy : 0 ≤ y + fill_area.Y) :
    hatch_bit hatch_data fill_area x y = hatch_bit_spec hatch_data fill_area x y := by
  have h1 : Int.tmod (x + fill_area.X) 8 = (x + fill_area.X) % 8 :=
    Int.tmod_eq_emod hx (by decide)
  have h2 : Int.tmod (y + fill_area.Y) 8 = (y + fill_area.Y) % 8 :=
    Int.tmod_eq_emod hy (by decide)
  have h3 : 0 ≤ (x + fill_area.X) % 8 := Int.emod_nonneg _ (by decide)
  have h4 : (y + fill_area.Y) % 8 < 8 := Int.emod_lt_of_pos _ (by decide)
  simp only [hatch_bit, hatch_bit_spec, h1, h2]
  rw [if_neg (by omega), if_neg (by omega)]

/-- C11 (hatch fill of an area with negative X): with a pattern whose 64 bits are
all set the specification makes every pixel the foreground colour, and the area
at X = 7, which is congruent to X = -1 modulo 8, is filled so; at X = -1 the C
remainder `(0 + -1) % 8` is -1, a negative shift count, and the pixel comes out in
the background colour; for the area at Y = -1 the row index `7 - hy` is 8, outside
the pattern. -/
theorem hatch_fill_negative_origin :
    hatch_bit_spec [0xff, 0xff, 0xff, 0xff, 0xff, 0xff, 0xff, 0xff] ⟨-1, 0, 1, 1⟩ 0 0 = true ∧
    brush_fill_pixels hatchExt sampleGraphics (.Hatch sampleHatch) [0] ⟨7, 0, 1, 1⟩ 1
      = (Ok, [sampleHatch.forecol]) ∧
    brush_fill_pixels hatchExt sampleGraphics (.Hatch sampleHatch) [0] ⟨-1, 0, 1, 1⟩ 1
      = (Ok, [sampleHatch.backcol]) ∧
    brush_fill_pixels hatchExt sampleGraphics (.Hatch sampleHatch) [0] ⟨0, -1, 1, 1⟩ 1
      = (Ok, [sampleHatch.backcol]) ∧
    Int.tmod (0 + (-1)) 8 = -1 ∧ 7 - Int.tmod (0 + (-1)) 8 = 8 := by
  decide

/-! ### Gradient colours -/

/-- The four channels of a 32-bit colour, put together again as `blend_colors`
does it, give the colour back. -/
theorem argb_channels (c : Nat) (hc : c < 2 ^ 32) :
    ((((0 ||| (((((c >>> 24) &&& 0xff : Nat) : Int) * 2 ^ 24) % (2 ^ 32 : Nat)).toNat)
        ||| (c &&& 0xff)) ||| (c &&& 0xff00)) ||| (c &&& 0xff0000)) = c := by
  have h1 : (((((c >>> 24) &&& 0xff : Nat) : Int) * 2 ^ 24) % (2 ^ 32 : Nat)).toNat
      = ((c >>> 24) &&& 0xff) <<< 24 := by
    have hlt : (c >>> 24) &&& 0xff < 2 ^ 8 := Nat.and_lt_two_pow _ (by norm_num)
    rw [Nat.shiftLeft_eq]
    omega
  rw [h1]
  apply Nat.eq_of_testBit_eq
  intro i
  have e1 : (0xff : Nat) = 2 ^ 8 - 1 := by norm_num
  have e2 : (0xff00 : Nat) = (2 ^ 8 - 1) <<< 8 := by norm_num [Nat.shiftLeft_eq]
  have e3 : (0xff0000 : Nat) = (2 ^ 8 - 1) <<< 16 := by norm_num [Nat.shiftLeft_eq]
  rw [e1, e2, e3]
  simp only [Nat.testBit_or, Nat.testBit_and, Nat.testBit_shiftLeft, Nat.testBit_shiftRight,
    Nat.testBit_two_pow_sub_one, Nat.zero_testBit, Bool.false_or]
  by_cases hi : i < 32
  · by_cases h24 : 24 ≤ i
    · have : 24 + (i - 24) = i := by omega
      simp [h24, this, show ¬ i < 8 by omega, show i - 24 < 8 by omega, show 8 ≤ i by omega,
        show 16 ≤ i by omega, show ¬ i - 8 < 8 by omega, show ¬ i - 16 < 8 by omega]
    · by_cases h16 : 16 ≤ i
      · simp [h24, h16, show ¬ i < 8 by omega, show 8 ≤ i by omega,
          show ¬ i - 8 < 8 by omega, show i - 16 < 8 by omega]
      · by_cases h8 : 8 ≤ i
        · simp [h24, h16, h8, show ¬ i < 8 by omega, show i - 8 < 8 by omega]
        · simp [h24, h16, h8, show i < 8 by omega]
  · have : c.testBit i = false :=
      Nat.testBit_lt_two_pow
        (lt_of_lt_of_le hc (Nat.pow_le_pow_right (by norm_num) (by omega)))
    simp only [this, Bool.false_and, Bool.or_false, Bool.and_eq_false_imp, Bool.and_eq_true,
      decide_eq_true_eq, and_imp]
    intro h24
    rw [show 24 + (i - 24) = i by omega, this]
    simp

/-- The cast `(int)` of a whole number is that number. -/
theorem real_to_int_natCast (n : Nat) : real_to_int (n : REAL) = (n : Int) := by
  have h : (0 : REAL) ≤ (n : REAL) := Nat.cast_nonneg n
  simp only [real_to_int, if_pos h]
  have hfl : Rat.floor (n : ℚ) = ⌊(n : ℚ)⌋ := rfl
  rw [hfl, Int.floor_natCast]

/-- A masked channel is not changed by `& i` after the conversion to `ARGB`. -/
theorem channel_mask (c i : Nat) (hc : c < 2 ^ 32) :
    int_to_argb ((c &&& i : Nat) : Int) &&& i = c &&& i := by
  have h : c &&& i ≤ c := Nat.and_le_left
  have h2 : int_to_argb ((c &&& i : Nat) : Int) = c &&& i := by
    simp only [int_to_argb, UINT_MODULUS]
    rw [← Int.natCast_mod, Int.toNat_ofNat, Nat.mod_eq_of_lt (by omega)]
  rw [h2, Nat.and_assoc, Nat.and_self]

/-- The fuel `n` is enough for `binary_log` to find the leading digit of `n`. -/
theorem binary_log_spec (fuel n : Nat) (hn : 1 ≤ n) (hf : n ≤ fuel) :
    2 ^ binary_log fuel n ≤ n ∧ n < 2 ^ (binary_log fuel n + 1) := by
  induction fuel generalizing n with
  | zero => omega
  | succ fuel ih =>
    by_cases h2 : n < 2
    · have h1 : n = 1 := by omega
      subst h1
      simp [binary_log]
    · obtain ⟨a, b⟩ := ih (n / 2) (by omega) (by omega)
      simp only [binary_log, if_neg h2]
      rw [pow_succ, pow_succ]
      rw [pow_succ] at b
      constructor <;> omega

/-- A whole number is its own nearest integer. -/
theorem round_half_even_natCast (m : Nat) : round_half_even (m : REAL) = (m : Int) := by
  have hfl : Rat.floor (m : ℚ) = (m : Int) := by
    have h : Rat.floor (m : ℚ) = ⌊(m : ℚ)⌋ := rfl
    rw [h, Int.floor_natCast]
  have hlt : ((m : ℚ) - ((m : Int) : ℚ)) < 1 / 2 := by
    push_cast
    norm_num
  simp only [round_half_even, hfl, if_pos hlt]

/-- Whole numbers below 2^24 are `float` values: rounding leaves them as they
are. -/
theorem float_round_natCast (n : Nat) (hn : n < 2 ^ 24) : float_round (n : REAL) = n := by
  by_cases h0 : n = 0
  · subst h0
    simp [float_round]
  have hq : ((n : REAL)) ≠ 0 := by exact_mod_cast h0
  obtain ⟨hlo, hhi⟩ := binary_log_spec n n (by omega) (le_refl n)
  have hL : binary_log n n < 24 := by
    by_contra hcon
    have : 2 ^ 24 ≤ 2 ^ binary_log n n := Nat.pow_le_pow_right (by norm_num) (by omega)
    omega
  have hexp : float_exponent (n : REAL) = (binary_log n n : Int) := by
    have hnum : ((n : REAL)).num.natAbs = n := by simp
    have hden : ((n : REAL)).den = 1 := by simp
    have hb1 : binary_log 1 1 = 0 := by decide
    have hneg : ¬ ((n : REAL) < 0) := by
      have : (0 : REAL) ≤ (n : REAL) := Nat.cast_nonneg n
      exact not_lt.mpr this
    have hpow : two_pow ((binary_log n n : Nat) : Int) ≤ (n : REAL) := by
      have h0' : (0 : Int) ≤ ((binary_log n n : Nat) : Int) := Int.natCast_nonneg _
      simp only [two_pow, if_pos h0', Int.toNat_ofNat]
      exact_mod_cast hlo
    simp only [float_exponent, hnum, hden, hb1, if_neg hneg]
    simp only [Nat.cast_zero, sub_zero]
    rw [if_pos hpow]
  obtain ⟨k, hk⟩ : ∃ k : Nat, binary_log n n + k = 23 := ⟨23 - binary_log n n, by omega⟩
  have he : (binary_log n n : Int) - 23 = -(k : Int) := by omega
  have h126 : ¬ ((binary_log n n : Int) < -126) := by omega
  have htp : two_pow (-(k : Int)) = 1 / ((2 ^ k : Nat) : REAL) := by
    by_cases hk0 : k = 0
    · subst hk0
      simp [two_pow]
    · have hlt : ¬ ((0 : Int) ≤ -(k : Int)) := by omega
      simp only [two_pow, if_neg hlt, neg_neg, Int.toNat_ofNat]
  have hpos : ((2 ^ k : Nat) : REAL) ≠ 0 := by
    have : (2 ^ k : Nat) ≠ 0 := by positivity
    exact_mod_cast this
  have hdiv : (n : REAL) / (1 / ((2 ^ k : Nat) : REAL)) = ((n * 2 ^ k : Nat) : REAL) := by
    push_cast
    field_simp
  simp only [float_round, if_neg hq, hexp, if_neg h126, he, htp, hdiv,
    round_half_even_natCast]
  push_cast
  field_simp

theorem float_round_zero : float_round 0 = 0 := by
  simp [float_round]

theorem float_round_one : float_round 1 = 1 := by
  have := float_round_natCast 1 (by norm_num)
  simpa using this

/-- At position 0 the `float` expression of `blend_colors` gives the first
operand, for operands below 2^24. -/
theorem float_blend_zero (a b : Nat) (ha : a < 2 ^ 24) :
    float_add (float_mul (a : REAL) (float_sub 1 0)) (float_mul (b : REAL) 0) = (a : REAL) := by
  simp only [float_add, float_mul, float_sub, sub_zero, float_round_one, mul_one, mul_zero,
    float_round_zero, add_zero, float_round_natCast a ha]

/-- At position 1 the `float` expression of `blend_colors` gives the second
operand, for operands below 2^24. -/
theorem float_blend_one (a b : Nat) (hb : b < 2 ^ 24) :
    float_add (float_mul (a : REAL) (float_sub 1 1)) (float_mul (b : REAL) 1) = (b : REAL) := by
  simp only [float_add, float_mul, float_sub, sub_self, float_round_zero, mul_zero, mul_one,
    zero_add, float_round_natCast b hb]

/-- The channel masks of `blend_colors` keep a channel below 2^24. -/
theorem channel_lt (c i : Nat) (hi : i = 0xff ∨ i = 0xff00 ∨ i = 0xff0000) :
    c &&& i < 2 ^ 24 := by
  have h : c &&& i ≤ i := Nat.and_le_right
  rcases hi with rfl | rfl | rfl <;> omega

/-- When the interpolation of every channel gives the channel of `c`,
`blend_colors` returns `c`. -/
theorem blend_colors_exact (s e c : Nat) (t : REAL) (hc : c < 2 ^ 32)
    (ha : float_add
        (float_mul ((((s >>> 24) &&& 0xff : Nat) : Int) : REAL) (float_sub 1 t))
        (float_mul ((((e >>> 24) &&& 0xff : Nat) : Int) : REAL) t)
      = (((c >>> 24) &&& 0xff : Nat) : REAL))
    (hch : ∀ i : Nat, i = 0xff ∨ i = 0xff00 ∨ i = 0xff0000 →
      float_add (float_mul ((s &&& i : Nat) : REAL) (float_sub 1 t))
        (float_mul ((e &&& i : Nat) : REAL) t)
      = ((c &&& i : Nat) : REAL)) :
    blend_colors s e t = c := by
  simp only [blend_colors, List.foldl, hch 0xff (Or.inl rfl), hch 0xff00 (Or.inr (Or.inl rfl)),
    hch 0xff0000 (Or.inr (Or.inr rfl)), real_to_int_natCast, channel_mask c _ hc]
  rw [ha, real_to_int_natCast]
  simp only [int_to_argb, UINT_MODULUS]
  exact argb_channels c hc

/-- C12 (blending a colour with itself): in `float` arithmetic
`blend_colors c c t` is not always `c`.  For `c = 0x80FF4020` and the `float`
nearest to 1/3, `t = 11184811 / 2^25`, which lies in [0, 1], the red channel
comes out as 0xFE: `1.0f - t` rounds to `11184810 / 2^24`, the two products round
to 11141119 and 5570560, their sum is 16711679, one below 0xFF0000, and the mask
keeps 0xFE0000.  The other three channels are powers of two and come out
unchanged. -/
theorem blend_colors_same_rounds_down :
    (0 : REAL) ≤ 11184811 / 33554432 ∧ (11184811 / 33554432 : REAL) ≤ 1 ∧
    float_round (11184811 / 33554432) = 11184811 / 33554432 ∧
    float_sub 1 (11184811 / 33554432) = 11184810 / 16777216 ∧
    float_mul 16711680 (11184810 / 16777216) = 11141119 ∧
    float_mul 16711680 (11184811 / 33554432) = 5570560 ∧
    float_add 11141119 5570560 = 16711679 ∧
    blend_colors 0x80FF4020 0x80FF4020 (11184811 / 33554432) = 0x80FE4020 := by
  decide!

/-- A second colour that is not returned: every channel of `0x7F7F7F7F` comes out
one lower at the `float` nearest to 0.1, `13421773 / 2^27`. -/
theorem blend_colors_same_tenth :
    float_round (13421773 / 134217728) = 13421773 / 134217728 ∧
    blend_colors 0x7F7F7F7F 0x7F7F7F7F (13421773 / 134217728) = 0x7E7E7E7E := by
  decide!

theorem blend_colors_zero (s e : ARGB) (hs : s < 2 ^ 32) : blend_colors s e 0 = s := by
  apply blend_colors_exact s e s 0 hs
  · have h : (s >>> 24) &&& 0xff < 2 ^ 24 :=
      lt_of_le_of_lt Nat.and_le_right (by norm_num)
    have := float_blend_zero ((s >>> 24) &&& 0xff) ((e >>> 24) &&& 0xff) h
    simpa using this
  · intro i hi
    exact float_blend_zero _ _ (channel_lt s i hi)

theorem blend_colors_one (s e : ARGB) (he : e < 2 ^ 32) : blend_colors s e 1 = e := by
  apply blend_colors_exact s e e 1 he
  · have h : (e >>> 24) &&& 0xff < 2 ^ 24 :=
      lt_of_le_of_lt Nat.and_le_right (by norm_num)
    have := float_blend_one ((s >>> 24) &&& 0xff) ((e >>> 24) &&& 0xff) h
    simpa using this
  · intro i hi
    exact float_blend_one _ _ (channel_lt e i hi)

theorem real_to_int_zero : real_to_int 0 = 0 := by
  have := real_to_int_natCast 0
  simpa using this

theorem real_to_int_one : real_to_int 1 = 1 := by
  have := real_to_int_natCast 1
  simpa using this

theorem real_to_int_half : real_to_int (1 / 2) = 0 := by
  have h : (0 : REAL) ≤ 1 / 2 := by norm_num
  simp only [real_to_int, if_pos h]
  have hfl : Rat.floor (1 / 2 : ℚ) = ⌊(1 / 2 : ℚ)⌋ := rfl
  rw [hfl, Int.floor_eq_iff]
  norm_num

theorem fmodf_zero (y : REAL) : fmodf 0 y = 0 := by
  simp [fmodf, real_to_int_zero]

theorem fmodf_one_one : fmodf 1 1 = 0 := by
  simp [fmodf, real_to_int_one]

theorem fmodf_one_two : fmodf 1 2 = 1 := by
  simp only [fmodf, real_to_int_half]
  norm_num

/-- The blend factor of a two-stop gradient at the positions 0 and 1 is the
position itself: with `blendcount = 1`, and with the table 0, 1 / 0, 1. -/
theorem two_stop_blend_line_gradient (brush : GpLineGradient) (position p : REAL)
    (hp : brush.pblendcount = 0)
    (hb : brush.blendcount = 1 ∨ (brush.blendpos = [0, 1] ∧ brush.blendfac = [0, 1]))
    (hpos : (if brush.wrap = WrapModeTile then
        (if fmodf position 1 < 0 then fmodf position 1 + 1 else fmodf position 1)
      else
        (if (if fmodf position 2 < 0 then fmodf position 2 + 2 else fmodf position 2) > 1 then
          2 - (if fmodf position 2 < 0 then fmodf position 2 + 2 else fmodf position 2)
        else (if fmodf position 2 < 0 then fmodf position 2 + 2 else fmodf position 2))) = p)
    (h01 : p = 0 ∨ p = 1) :
    blend_line_gradient brush position
      = some (blend_colors brush.startcolor brush.endcolor p) := by
  unfold blend_line_gradient
  simp only [hpos, hp, if_true]
  by_cases h1 : brush.blendcount = 1
  · simp [h1]
  · rcases hb with hb | ⟨hb1, hb2⟩
    · exact absurd hb h1
    · rcases h01 with h | h <;> subst h <;>
        norm_num [h1, hb1, hb2, locate_blend]

/-- Positions 0 and 1 after the wrap step of `blend_line_gradient`: 0 stays 0 in
every wrap mode, 1 becomes 0 under `WrapModeTile` and stays 1 otherwise. -/
theorem wrap_position_endpoints (wrap : Int) :
    (if wrap = WrapModeTile then
        (if fmodf 0 1 < 0 then fmodf 0 1 + 1 else fmodf 0 1)
      else
        (if (if fmodf 0 2 < 0 then fmodf 0 2 + 2 else fmodf 0 2) > 1 then
          2 - (if fmodf 0 2 < 0 then fmodf 0 2 + 2 else fmodf 0 2)
        else (if fmodf 0 2 < 0 then fmodf 0 2 + 2 else fmodf 0 2))) = 0 ∧
    (if wrap = WrapModeTile then
        (if fmodf 1 1 < 0 then fmodf 1 1 + 1 else fmodf 1 1)
      else
        (if (if fmodf 1 2 < 0 then fmodf 1 2 + 2 else fmodf 1 2) > 1 then
          2 - (if fmodf 1 2 < 0 then fmodf 1 2 + 2 else fmodf 1 2)
        else (if fmodf 1 2 < 0 then fmodf 1 2 + 2 else fmodf 1 2)))
      = (if wrap = WrapModeTile then 0 else 1) := by
  rw [fmodf_zero, fmodf_zero, fmodf_one_one, fmodf_one_two]
  constructor <;> split_ifs <;> norm_num at *

/-- C13 as the specification states it fails for a tiled gradient: at position
1.0 the two-stop red-to-blue brush without tables gives its start colour. -/
theorem blend_line_gradient_tile_wraps_one :
    sampleLineGradient.pblendcount = 0 ∧ sampleLineGradient.blendcount = 1 ∧
    sampleLineGradient.wrap = WrapModeTile ∧
    blend_line_gradient sampleLineGradient 1 = some sampleLineGradient.startcolor ∧
    blend_line_gradient sampleLineGradient 1 ≠ some sampleLineGradient.endcolor := by
  have h := two_stop_blend_line_gradient sampleLineGradient 1 0 rfl (Or.inl rfl)
    (by simpa [sampleLineGradient] using (wrap_position_endpoints WrapModeTile).2) (Or.inl rfl)
  rw [blend_colors_zero _ _ (by norm_num [sampleLineGradient])] at h
  refine ⟨rfl, rfl, rfl, h, ?_⟩
  rw [h]
  decide

/-- C13 (amended): for a two-stop gradient without preset-blend table
(`blendcount = 1`, or the table with positions 0, 1 and factors 0, 1) whose colours
are 32-bit values, position 0.0 gives the start colour in every wrap mode, and
position 1.0 gives the end colour in every wrap mode other than `WrapModeTile`,
under which 1.0 wraps to 0.0 and gives the start colour. -/
theorem blend_line_gradient_endpoints (brush : GpLineGradient)
    (hp : brush.pblendcount = 0)
    (hb : brush.blendcount = 1 ∨ (brush.blendpos = [0, 1] ∧ brush.blendfac = [0, 1]))
    (hs : brush.startcolor < 2 ^ 32) (he : brush.endcolor < 2 ^ 32) :
    blend_line_gradient brush 0 = some brush.startcolor ∧
    blend_line_gradient brush 1
      = some (if brush.wrap = WrapModeTile then brush.startcolor else brush.endcolor) := by
  constructor
  · rw [two_stop_blend_line_gradient brush 0 0 hp hb (wrap_position_endpoints brush.wrap).1
      (Or.inl rfl), blend_colors_zero _ _ hs]
  · by_cases hw : brush.wrap = WrapModeTile
    · rw [two_stop_blend_line_gradient brush 1 0 hp hb
        (by simpa [hw] using (wrap_position_endpoints brush.wrap).2) (Or.inl rfl),
        blend_colors_zero _ _ hs, if_pos hw]
    · rw [two_stop_blend_line_gradient brush 1 1 hp hb
        (by simpa [hw] using (wrap_position_endpoints brush.wrap).2) (Or.inr rfl),
        blend_colors_one _ _ he, if_neg hw]

theorem blend_line_gradient_endpoints_witness :
    blend_line_gradient { sampleLineGradient with wrap := WrapModeTileFlipX } 0
      = some 0xFFFF0000 ∧
    blend_line_gradient { sampleLineGradient with wrap := WrapModeTileFlipX } 1
      = some 0xFF0000FF :=
  blend_line_gradient_endpoints { sampleLineGradient with wrap := WrapModeTileFlipX }
    rfl (Or.inl rfl) (by norm_num [sampleLineGradient]) (by norm_num [sampleLineGradient])

/-! ### Mapping points between World and Device -/

theorem matrix_transform_multiply (a b : GpMatrix) (p : GpPointF) :
    matrix_transform_point (matrix_multiply a b) p
      = matrix_transform_point b (matrix_transform_point a p) := by
  simp only [matrix_transform_point, matrix_multiply, GpPointF.mk.injEq]
  constructor <;> ring

theorem matrix_transform_identity (p : GpPointF) :
    matrix_transform_point matrix_identity p = p := by
  cases p
  simp [matrix_transform_point, matrix_identity]

/-- The matrix World -> Device followed by the matrix Device -> World, and the
other way round, is the identity. -/
theorem world_device_matrices_inverse (w : GpMatrix) (sx sy : REAL)
    (hdet : matrix_determinant w ≠ 0) (hsx : sx ≠ 0) (hsy : sy ≠ 0) :
    matrix_multiply
        (matrix_multiply (matrix_multiply matrix_identity w) ⟨sx, 0, 0, sy, 0, 0⟩)
        (matrix_multiply (matrix_multiply matrix_identity ⟨1 / sx, 0, 0, 1 / sy, 0, 0⟩)
          (matrix_invert w))
      = matrix_identity ∧
    matrix_multiply
        (matrix_multiply (matrix_multiply matrix_identity ⟨1 / sx, 0, 0, 1 / sy, 0, 0⟩)
          (matrix_invert w))
        (matrix_multiply (matrix_multiply matrix_identity w) ⟨sx, 0, 0, sy, 0, 0⟩)
      = matrix_identity := by
  have hd : w.matrix0 * w.matrix3 - w.matrix1 * w.matrix2 ≠ 0 := hdet
  constructor <;>
    simp only [matrix_multiply, matrix_invert, matrix_identity, matrix_determinant,
      GpMatrix.mk.injEq] <;>
    refine ⟨?_, ?_, ?_, ?_, ?_, ?_⟩ <;> field_simp <;> ring

/-- The two matrices that `get_graphics_transform` builds between World and
Device, under the affine algebra. -/
theorem get_graphics_transform_world_device (ext : Ext Rgn Dev) (haff : AffineExt ext)
    (g : GpGraphics Rgn) (hdet : matrix_determinant g.worldtrans ≠ 0) :
    get_graphics_transform ext g CoordinateSpaceDevice CoordinateSpaceWorld
      = (Ok, matrix_multiply (matrix_multiply matrix_identity g.worldtrans)
          ⟨if g.unit ≠ UnitDisplay then ext.units_to_pixels 1 g.unit g.xres * g.scale
            else ext.units_to_pixels 1 g.unit g.xres, 0, 0,
           if g.unit ≠ UnitDisplay then ext.units_to_pixels 1 g.unit g.yres * g.scale
            else ext.units_to_pixels 1 g.unit g.yres, 0, 0⟩) ∧
    get_graphics_transform ext g CoordinateSpaceWorld CoordinateSpaceDevice
      = (Ok, matrix_multiply (matrix_multiply matrix_identity
          ⟨1 / (if g.unit ≠ UnitDisplay then ext.units_to_pixels 1 g.unit g.xres * g.scale
            else ext.units_to_pixels 1 g.unit g.xres), 0, 0,
           1 / (if g.unit ≠ UnitDisplay then ext.units_to_pixels 1 g.unit g.yres * g.scale
            else ext.units_to_pixels 1 g.unit g.yres), 0, 0⟩)
          (matrix_invert g.worldtrans)) := by
  constructor
  · simp [get_graphics_transform, haff.create, haff.multiply, haff.scale,
      CoordinateSpaceDevice, CoordinateSpaceWorld]
  · simp [get_graphics_transform, haff.create, haff.multiply, haff.scale, haff.clone,
      haff.invert _ hdet, CoordinateSpaceDevice, CoordinateSpaceWorld]

/-- Under the affine algebra, with an invertible world transform and non-zero page
scale factors, `get_graphics_transform` builds two matrices between World and
Device that are inverse to each other. -/
theorem world_device_transforms (ext : Ext Rgn Dev) (haff : AffineExt ext)
    (g : GpGraphics Rgn) (hdet : matrix_determinant g.worldtrans ≠ 0)
    (hsx : (if g.unit ≠ UnitDisplay then ext.units_to_pixels 1 g.unit g.xres * g.scale
      else ext.units_to_pixels 1 g.unit g.xres) ≠ 0)
    (hsy : (if g.unit ≠ UnitDisplay then ext.units_to_pixels 1 g.unit g.yres * g.scale
      else ext.units_to_pixels 1 g.unit g.yres) ≠ 0) :
    ∃ M N,
      get_graphics_transform ext g CoordinateSpaceDevice CoordinateSpaceWorld = (Ok, M) ∧
      get_graphics_transform ext g CoordinateSpaceWorld CoordinateSpaceDevice = (Ok, N) ∧
      matrix_multiply M N = matrix_identity ∧ matrix_multiply N M = matrix_identity := by
  obtain ⟨h1, h2⟩ := get_graphics_transform_world_device ext haff g hdet
  obtain ⟨hI1, hI2⟩ := world_device_matrices_inverse g.worldtrans _ _ hdet hsx hsy
  exact ⟨_, _, h1, h2, hI1, hI2⟩

theorem affineExt_affine : AffineExt affineExt where
  create := rfl
  clone := fun _ => rfl
  multiply := fun _ _ => by simp [affineExt]
  scale := fun _ _ _ => by simp [affineExt]
  invert := fun m h => by simp [affineExt, h]
  transform := fun m pts => by simp [affineExt]

/-- C14 (round trip World -> Device -> World): when the external matrix operations
are the affine algebra, the world transform is invertible and the page scale
factors are non-zero, the matrix that `get_graphics_transform` builds for
World <- Device is the inverse of the one for Device <- World, and for every
point list `P`, `GdipTransformPoints` to Device followed by `GdipTransformPoints`
back to World leaves `P` in the array; for a non-empty list on a context that is
not busy both calls return Ok and the intermediate array holds the images of the
points under the Device <- World matrix. -/
theorem transform_points_round_trip (ext : Ext Rgn Dev) (haff : AffineExt ext)
    (g : GpGraphics Rgn) (P : List GpPointF)
    (hdet : matrix_determinant g.worldtrans ≠ 0)
    (hsx : (if g.unit ≠ UnitDisplay then ext.units_to_pixels 1 g.unit g.xres * g.scale
      else ext.units_to_pixels 1 g.unit g.xres) ≠ 0)
    (hsy : (if g.unit ≠ UnitDisplay then ext.units_to_pixels 1 g.unit g.yres * g.scale
      else ext.units_to_pixels 1 g.unit g.yres) ≠ 0) :
    ∃ M N Q,
      get_graphics_transform ext g CoordinateSpaceDevice CoordinateSpaceWorld = (Ok, M) ∧
      get_graphics_transform ext g CoordinateSpaceWorld CoordinateSpaceDevice = (Ok, N) ∧
      matrix_multiply M N = matrix_identity ∧ matrix_multiply N M = matrix_identity ∧
      (GdipTransformPoints ext (some g) CoordinateSpaceDevice CoordinateSpaceWorld (some P)
        P.length).2 = some Q ∧
      (GdipTransformPoints ext (some g) CoordinateSpaceWorld CoordinateSpaceDevice (some Q)
        Q.length).2 = some P ∧
      (P ≠ [] → g.busy = false →
        Q = P.map (matrix_transform_point M) ∧
        (GdipTransformPoints ext (some g) CoordinateSpaceDevice CoordinateSpaceWorld (some P)
          P.length).1 = Ok ∧
        (GdipTransformPoints ext (some g) CoordinateSpaceWorld CoordinateSpaceDevice (some Q)
          Q.length).1 = Ok) := by
  obtain ⟨M, N, h1, h2, hI1, hI2⟩ := world_device_transforms ext haff g hdet hsx hsy
  by_cases hP : P = []
  · subst hP
    exact ⟨M, N, [], h1, h2, hI1, hI2, by simp [GdipTransformPoints],
      by simp [GdipTransformPoints], fun h => absurd rfl h⟩
  by_cases hbusy : g.busy = true
  · have hlen : ¬ ((P.length : Int) ≤ 0) := by
      have : 0 < P.length := List.length_pos.mpr hP
      omega
    exact ⟨M, N, P, h1, h2, hI1, hI2, by simp [GdipTransformPoints, hlen, hbusy],
      by simp [GdipTransformPoints, hlen, hbusy], fun _ h => by simp [hbusy] at h⟩
  have hbusy : g.busy = false := by simpa using hbusy
  have hlen : ¬ ((P.length : Int) ≤ 0) := by
    have : 0 < P.length := List.length_pos.mpr hP
    omega
  have hlen2 : ¬ (((P.map (matrix_transform_point M)).length : Int) ≤ 0) := by
    rw [List.length_map]
    exact hlen
  have hid : ∀ p : GpPointF,
      (matrix_transform_point N ∘ matrix_transform_point M) p = p := by
    intro p
    rw [Function.comp_apply, ← matrix_transform_multiply, hI1, matrix_transform_identity]
  have e1 : GdipTransformPoints ext (some g) CoordinateSpaceDevice CoordinateSpaceWorld
      (some P) P.length = (Ok, some (P.map (matrix_transform_point M))) := by
    simp only [GdipTransformPoints, hlen, hbusy, h1, haff.transform]
    simp [CoordinateSpaceDevice, CoordinateSpaceWorld]
  have e2 : GdipTransformPoints ext (some g) CoordinateSpaceWorld CoordinateSpaceDevice
      (some (P.map (matrix_transform_point M))) (P.map (matrix_transform_point M)).length
      = (Ok, some P) := by
    simp only [GdipTransformPoints, hlen2, hbusy, h2, haff.transform]
    simp only [CoordinateSpaceDevice, CoordinateSpaceWorld, List.map_map]
    simp [List.map_congr_left (fun p _ => hid p)]
  refine ⟨M, N, P.map (matrix_transform_point M), h1, h2, hI1, hI2, ?_, ?_, ?_⟩
  · rw [e1]
  · rw [e2]
  · intro _ _
    exact ⟨rfl, by rw [e1], by rw [e2]⟩

theorem transform_points_round_trip_witness :
    matrix_determinant sampleTransformGraphics.worldtrans ≠ 0 ∧
    ∃ M N Q,
      get_graphics_transform affineExt sampleTransformGraphics CoordinateSpaceDevice
        CoordinateSpaceWorld = (Ok, M) ∧
      get_graphics_transform affineExt sampleTransformGraphics CoordinateSpaceWorld
        CoordinateSpaceDevice = (Ok, N) ∧
      matrix_multiply M N = matrix_identity ∧ matrix_multiply N M = matrix_identity ∧
      (GdipTransformPoints affineExt (some sampleTransformGraphics) CoordinateSpaceDevice
        CoordinateSpaceWorld (some [⟨1, 2⟩, ⟨-3, 5⟩])
        ([⟨1, 2⟩, ⟨-3, 5⟩] : List GpPointF).length).2 = some Q ∧
      (GdipTransformPoints affineExt (some sampleTransformGraphics) CoordinateSpaceWorld
        CoordinateSpaceDevice (some Q) Q.length).2 = some [⟨1, 2⟩, ⟨-3, 5⟩] ∧
      (([⟨1, 2⟩, ⟨-3, 5⟩] : List GpPointF) ≠ [] → sampleTransformGraphics.busy = false →
        Q = ([⟨1, 2⟩, ⟨-3, 5⟩] : List GpPointF).map (matrix_transform_point M) ∧
        (GdipTransformPoints affineExt (some sampleTransformGraphics) CoordinateSpaceDevice
          CoordinateSpaceWorld (some [⟨1, 2⟩, ⟨-3, 5⟩])
          ([⟨1, 2⟩, ⟨-3, 5⟩] : List GpPointF).length).1 = Ok ∧
        (GdipTransformPoints affineExt (some sampleTransformGraphics) CoordinateSpaceWorld
          CoordinateSpaceDevice (some Q) Q.length).1 = Ok) :=
  ⟨by norm_num [matrix_determinant, sampleTransformGraphics],
   transform_points_round_trip affineExt affineExt_affine sampleTransformGraphics
    [⟨1, 2⟩, ⟨-3, 5⟩]
    (by norm_num [matrix_determinant, sampleTransformGraphics])
    (by norm_num [sampleTransformGraphics, sampleGraphics, affineExt, sampleExt, UnitDisplay])
    (by norm_num [sampleTransformGraphics, sampleGraphics, affineExt, sampleExt, UnitDisplay])⟩

/-- The round trip evaluated: the points (1, 2) and (-3, 5) under the world
transform that doubles and shifts by (3, 1) go to (5, 5) and (-3, 11) in Device
coordinates and come back. -/
theorem transform_points_round_trip_evaluated :
    GdipTransformPoints affineExt (some sampleTransformGraphics) CoordinateSpaceDevice
        CoordinateSpaceWorld (some [⟨1, 2⟩, ⟨-3, 5⟩]) 2 = (Ok, some [⟨5, 5⟩, ⟨-3, 11⟩]) ∧
    GdipTransformPoints affineExt (some sampleTransformGraphics) CoordinateSpaceWorld
        CoordinateSpaceDevice (some [⟨5, 5⟩, ⟨-3, 11⟩]) 2 = (Ok, some [⟨1, 2⟩, ⟨-3, 5⟩]) := by
  constructor <;>
    norm_num [GdipTransformPoints, get_graphics_transform, affineExt, sampleExt,
      sampleTransformGraphics, sampleGraphics, matrix_multiply, matrix_invert,
      matrix_determinant, matrix_identity, matrix_transform_point, CoordinateSpaceDevice,
      CoordinateSpaceWorld, UnitDisplay, MatrixOrderAppend] <;>
    rfl

/-! ### Line caps -/

/-- The square-cap vertices for pen width 10: `size` is halved to 5 and the four
vertices lie at `5 * cos`, `5 * sin` of `theta + M_PI_4` from the anchor. -/
theorem draw_cap_square_points_width_ten (libm : Libm) (theta x2 y2 : REAL) :
    draw_cap_square_points libm LineCapSquare 10 theta x2 y2
      = [⟨x2 - libm.cos (theta + M_PI_4) * 5, y2 - libm.sin (theta + M_PI_4) * 5⟩,
         ⟨x2 + libm.sin (theta + M_PI_4) * 5, y2 - libm.cos (theta + M_PI_4) * 5⟩,
         ⟨x2 + libm.cos (theta + M_PI_4) * 5, y2 + libm.sin (theta + M_PI_4) * 5⟩,
         ⟨x2 - libm.sin (theta + M_PI_4) * 5, y2 + libm.cos (theta + M_PI_4) * 5⟩] := by
  have h1 : Int.land LineCapSquare LineCapNoAnchor = 0 := by decide
  have h2 : LineCapSquare ≠ LineCapDiamondAnchor := by decide
  simp only [draw_cap_square_points, h1, h2, if_false, ne_eq, not_true_eq_false]
  norm_num

/-- C15 (square cap of a horizontal line of length 100, pen width 10): `draw_cap`
draws the polygon of the four vertices of `draw_cap_square_points`, and when the
library's cosine and sine of `theta + M_PI_4` are 0.7071 to four places, as they
are for the direction `theta` of a horizontal line, every vertex lies within
3.536 of the end point `x2` in X and one lies at least 3.5355 beyond it: the
extreme X differs from `x2` by `5 * cos (pi / 4)`, not by 5. -/
theorem square_cap_extent (ext : Ext Rgn Dev) (libm : Libm) (g : GpGraphics Rgn) (dev : Dev)
    (color : Nat) (custom : Option GpCustomLineCap) (x1 y : REAL)
    (hcos : 7071 / 10000 ≤ libm.cos (libm.gdiplus_atan2 (y - y) (x1 + 100 - x1) + M_PI_4) ∧
      libm.cos (libm.gdiplus_atan2 (y - y) (x1 + 100 - x1) + M_PI_4) ≤ 7072 / 10000)
    (hsin : 7071 / 10000 ≤ libm.sin (libm.gdiplus_atan2 (y - y) (x1 + 100 - x1) + M_PI_4) ∧
      libm.sin (libm.gdiplus_atan2 (y - y) (x1 + 100 - x1) + M_PI_4) ≤ 7072 / 10000) :
    draw_cap ext libm g dev color LineCapSquare 10 custom x1 y (x1 + 100) y
      = (ext.gdi (.CapObjects color false) g
          (ext.gdi (.CapPolygon (transform_and_round_points ext g
              (draw_cap_square_points libm LineCapSquare 10
                (libm.gdiplus_atan2 (y - y) (x1 + 100 - x1)) (x1 + 100) y) 4).1) g
            (ext.gdi (.CapObjects color true) g dev).2).2).2 ∧
    (∀ p ∈ draw_cap_square_points libm LineCapSquare 10
        (libm.gdiplus_atan2 (y - y) (x1 + 100 - x1)) (x1 + 100) y,
      |p.X - (x1 + 100)| ≤ 3536 / 1000 ∧ |p.X - (x1 + 100)| ≠ 5) ∧
    (∃ p ∈ draw_cap_square_points libm LineCapSquare 10
        (libm.gdiplus_atan2 (y - y) (x1 + 100 - x1)) (x1 + 100) y,
      35355 / 10000 ≤ p.X - (x1 + 100)) := by
  refine ⟨?_, ?_, ?_⟩
  · have hne : ¬ (x1 = x1 + 100 ∧ y = y) := by
      intro h
      linarith [h.1]
    have hcs : ∀ c : GpCustomLineCap,
        (decide (LineCapSquare = LineCapCustom) && !c.fill) = false := by
      intro c
      simp [LineCapSquare, LineCapCustom]
    cases custom <;> simp [draw_cap, hne, hcs]
  · rw [draw_cap_square_points_width_ten]
    intro p hp
    simp only [List.mem_cons, List.mem_singleton, List.not_mem_nil, or_false] at hp
    have key : |p.X - (x1 + 100)| ≤ 3536 / 1000 := by
      rw [abs_le]
      rcases hp with h | h | h | h <;> subst h <;> constructor <;> simp only <;>
        linarith [hcos.1, hcos.2, hsin.1, hsin.2]
    refine ⟨key, ?_⟩
    intro h5
    rw [h5] at key
    norm_num at key
  · rw [draw_cap_square_points_width_ten]
    refine ⟨_, List.mem_cons_of_mem _ (List.mem_cons_self _ _), ?_⟩
    simp only
    linarith [hsin.1]

theorem square_cap_extent_witness :
    (7071 / 10000 ≤ sampleLibm.cos (sampleLibm.gdiplus_atan2 (0 - 0) (0 + 100 - 0) + M_PI_4) ∧
      sampleLibm.cos (sampleLibm.gdiplus_atan2 (0 - 0) (0 + 100 - 0) + M_PI_4)
        ≤ 7072 / 10000) ∧
    ∃ p ∈ draw_cap_square_points sampleLibm LineCapSquare 10
        (sampleLibm.gdiplus_atan2 (0 - 0) (0 + 100 - 0)) (0 + 100) 0,
      35355 / 10000 ≤ p.X - (0 + 100) :=
  ⟨by norm_num [sampleLibm, M_PI_4],
   (square_cap_extent sampleExt sampleLibm sampleGraphics [] 0 none 0 0
      (by norm_num [sampleLibm, M_PI_4]) (by norm_num [sampleLibm, M_PI_4])).2.2⟩

/-! ### Filling several rectangles -/

/-- The loop of `GdipFillRectangles` over `n + m` rectangles is the loop over the
first `n`, followed, when that ends with Ok, by the loop over the next `m`. -/
theorem fill_rectangles_loop_add (ext : Ext Rgn Dev) (brush : Option GpBrush)
    (rs : List GpRectF) (m : Nat) :
    ∀ (n : Nat) (i : Int) (g : Option (GpGraphics Rgn)) (dev : Dev),
      fill_rectangles_loop ext brush rs (n + m) i g dev
        = if (fill_rectangles_loop ext brush rs n i g dev).1 ≠ Ok then
            fill_rectangles_loop ext brush rs n i g dev
          else
            fill_rectangles_loop ext brush rs m (i + n)
              (fill_rectangles_loop ext brush rs n i g dev).2.1
              (fill_rectangles_loop ext brush rs n i g dev).2.2 := by
  intro n
  induction n with
  | zero =>
    intro i g dev
    simp [fill_rectangles_loop]
  | succ n ih =>
    intro i g dev
    rw [show n + 1 + m = (n + m) + 1 by omega]
    obtain ⟨ret, hret⟩ : ∃ ret, ret = GdipFillRectangle ext g dev brush
        (rs.getD i.toNat ⟨0, 0, 0, 0⟩).X (rs.getD i.toNat ⟨0, 0, 0, 0⟩).Y
        (rs.getD i.toNat ⟨0, 0, 0, 0⟩).Width (rs.getD i.toNat ⟨0, 0, 0, 0⟩).Height := ⟨_, rfl⟩
    simp only [fill_rectangles_loop, ← hret]
    by_cases h1 : ret.1 ≠ Ok
    · simp only [if_pos h1]
    · simp only [if_neg h1, ih]
      rw [show i + 1 + (n : Int) = i + ((n + 1 : Nat) : Int) by push_cast; ring]

/-- One more rectangle: `GdipFillRectangles` with `k + 1` rectangles is the call
with `k` rectangles when that fails, and otherwise the fill of rectangle `k` in the
state that the first `k` fills have left. -/
theorem fill_rectangles_succ (ext : Ext Rgn Dev) (g : Option (GpGraphics Rgn)) (dev : Dev)
    (brush : Option GpBrush) (rs : List GpRectF) (k : Nat) :
    GdipFillRectangles ext g dev brush (some rs) ((k + 1 : Nat) : Int)
      = if (GdipFillRectangles ext g dev brush (some rs) (k : Int)).1 ≠ Ok then
          GdipFillRectangles ext g dev brush (some rs) (k : Int)
        else
          GdipFillRectangle ext (GdipFillRectangles ext g dev brush (some rs) (k : Int)).2.1
            (GdipFillRectangles ext g dev brush (some rs) (k : Int)).2.2 brush
            (rs.getD k ⟨0, 0, 0, 0⟩).X (rs.getD k ⟨0, 0, 0, 0⟩).Y
            (rs.getD k ⟨0, 0, 0, 0⟩).Width (rs.getD k ⟨0, 0, 0, 0⟩).Height := by
  simp only [GdipFillRectangles, Int.toNat_ofNat]
  rw [fill_rectangles_loop_add ext brush rs 1 k 0 g dev]
  by_cases h : (fill_rectangles_loop ext brush rs k 0 g dev).1 ≠ Ok
  · simp only [if_pos h]
  · simp only [if_neg h, fill_rectangles_loop, zero_add, Int.toNat_ofNat]
    split_ifs with h2
    · rfl
    · have h3 := not_not.mp h2
      rw [← h3]

/-- C16 (filling several rectangles): for a rectangle array `rs` and a count within
it, `GdipFillRectangles` with count 0 returns Ok and changes nothing; with `k + 1`
rectangles it is the call with `k` rectangles followed by the fill of rectangle
`k`, so the rectangles are filled in index order; and the call with `count`
rectangles either returns Ok or there is a first index `k` below `count` such
that the fills before `k` returned Ok, the fill of rectangle `k` did not, and the
call returns exactly what that fill returned: its status, and the state in which
the rectangles before `k` are drawn and no later one was attempted. -/
theorem fill_rectangles_first_failure (ext : Ext Rgn Dev) (g : Option (GpGraphics Rgn))
    (dev : Dev) (brush : Option GpBrush) (rs : List GpRectF) (count : Nat)
    (_hcount : count ≤ rs.length) :
    GdipFillRectangles ext g dev brush (some rs) 0 = (Ok, g, dev) ∧
    (∀ k : Nat, k < count →
      (GdipFillRectangles ext g dev brush (some rs) (k : Int)).1 = Ok →
      GdipFillRectangles ext g dev brush (some rs) ((k + 1 : Nat) : Int)
        = GdipFillRectangle ext (GdipFillRectangles ext g dev brush (some rs) (k : Int)).2.1
            (GdipFillRectangles ext g dev brush (some rs) (k : Int)).2.2 brush
            (rs.getD k ⟨0, 0, 0, 0⟩).X (rs.getD k ⟨0, 0, 0, 0⟩).Y
            (rs.getD k ⟨0, 0, 0, 0⟩).Width (rs.getD k ⟨0, 0, 0, 0⟩).Height) ∧
    ((GdipFillRectangles ext g dev brush (some rs) (count : Int)).1 = Ok ∨
      ∃ k : Nat, k < count ∧
        (GdipFillRectangles ext g dev brush (some rs) (k : Int)).1 = Ok ∧
        (GdipFillRectangle ext (GdipFillRectangles ext g dev brush (some rs) (k : Int)).2.1
            (GdipFillRectangles ext g dev brush (some rs) (k : Int)).2.2 brush
            (rs.getD k ⟨0, 0, 0, 0⟩).X (rs.getD k ⟨0, 0, 0, 0⟩).Y
            (rs.getD k ⟨0, 0, 0, 0⟩).Width (rs.getD k ⟨0, 0, 0, 0⟩).Height).1 ≠ Ok ∧
        GdipFillRectangles ext g dev brush (some rs) (count : Int)
          = GdipFillRectangle ext (GdipFillRectangles ext g dev brush (some rs) (k : Int)).2.1
            (GdipFillRectangles ext g dev brush (some rs) (k : Int)).2.2 brush
            (rs.getD k ⟨0, 0, 0, 0⟩).X (rs.getD k ⟨0, 0, 0, 0⟩).Y
            (rs.getD k ⟨0, 0, 0, 0⟩).Width (rs.getD k ⟨0, 0, 0, 0⟩).Height) := by
  refine ⟨by simp [GdipFillRectangles, fill_rectangles_loop], ?_, ?_⟩
  · intro k _ hk
    rw [fill_rectangles_succ, if_neg (not_not.mpr hk)]
  · clear _hcount
    induction count with
    | zero =>
      left
      simp [GdipFillRectangles, fill_rectangles_loop]
    | succ n ih =>
      rw [fill_rectangles_succ]
      rcases ih with hok | ⟨k, hk, hpre, hfail, hres⟩
      · rw [if_neg (not_not.mpr hok)]
        by_cases hcall : (GdipFillRectangle ext
            (GdipFillRectangles ext g dev brush (some rs) (n : Int)).2.1
            (GdipFillRectangles ext g dev brush (some rs) (n : Int)).2.2 brush
            (rs.getD n ⟨0, 0, 0, 0⟩).X (rs.getD n ⟨0, 0, 0, 0⟩).Y
            (rs.getD n ⟨0, 0, 0, 0⟩).Width (rs.getD n ⟨0, 0, 0, 0⟩).Height).1 = Ok
        · exact Or.inl hcall
        · exact Or.inr ⟨n, Nat.lt_succ_self n, hok, hcall, rfl⟩
      · have hn : (GdipFillRectangles ext g dev brush (some rs) (n : Int)).1 ≠ Ok := by
          rw [hres]
          exact hfail
        rw [if_pos hn]
        exact Or.inr ⟨k, Nat.lt_succ_of_lt hk, hpre, hfail, hres⟩

theorem fill_rectangles_first_failure_witness :
    GdipFillRectangles refusingExt (some sampleGraphics) [] (some sampleBrush)
        (some sampleRects) 0 = (Ok, some sampleGraphics, []) ∧
    ((GdipFillRectangles refusingExt (some sampleGraphics) [] (some sampleBrush)
        (some sampleRects) ((3 : Nat) : Int)).1 = Ok ∨
      ∃ k : Nat, k < 3 ∧
        (GdipFillRectangles refusingExt (some sampleGraphics) [] (some sampleBrush)
          (some sampleRects) (k : Int)).1 = Ok ∧
        (GdipFillRectangle refusingExt
            (GdipFillRectangles refusingExt (some sampleGraphics) [] (some sampleBrush)
              (some sampleRects) (k : Int)).2.1
            (GdipFillRectangles refusingExt (some sampleGraphics) [] (some sampleBrush)
              (some sampleRects) (k : Int)).2.2 (some sampleBrush)
            (sampleRects.getD k ⟨0, 0, 0, 0⟩).X (sampleRects.getD k ⟨0, 0, 0, 0⟩).Y
            (sampleRects.getD k ⟨0, 0, 0, 0⟩).Width
            (sampleRects.getD k ⟨0, 0, 0, 0⟩).Height).1 ≠ Ok ∧
        GdipFillRectangles refusingExt (some sampleGraphics) [] (some sampleBrush)
            (some sampleRects) ((3 : Nat) : Int)
          = GdipFillRectangle refusingExt
            (GdipFillRectangles refusingExt (some sampleGraphics) [] (some sampleBrush)
              (some sampleRects) (k : Int)).2.1
            (GdipFillRectangles refusingExt (some sampleGraphics) [] (some sampleBrush)
              (some sampleRects) (k : Int)).2.2 (some sampleBrush)
            (sampleRects.getD k ⟨0, 0, 0, 0⟩).X (sampleRects.getD k ⟨0, 0, 0, 0⟩).Y
            (sampleRects.getD k ⟨0, 0, 0, 0⟩).Width
            (sampleRects.getD k ⟨0, 0, 0, 0⟩).Height) :=
  ⟨(fill_rectangles_first_failure refusingExt (some sampleGraphics) [] (some sampleBrush)
      sampleRects 3 (by decide)).1,
   (fill_rectangles_first_failure refusingExt (some sampleGraphics) [] (some sampleBrush)
      sampleRects 3 (by decide)).2.2⟩

/-- A failure partway evaluated: of three rectangles the second is refused; the
call returns the refusal and the device holds the drawing of the first rectangle
only. -/
theorem fill_rectangles_partial_evaluated :
    (GdipFillRectangles refusingExt (some sampleGraphics) [] (some sampleBrush)
      (some sampleRects) 3).1 = InvalidParameter ∧
    (GdipFillRectangles refusingExt (some sampleGraphics) [] (some sampleBrush)
      (some sampleRects) 3).2.2
      = (GdipFillRectangle refusingExt (some sampleGraphics) [] (some sampleBrush) 0 0 1 1).2.2 ∧
    (GdipFillRectangle refusingExt (some sampleGraphics) [] (some sampleBrush) 0 0 1 1).2.2
      ≠ [] := by
  decide

/-! ### Creating a context -/

/-- C17 as the specification states it fails: creating a context from a null
device surface returns `OutOfMemory`, not `InvalidParameter`. -/
theorem null_hdc_is_out_of_memory :
    GdipCreateFromHDC2 sampleExt [] 0 0 (some none) = (OutOfMemory, some none) ∧
    (GdipCreateFromHDC2 sampleExt [] 0 0 (some none)).1 ≠ InvalidParameter ∧
    (GdipCreateFromHDC sampleExt [] 0 (some none)).1 ≠ InvalidParameter := by
  decide

/-- C17 (amended): `GdipCreateFromHDC2 (NULL, NULL, &graphics)` and
`GdipCreateFromHDC (NULL, &graphics)` return `OutOfMemory` and leave the slot of
`graphics` as it was, so no context is created; `InvalidParameter` is the status
for a non-null device surface with a null `graphics` pointer. -/
theorem create_from_null_hdc (ext : Ext Rgn Dev) (dev : Dev)
    (graphics : Option (Option (GpGraphics Rgn))) (hdc : HDC) (hhdc : hdc ≠ 0) :
    GdipCreateFromHDC2 ext dev 0 0 graphics = (OutOfMemory, graphics) ∧
    GdipCreateFromHDC ext dev 0 graphics = (OutOfMemory, graphics) ∧
    GdipCreateFromHDC2 ext dev hdc 0 none = (InvalidParameter, none) ∧
    GdipCreateFromHDC ext dev hdc none = (InvalidParameter, none) := by
  simp [GdipCreateFromHDC, GdipCreateFromHDC2, hhdc]

theorem create_from_null_hdc_witness :
    (5 : HDC) ≠ 0 ∧
    GdipCreateFromHDC2 sampleExt [] 0 0 (some none) = (OutOfMemory, some none) ∧
    GdipCreateFromHDC sampleExt [] 0 (some none) = (OutOfMemory, some none) ∧
    GdipCreateFromHDC2 sampleExt [] 5 0 none = (InvalidParameter, none) ∧
    GdipCreateFromHDC sampleExt [] 5 none = (InvalidParameter, none) :=
  ⟨by decide, create_from_null_hdc sampleExt [] (some none) 5 (by decide)⟩

/-! ### Degenerate geometry -/

/-- C18 as the specification states it fails for arcs: on a context that is not
busy, `GdipDrawArc` with width 0, or with height 0, returns `InvalidParameter`. -/
theorem draw_arc_zero_size_rejected :
    sampleGraphics.busy = false ∧
    GdipDrawArc sampleExt (some sampleGraphics) [] (some samplePen) 0 0 0 10 0 90
      = (InvalidParameter, some sampleGraphics, []) ∧
    GdipDrawArc sampleExt (some sampleGraphics) [] (some samplePen) 0 0 10 0 0 90
      = (InvalidParameter, some sampleGraphics, []) := by
  refine ⟨rfl, ?_, ?_⟩ <;> simp [GdipDrawArc]

/-- C18 (amended): `GdipDrawImagePointsRect` with three points and a source
rectangle of zero width or zero height returns Ok and leaves context and device
as they were; `draw_cap` for a line whose two end points coincide leaves the
device as it was; `GdipDrawArc` with a width or height that is not positive
returns `InvalidParameter`. -/
theorem degenerate_geometry (ext : Ext Rgn Dev) (libm : Libm) (g : GpGraphics Rgn) (dev : Dev)
    (pen : GpPen) (image : GpImage) (points : List GpPointF)
    (x y width height startAngle sweepAngle srcx srcy srcwidth srcheight : REAL)
    (srcUnit : Int) (imageAttributes : Option GpImageAttributes)
    (color : Nat) (cap : Int) (size : REAL) (custom : Option GpCustomLineCap)
    (hsize : width ≤ 0 ∨ height ≤ 0) (hsrc : srcwidth = 0 ∨ srcheight = 0) :
    GdipDrawImagePointsRect ext (some g) dev (some image) (some points) 3
        srcx srcy srcwidth srcheight srcUnit imageAttributes = (Ok, some g, dev) ∧
    draw_cap ext libm g dev color cap size custom x y x y = dev ∧
    GdipDrawArc ext (some g) dev (some pen) x y width height startAngle sweepAngle
      = (InvalidParameter, some g, dev) := by
  refine ⟨?_, ?_, ?_⟩
  · have h : srcwidth = 0 ∨ srcheight = 0 ∨
        (points.getD 2 ⟨0, 0⟩).X + (points.getD 1 ⟨0, 0⟩).X - (points.getD 0 ⟨0, 0⟩).X
          = (points.getD 0 ⟨0, 0⟩).X ∨
        (points.getD 2 ⟨0, 0⟩).Y + (points.getD 1 ⟨0, 0⟩).Y - (points.getD 0 ⟨0, 0⟩).Y
          = (points.getD 0 ⟨0, 0⟩).Y := by
      rcases hsrc with h | h
      · exact Or.inl h
      · exact Or.inr (Or.inl h)
    simp only [GdipDrawImagePointsRect]
    rw [if_neg (by decide), if_neg (by decide), if_pos h]
  · simp [draw_cap]
  · simp [GdipDrawArc, hsize]

theorem degenerate_geometry_witness :
    GdipDrawImagePointsRect sampleExt (some sampleGraphics) [] (some sampleBitmap)
        (some [⟨0, 0⟩, ⟨2, 0⟩, ⟨0, 2⟩]) 3 0 0 0 2 UnitPixel none
      = (Ok, some sampleGraphics, []) ∧
    draw_cap sampleExt sampleLibm sampleGraphics [] 0 LineCapSquare 10 none 7 3 7 3 = [] ∧
    GdipDrawArc sampleExt (some sampleGraphics) [] (some samplePen) 7 3 0 10 0 90
      = (InvalidParameter, some sampleGraphics, []) :=
  degenerate_geometry sampleExt sampleLibm sampleGraphics [] samplePen sampleBitmap
    [⟨0, 0⟩, ⟨2, 0⟩, ⟨0, 2⟩] 7 3 0 10 0 90 0 0 0 2 UnitPixel none 0 LineCapSquare 10 none
    (Or.inl (le_refl 0)) (Or.inl rfl)

/-! ### Sampling a bitmap -/

/-- Tiling without flip folds a coordinate that is not negative by true modulo. -/
theorem tile_coordinate_nonneg (size : Nat) (x : Int) (hs1 : 1 ≤ size) (hs2 : size < 2 ^ 31)
    (hx1 : 0 ≤ x) (hx2 : x < 2 ^ 31) :
    tile_coordinate size false x = x % (size : Int) := by
  have h0 : ¬ x < 0 := by omega
  obtain ⟨n, rfl⟩ := Int.eq_ofNat_of_zero_le hx1
  have hn : n < 2 ^ 31 := by exact_mod_cast hx2
  have h1 : int_to_uint (n : Int) = n := by
    simp only [int_to_uint, UINT_MODULUS]
    rw [← Int.natCast_mod, Int.toNat_ofNat, Nat.mod_eq_of_lt (by omega)]
  have h2 : n % size < size := Nat.mod_lt _ (by omega)
  have h3 : n % size % UINT_MODULUS = n % size := by
    simp only [UINT_MODULUS]
    exact Nat.mod_eq_of_lt (by omega)
  simp only [tile_coordinate, if_neg h0, h1, uint_to_int, h3, Bool.false_eq_true, if_false]
  rw [if_pos (by omega)]
  exact Int.natCast_mod n size

/-- For coordinates that are not negative, `sample_bitmap_pixel` under
`WrapModeTile` with a window covering the whole image returns the pixel in
column `x mod w` of row `y mod h`. -/
theorem sample_bitmap_pixel_tile_nonneg (bits : List ARGB) (w h : Nat) (x y : Int)
    (attributes : GpImageAttributes) (hwrap : attributes.wrap = WrapModeTile)
    (hw1 : 1 ≤ w) (hw2 : w < 2 ^ 31) (hh1 : 1 ≤ h) (hh2 : h < 2 ^ 31)
    (hx1 : 0 ≤ x) (hx2 : x < 2 ^ 31) (hy1 : 0 ≤ y) (hy2 : y < 2 ^ 31) :
    sample_bitmap_pixel ⟨0, 0, w, h⟩ bits w h x y attributes
      = bits.getD ((x % (w : Int)) + (y % (h : Int)) * (w : Int)).toNat 0 := by
  have hc : attributes.wrap ≠ WrapModeClamp := by rw [hwrap]; decide
  have hf1 : decide (Int.land attributes.wrap 1 = 1) = false := by rw [hwrap]; decide
  have hf2 : decide (Int.land attributes.wrap 2 = 2) = false := by rw [hwrap]; decide
  have hxw : 0 ≤ x % (w : Int) := Int.emod_nonneg _ (by omega)
  have hxw2 : x % (w : Int) < w := Int.emod_lt_of_pos _ (by omega)
  have hyh : 0 ≤ y % (h : Int) := Int.emod_nonneg _ (by omega)
  have hyh2 : y % (h : Int) < h := Int.emod_lt_of_pos _ (by omega)
  simp only [sample_bitmap_pixel, hc, decide_False, Bool.false_and, Bool.false_eq_true,
    if_false, hf1, hf2, tile_coordinate_nonneg w x hw1 hw2 hx1 hx2,
    tile_coordinate_nonneg h y hh1 hh2 hy1 hy2]
  rw [if_neg (by omega)]
  simp

/-- C19 (tiling a negative coordinate): for an image 3 pixels wide and 1 pixel high
with the pixels 10, 20, 30, sampled under `WrapModeTile` through a window that
covers it, column `-1 mod 3 = 2` holds 30 and the sample at `x = 2 = -1 + 3`
is 30, but the sample at `x = -1` is the pixel 10 of column 0: the coordinate is
reduced as the `UINT` 2^32 - 1, and 2^32 is not a multiple of 2 * 3. -/
theorem sample_bitmap_pixel_negative_tile :
    sample_bitmap_pixel ⟨0, 0, 3, 1⟩ [10, 20, 30] 3 1 (-1) 0 tileAttributes = 10 ∧
    sample_bitmap_pixel ⟨0, 0, 3, 1⟩ [10, 20, 30] 3 1 2 0 tileAttributes = 30 ∧
    ([10, 20, 30] : List ARGB).getD ((-1 : Int) % 3).toNat 0 = 30 ∧
    tile_coordinate 3 false (-1) = 0 ∧
    int_to_uint (-1) = 4294967295 := by
  decide

/-- The functions `floorf` and `ceilf` at a whole number. -/
theorem rat_floor_intCast (z : Int) : Rat.floor (z : ℚ) = z := by
  simp [Rat.floor]

theorem rat_ceil_intCast (z : Int) : Rat.ceil (z : ℚ) = z := by
  simp [Rat.ceil]

/-- Under `WrapModeClamp` the rectangle of `get_bitmap_sample_size` starts inside
the bitmap on the left and top and ends inside it on the right and bottom; its
width and height are `right - left + 1` and `bottom - top + 1` of the clamped
edges, which the function does not compare with each other. -/
theorem get_bitmap_sample_size_clamp_edges (ext : Ext Rgn Dev) (interpolation : Int)
    (bitmap : GpImage) (srcx srcy srcwidth srcheight : REAL) :
    0 ≤ (get_bitmap_sample_size ext interpolation WrapModeClamp bitmap
      srcx srcy srcwidth srcheight).X ∧
    0 ≤ (get_bitmap_sample_size ext interpolation WrapModeClamp bitmap
      srcx srcy srcwidth srcheight).Y ∧
    (get_bitmap_sample_size ext interpolation WrapModeClamp bitmap
      srcx srcy srcwidth srcheight).X
      + (get_bitmap_sample_size ext interpolation WrapModeClamp bitmap
      srcx srcy srcwidth srcheight).Width ≤ bitmap.width ∧
    (get_bitmap_sample_size ext interpolation WrapModeClamp bitmap
      srcx srcy srcwidth srcheight).Y
      + (get_bitmap_sample_size ext interpolation WrapModeClamp bitmap
      srcx srcy srcwidth srcheight).Height ≤ bitmap.height := by
  simp only [get_bitmap_sample_size, if_true]
  refine ⟨?_, ?_, ?_, ?_⟩ <;> split_ifs <;> omega

/-- C20 (sample window outside the bitmap): for a 4 x 4 bitmap under
`WrapModeClamp` and bilinear interpolation, the source rectangle (10, 0, 2, 2),
which lies to the right of the bitmap, gives the rectangle X = 10, Width = -6, and
the source rectangle (-10, 0, 2, 2), which lies to the left, gives X = 0,
Width = -7: the width is negative and X = 10 is beyond the bitmap width 4. -/
theorem get_bitmap_sample_size_outside :
    get_bitmap_sample_size sampleExt InterpolationModeBilinear WrapModeClamp sampleBitmap4
      10 0 2 2 = ⟨10, 0, -6, 3⟩ ∧
    get_bitmap_sample_size sampleExt InterpolationModeBilinear WrapModeClamp sampleBitmap4
      (-10) 0 2 2 = ⟨0, 0, -7, 3⟩ ∧
    sampleBitmap4.width = 4 ∧ sampleBitmap4.height = 4 := by
  have f10 : Rat.floor (10 : ℚ) = 10 := by simpa using rat_floor_intCast 10
  have f0 : Rat.floor (0 : ℚ) = 0 := by simpa using rat_floor_intCast 0
  have fm10 : Rat.floor (-10 : ℚ) = -10 := by simpa using rat_floor_intCast (-10)
  have c12 : Rat.ceil ((10 : ℚ) + 2) = 12 := by
    rw [show (10 : ℚ) + 2 = ((12 : Int) : ℚ) by norm_num, rat_ceil_intCast]
  have c2 : Rat.ceil ((0 : ℚ) + 2) = 2 := by
    rw [show (0 : ℚ) + 2 = ((2 : Int) : ℚ) by norm_num, rat_ceil_intCast]
  have cm8 : Rat.ceil ((-10 : ℚ) + 2) = -8 := by
    rw [show (-10 : ℚ) + 2 = ((-8 : Int) : ℚ) by norm_num, rat_ceil_intCast]
  refine ⟨?_, ?_, rfl, rfl⟩
  · simp only [get_bitmap_sample_size, f10, f0, c12, c2]
    decide
  · simp only [get_bitmap_sample_size, fm10, f0, cm8, c2]
    decide

/-! ### Resampling at a whole point -/

/-- The cast `(int)` of a whole number is that number. -/
theorem real_to_int_intCast (z : Int) : real_to_int (z : REAL) = z := by
  by_cases h : (0 : REAL) ≤ (z : REAL)
  · simp only [real_to_int, if_pos h, rat_floor_intCast]
  · simp only [real_to_int, if_neg h, rat_ceil_intCast]

/-- C22 (bilinear resampling at a whole point): for every point whose X and Y are
whole numbers, every sample window, bitmap size and image attributes (so every
wrap mode), `resample_bitmap_pixel` with `InterpolationModeBilinear` is the
single sample `sample_bitmap_pixel` at that point. -/
theorem resample_integer_point (ext : Ext Rgn Dev) (src_rect : GpRect) (bits : List ARGB)
    (width height : Nat) (a b : Int) (attributes : GpImageAttributes) :
    resample_bitmap_pixel ext src_rect bits width height ⟨(a : REAL), (b : REAL)⟩ attributes
        InterpolationModeBilinear
      = sample_bitmap_pixel src_rect bits width height a b attributes := by
  have hne : InterpolationModeBilinear ≠ InterpolationModeNearestNeighbor := by decide
  simp only [resample_bitmap_pixel, if_neg hne, rat_floor_intCast, rat_ceil_intCast,
    real_to_int_intCast, and_self, if_true]

/-! ### Bezier runs in `draw_poly` -/

/-- C24 (bezier runs): the type sequence Start, Bezier, Bezier, Line, in which the
bezier run has two points only, passes the validation loop of `draw_poly`: the
status is Ok and the `PolyDraw` request reaches GDI.  A bezier point with fewer
than two points after it is refused with `GenericError` and nothing is drawn. -/
theorem draw_poly_accepts_short_bezier_run :
    draw_poly_check [PathPointTypeStart, PathPointTypeBezier, PathPointTypeBezier,
      PathPointTypeLine] 4 4 1 = true ∧
    draw_poly sampleExt sampleGraphics [] (some samplePen)
        [⟨0, 0⟩, ⟨1, 1⟩, ⟨2, 0⟩, ⟨3, 1⟩]
        [PathPointTypeStart, PathPointTypeBezier, PathPointTypeBezier, PathPointTypeLine]
        4 false
      = (Ok, [GdiDraw.PolyDraw (some samplePen) [⟨0, 0⟩, ⟨1, 1⟩, ⟨2, 0⟩, ⟨3, 1⟩]
          [PathPointTypeStart, PathPointTypeBezier, PathPointTypeBezier, PathPointTypeLine]
          4 false]) ∧
    draw_poly sampleExt sampleGraphics [] (some samplePen)
        [⟨0, 0⟩, ⟨1, 1⟩, ⟨2, 0⟩]
        [PathPointTypeStart, PathPointTypeLine, PathPointTypeBezier] 3 false
      = (GenericError, []) := by
  decide

/-! ### The test for the accelerated fill route -/

/-- The alpha channel of a colour is 255 exactly when the colour passes the mask
test `(c & 0xff000000) == 0xff000000`. -/
theorem alpha_opaque_iff (c : Nat) :
    c &&& 0xff000000 = 0xff000000 ↔ (c >>> 24) &&& 0xff = 255 := by
  have e1 : (0xff000000 : Nat) = (2 ^ 8 - 1) <<< 24 := by norm_num [Nat.shiftLeft_eq]
  have e2 : (0xff : Nat) = 2 ^ 8 - 1 := by norm_num
  rw [e1, e2]
  constructor
  · intro h
    apply Nat.eq_of_testBit_eq
    intro i
    have hi := congrArg (fun n => n.testBit (24 + i)) h
    simp only [Nat.testBit_and, Nat.testBit_shiftLeft, Nat.testBit_two_pow_sub_one,
      Nat.testBit_shiftRight] at hi ⊢
    simpa using hi
  · intro h
    apply Nat.eq_of_testBit_eq
    intro i
    simp only [Nat.testBit_and, Nat.testBit_shiftLeft, Nat.testBit_two_pow_sub_one]
    by_cases h24 : 24 ≤ i
    · have hi := congrArg (fun n => n.testBit (i - 24)) h
      simp only [Nat.testBit_and, Nat.testBit_shiftRight, Nat.testBit_two_pow_sub_one] at hi
      rw [show 24 + (i - 24) = i by omega] at hi
      simpa [h24] using hi
    · simp [h24]

/-- C25 (gate of the accelerated path-fill route): `brush_can_fill_path` is
non-zero exactly for a solid-colour brush and for a hatch brush whose foreground
and background colours both have alpha 255; it is 0 for every linear-gradient,
texture and path-gradient brush, and for a hatch brush one of whose colours has
an alpha other than 255. -/
theorem brush_can_fill_path_iff (brush : GpBrush) :
    (brush_can_fill_path brush ≠ 0 ↔
      ((∃ fill, brush = .SolidFill fill) ∨
        ∃ hatch, brush = .Hatch hatch ∧ (hatch.forecol >>> 24) &&& 0xff = 255 ∧
          (hatch.backcol >>> 24) &&& 0xff = 255)) ∧
    (∀ fill, brush_can_fill_path (.LineGradient fill) = 0) ∧
    (∀ fill, brush_can_fill_path (.Texture fill) = 0) ∧
    (∀ fill, brush_can_fill_path (.PathGradient fill) = 0) ∧
    (∀ hatch : GpHatch,
      ((hatch.forecol >>> 24) &&& 0xff ≠ 255 ∨ (hatch.backcol >>> 24) &&& 0xff ≠ 255) →
      brush_can_fill_path (.Hatch hatch) = 0) := by
  refine ⟨?_, fun _ => rfl, fun _ => rfl, fun _ => rfl, ?_⟩
  · cases brush with
    | SolidFill fill => simp [brush_can_fill_path]
    | Hatch hatch =>
      simp only [brush_can_fill_path, alpha_opaque_iff]
      by_cases h : (hatch.forecol >>> 24) &&& 0xff = 255 ∧ (hatch.backcol >>> 24) &&& 0xff = 255
      · simp [h]
      · simp [h]
    | Texture fill => simp [brush_can_fill_path]
    | PathGradient fill => simp [brush_can_fill_path]
    | LineGradient fill => simp [brush_can_fill_path]
    | Unknown bt => simp [brush_can_fill_path]
  · intro hatch h
    simp only [brush_can_fill_path, alpha_opaque_iff]
    rw [if_neg]
    intro hc
    rcases h with h | h
    · exact h hc.1
    · exact h hc.2

/-! ### Integer and sub-array front ends -/

/-- C29 (integer rectangles): the conversion of `GdipFillRectanglesI` stores the
width of the integer rectangle in X and leaves Width at 0: the rectangle
(1, 2, 3, 4) is handed to `GdipFillRectangles` as (3, 2, 0, 4), and the drawing
differs from that of the rectangle (1, 2, 3, 4). -/
theorem fill_rectangles_i_conversion :
    fill_rectangles_convert ⟨1, 2, 3, 4⟩ = ⟨3, 2, 0, 4⟩ ∧
    GdipFillRectanglesI sampleExt (some sampleGraphics) [] (some sampleBrush)
        (some [⟨1, 2, 3, 4⟩]) 1
      = GdipFillRectangles sampleExt (some sampleGraphics) [] (some sampleBrush)
        (some [⟨3, 2, 0, 4⟩]) 1 ∧
    GdipFillRectanglesI sampleExt (some sampleGraphics) [] (some sampleBrush)
        (some [⟨1, 2, 3, 4⟩]) 1
      ≠ GdipFillRectangles sampleExt (some sampleGraphics) [] (some sampleBrush)
        (some [⟨1, 2, 3, 4⟩]) 1 := by
  decide

/-- The validation of `GdipDrawCurve3` bounds the sub-array from above: arguments
that pass it satisfy `offset + numberOfSegments <= count - 1`. -/
theorem draw_curve3_upper_bound (ext : Ext Rgn Dev) (graphics : Option (GpGraphics Rgn))
    (dev : Dev) (pen : Option GpPen) (points : List GpPointF)
    (count offset numberOfSegments : Int) (tension : REAL)
    (h : GdipDrawCurve3 ext graphics dev pen points count offset numberOfSegments tension
      ≠ (InvalidParameter, graphics, dev)) :
    offset + numberOfSegments ≤ count - 1 ∧ offset < count ∧ 0 < numberOfSegments := by
  by_cases hg : offset ≥ count ∨ numberOfSegments > count - offset - 1 ∨ numberOfSegments ≤ 0
  · simp [GdipDrawCurve3, hg] at h
  · omega

/-- C30 (sub-array of `GdipDrawCurve3`): with count = 3, offset = -1 and
numberOfSegments = 2 the validation passes, in `GdipDrawCurve3` and in
`GdipDrawCurve3I`: the call is forwarded with the array that starts one point in
front of `points` and returns Ok, and `0 <= offset` does not hold. -/
theorem draw_curve3_negative_offset :
    GdipDrawCurve3 sampleExt (some sampleGraphics) [] (some samplePen)
        [⟨0, 0⟩, ⟨1, 1⟩, ⟨2, 0⟩] 3 (-1) 2 0
      = GdipDrawCurve2 sampleExt (some sampleGraphics) [] (some samplePen)
        (points_from [⟨0, 0⟩, ⟨1, 1⟩, ⟨2, 0⟩] (-1)) 3 0 ∧
    (GdipDrawCurve3 sampleExt (some sampleGraphics) [] (some samplePen)
        [⟨0, 0⟩, ⟨1, 1⟩, ⟨2, 0⟩] 3 (-1) 2 0).1 = Ok ∧
    GdipDrawCurve3I sampleExt (some sampleGraphics) [] (some samplePen)
        [⟨0, 0⟩, ⟨1, 1⟩, ⟨2, 0⟩] 3 (-1) 2 0
      = GdipDrawCurve2I sampleExt (some sampleGraphics) [] (some samplePen)
        (some (points_from_int [⟨0, 0⟩, ⟨1, 1⟩, ⟨2, 0⟩] (-1))) 3 0 ∧
    (GdipDrawCurve3I sampleExt (some sampleGraphics) [] (some samplePen)
        [⟨0, 0⟩, ⟨1, 1⟩, ⟨2, 0⟩] 3 (-1) 2 0).1 = Ok ∧
    ¬ ((0 : Int) ≤ -1) := by
  decide

/-! ### Loops that write a pattern -/

theorem store_pixel_other (buf : List ARGB) (index : Int) (color : ARGB) (j : Nat)
    (h : index.toNat ≠ j) : (store_pixel buf index color).getD j 0 = buf.getD j 0 := by
  unfold store_pixel
  split
  · rfl
  · simp [List.getD_eq_getElem?_getD, List.getElem?_set, h]

/-- A store keeps an established value at `j` when it goes elsewhere or writes the
same colour. -/
theorem store_pixel_keep_or (buf : List ARGB) (index : Int) (color c : ARGB) (j : Nat)
    (hc : buf.getD j 0 = c) (h : index.toNat = j → color = c) :
    (store_pixel buf index color).getD j 0 = c := by
  by_cases hj : index.toNat = j
  · rw [← h hj]
    exact store_pixel_keep buf index color j (by rw [hc, h hj])
  · rw [store_pixel_other buf index color j hj, hc]

/-- Two nested loops that store `color a b` at `idx a b`, for indices that lie in
the buffer and differ for different `(a, b)`: afterwards every `idx a b` holds
`color a b`. -/
theorem nested_store_get (A B : Nat) (idx : Nat → Nat → Int) (color : Nat → Nat → ARGB)
    (buf : List ARGB)
    (hidx : ∀ a b, a < A → b < B → 0 ≤ idx a b ∧ (idx a b).toNat < buf.length)
    (hinj : ∀ a b a' b', a < A → b < B → a' < A → b' < B → idx a b = idx a' b' →
      a = a' ∧ b = b') :
    ∀ a b, a < A → b < B →
      ((List.range A).foldl
        (fun buf (a : Nat) =>
          (List.range B).foldl (fun buf (b : Nat) => store_pixel buf (idx a b) (color a b)) buf)
        buf).getD (idx a b).toNat 0 = color a b := by
  have hsame : ∀ a b a' b', a < A → b < B → a' < A → b' < B →
      (idx a b).toNat = (idx a' b').toNat → color a b = color a' b' := by
    intro a b a' b' ha hb ha' hb' he
    have h1 := (hidx a b ha hb).1
    have h2 := (hidx a' b' ha' hb').1
    have hi : idx a b = idx a' b' := by omega
    obtain ⟨e1, e2⟩ := hinj a b a' b' ha hb ha' hb' hi
    rw [e1, e2]
  have hstep_len : ∀ (a : Nat) (b1 : List ARGB) (b : Nat), b < B →
      b1.length = buf.length →
      (store_pixel b1 (idx a b) (color a b)).length = buf.length := by
    intro a b1 b _ hl
    rw [store_pixel_length, hl]
  have hinner_len : ∀ (a : Nat) (b0 : List ARGB), b0.length = buf.length →
      ((List.range B).foldl (fun buf (b : Nat) => store_pixel buf (idx a b) (color a b))
        b0).length = buf.length := by
    intro a b0 hl
    exact (foldl_keep (fun buf (b : Nat) => store_pixel buf (idx a b) (color a b))
      (fun b => b < B) (fun b1 => b1.length = buf.length) (fun _ => True)
      (hstep_len a) (fun _ _ _ _ _ => trivial)
      (List.range B) b0 (fun b hb => List.mem_range.mp hb) hl trivial).1
  have hkey := foldl_establish
    (fun buf (a : Nat) =>
      (List.range B).foldl (fun buf (b : Nat) => store_pixel buf (idx a b) (color a b)) buf)
    (fun a => a < A) (fun b0 => b0.length = buf.length)
    (fun a b0 => a < A → ∀ b, b < B → b0.getD (idx a b).toNat 0 = color a b)
    (fun b0 a _ hlen => hinner_len a b0 hlen)
    (fun b0 a ha hlen => by
      intro _ b hb
      have hin := foldl_establish
        (fun buf (b : Nat) => store_pixel buf (idx a b) (color a b))
        (fun b => b < B) (fun b1 => b1.length = buf.length)
        (fun b b1 => b < B → b1.getD (idx a b).toNat 0 = color a b)
        (hstep_len a)
        (fun b1 b hb hl => fun _ => store_pixel_same b1 _ _ (hidx a b ha hb).1
          (by rw [hl]; exact (hidx a b ha hb).2))
        (fun b1 b b' hb _ hq => fun hb' =>
          store_pixel_keep_or b1 _ _ _ _ (hq hb') (hsame a b a b' ha hb ha hb'))
        (List.range B) b0 (fun b hb => List.mem_range.mp hb) hlen
      exact hin.2 b (List.mem_range.mpr hb) hb)
    (fun b0 a a' ha hlen hq => by
      intro ha' b' hb'
      exact (foldl_keep (fun buf (b : Nat) => store_pixel buf (idx a b) (color a b))
        (fun b => b < B) (fun b1 => b1.length = buf.length)
        (fun b1 => b1.getD (idx a' b').toNat 0 = color a' b')
        (hstep_len a)
        (fun b1 b hb _ hk =>
          store_pixel_keep_or b1 _ _ _ _ hk (hsame a b a' b' ha hb ha' hb'))
        (List.range B) b0 (fun b hb => List.mem_range.mp hb) hlen (hq ha' b' hb')).2)
    (List.range A) buf (fun a ha => List.mem_range.mp ha) rfl
  intro a b ha hb
  exact hkey.2 a (List.mem_range.mpr ha) ha b hb

/-! ### The two hatch routes -/

/-- The raster of the hatch branch of `brush_fill_pixels` for the 8 x 8 area at the
origin: pixel `(x, y)` is chosen by bit `x`, counted from the most significant
bit, of pattern row `7 - y`. -/
theorem hatch_fill_pixels_origin (ext : Ext Rgn Dev) (g : GpGraphics Rgn) (hatch : GpHatch)
    (hatch_data : List Nat) (hstyle : ext.get_hatch_data hatch.hatchstyle = some hatch_data)
    (x y : Nat) (hx : x < 8) (hy : y < 8) :
    brush_fill_pixels ext g (.Hatch hatch) (List.replicate 64 0) ⟨0, 0, 8, 8⟩ 8
      = (Ok, (brush_fill_pixels ext g (.Hatch hatch) (List.replicate 64 0) ⟨0, 0, 8, 8⟩ 8).2) ∧
    (brush_fill_pixels ext g (.Hatch hatch) (List.replicate 64 0) ⟨0, 0, 8, 8⟩ 8).2.getD
        (x + y * 8) 0
      = if hatch_data.getD (7 - y) 0 &&& (0x80 >>> x) ≠ 0 then hatch.forecol
        else hatch.backcol := by
  simp only [brush_fill_pixels, hstyle, fill_pixels_loop, true_and]
  have h := nested_store_get 8 8 (fun a b => (a : Int) + (b : Int) * 8)
    (fun a b => if hatch_bit hatch_data ⟨0, 0, 8, 8⟩ a b then hatch.forecol else hatch.backcol)
    (List.replicate 64 0)
    (fun a b ha hb => by
      constructor
      · positivity
      · simp only [List.length_replicate]
        omega)
    (fun a b a' b' ha hb ha' hb' he => by
      have he' : (a : Int) + (b : Int) * 8 = (a' : Int) + (b' : Int) * 8 := he
      constructor <;> omega) x y hx hy
  have hidx : ((x : Int) + (y : Int) * 8).toNat = x + y * 8 := by omega
  dsimp only at h
  rw [hidx] at h
  have e8 : (8 : Int).toNat = 8 := rfl
  simp only [e8]
  rw [h]
  have hbit : hatch_bit hatch_data ⟨0, 0, 8, 8⟩ (x : Int) (y : Int)
      = decide (hatch_data.getD (7 - y) 0 &&& (0x80 >>> x) ≠ 0) := by
    rw [hatch_bit_nonneg hatch_data ⟨0, 0, 8, 8⟩ x y (by simp) (by simp)]
    simp only [hatch_bit_spec, add_zero]
    have hx8 : ((x : Int) % 8).toNat = x := by omega
    have hy8 : (7 - (y : Int) % 8).toNat = 7 - y := by omega
    rw [hx8, hy8]
  rw [hbit]
  by_cases hb : hatch_data.getD (7 - y) 0 &&& (0x80 >>> x) ≠ 0
  · simp [hb]
  · simp [hb]

/-- The pattern bitmap of `create_hatch_bitmap` read as a bottom-up bitmap: visual
pixel `(x, y)` is chosen by bit `x` of pattern row `7 - y`. -/
theorem hatch_bitmap_pixel (ext : Ext Rgn Dev) (dev : Dev) (hatch : GpHatch)
    (hatch_data : List Nat) (hstyle : ext.get_hatch_data hatch.hatchstyle = some hatch_data)
    (hbmp : (ext.CreateDIBSection 8 8 dev).1 ≠ 0) (x y : Nat) (hx : x < 8) (hy : y < 8) :
    (create_hatch_bitmap ext dev hatch).1 ≠ 0 ∧
    bottom_up_pixel (create_hatch_bitmap ext dev hatch).2.1 8 8 x y
      = if hatch_data.getD (7 - y) 0 &&& (0x80 >>> x) ≠ 0 then hatch.forecol
        else hatch.backcol := by
  simp only [create_hatch_bitmap, hstyle, if_pos hbmp, bottom_up_pixel]
  refine ⟨hbmp, ?_⟩
  have h := nested_store_get 8 8 (fun a b => (a : Int) * 8 + (b : Int))
    (fun a b => if hatch_data.getD a 0 &&& (0x80 >>> b) ≠ 0 then hatch.forecol
      else hatch.backcol)
    (List.replicate 64 0)
    (fun a b ha hb => by
      constructor
      · positivity
      · simp only [List.length_replicate]
        omega)
    (fun a b a' b' ha hb ha' hb' he => by
      have he' : (a : Int) * 8 + (b : Int) = (a' : Int) * 8 + (b' : Int) := he
      constructor <;> omega) (7 - y) x (by omega) hx
  dsimp only at h
  have hidx : (((7 - y : Nat) : Int) * 8 + (x : Int)).toNat = (8 - 1 - y) * 8 + x := by omega
  rw [hidx] at h
  exact h

/-- C26 (the two hatch routes agree): for a hatch brush of a supported style, when
the 8 x 8 section can be created, `brush_fill_pixels` returns Ok for the 8 x 8
area at the origin and writes at every pixel `(x, y)`, `x, y < 8`, the colour of
visual pixel `(x, y)` of the bottom-up pattern bitmap that `create_hatch_bitmap`
builds. -/
theorem hatch_routes_agree (ext : Ext Rgn Dev) (g : GpGraphics Rgn) (dev : Dev)
    (hatch : GpHatch) (hatch_data : List Nat)
    (hstyle : ext.get_hatch_data hatch.hatchstyle = some hatch_data)
    (hbmp : (ext.CreateDIBSection 8 8 dev).1 ≠ 0) (x y : Nat) (hx : x < 8) (hy : y < 8) :
    (brush_fill_pixels ext g (.Hatch hatch) (List.replicate 64 0) ⟨0, 0, 8, 8⟩ 8).1 = Ok ∧
    (create_hatch_bitmap ext dev hatch).1 ≠ 0 ∧
    (brush_fill_pixels ext g (.Hatch hatch) (List.replicate 64 0) ⟨0, 0, 8, 8⟩ 8).2.getD
        (x + y * 8) 0
      = bottom_up_pixel (create_hatch_bitmap ext dev hatch).2.1 8 8 x y := by
  obtain ⟨h1, h2⟩ := hatch_fill_pixels_origin ext g hatch hatch_data hstyle x y hx hy
  obtain ⟨h3, h4⟩ := hatch_bitmap_pixel ext dev hatch hatch_data hstyle hbmp x y hx hy
  refine ⟨?_, h3, ?_⟩
  · rw [h1]
  · rw [h2, h4]

theorem hatch_routes_agree_witness :
    (brush_fill_pixels diagonalExt sampleGraphics (.Hatch sampleHatch) (List.replicate 64 0)
      ⟨0, 0, 8, 8⟩ 8).1 = Ok ∧
    (create_hatch_bitmap diagonalExt [] sampleHatch).1 ≠ 0 ∧
    (brush_fill_pixels diagonalExt sampleGraphics (.Hatch sampleHatch) (List.replicate 64 0)
      ⟨0, 0, 8, 8⟩ 8).2.getD (1 + 6 * 8) 0
      = bottom_up_pixel (create_hatch_bitmap diagonalExt [] sampleHatch).2.1 8 8 1 6 :=
  hatch_routes_agree diagonalExt sampleGraphics [] sampleHatch
    [0x80, 0x40, 0x20, 0x10, 0x08, 0x04, 0x02, 0x01] rfl (by decide) 1 6 (by decide) (by decide)

/-- The diagonal pattern in both routes: visual pixel (1, 6), on pattern row 1, has
the foreground colour, visual pixel (1, 1), on pattern row 6, the background
colour. -/
theorem hatch_routes_diagonal_evaluated :
    (brush_fill_pixels diagonalExt sampleGraphics (.Hatch sampleHatch) (List.replicate 64 0)
      ⟨0, 0, 8, 8⟩ 8).2.getD (1 + 6 * 8) 0 = sampleHatch.forecol ∧
    bottom_up_pixel (create_hatch_bitmap diagonalExt [] sampleHatch).2.1 8 8 1 6
      = sampleHatch.forecol ∧
    (brush_fill_pixels diagonalExt sampleGraphics (.Hatch sampleHatch) (List.replicate 64 0)
      ⟨0, 0, 8, 8⟩ 8).2.getD (1 + 1 * 8) 0 = sampleHatch.backcol ∧
    bottom_up_pixel (create_hatch_bitmap diagonalExt [] sampleHatch).2.1 8 8 1 1
      = sampleHatch.backcol := by
  decide

/-! ### Colour adjustment -/

/-- One step of `adjust_pixels` with a function `f` that is idempotent and fixes 0,
on a buffer every entry of which is the original entry or `f` of it: the buffer
stays such, the entry at the index becomes `f` of the original one, and entries
that were `f` of the original stay so. -/
theorem adjust_step (data b1 : List ARGB) (f : ARGB → ARGB) (k : Int)
    (hf : ∀ p, f (f p) = f p) (h0 : f 0 = 0) (hk : 0 ≤ k)
    (hlen : b1.length = data.length)
    (hinv : ∀ i, b1.getD i 0 = data.getD i 0 ∨ b1.getD i 0 = f (data.getD i 0)) :
    (store_pixel b1 k (f (b1.getD k.toNat 0))).length = data.length ∧
    (store_pixel b1 k (f (b1.getD k.toNat 0))).getD k.toNat 0 = f (data.getD k.toNat 0) ∧
    (∀ i, (store_pixel b1 k (f (b1.getD k.toNat 0))).getD i 0 = data.getD i 0 ∨
      (store_pixel b1 k (f (b1.getD k.toNat 0))).getD i 0 = f (data.getD i 0)) ∧
    (∀ j, b1.getD j 0 = f (data.getD j 0) →
      (store_pixel b1 k (f (b1.getD k.toNat 0))).getD j 0 = f (data.getD j 0)) := by
  have hval : f (b1.getD k.toNat 0) = f (data.getD k.toNat 0) := by
    rcases hinv k.toNat with h | h
    · rw [h]
    · rw [h, hf]
  have hat : (store_pixel b1 k (f (b1.getD k.toNat 0))).getD k.toNat 0
      = f (data.getD k.toNat 0) := by
    by_cases hl : k.toNat < b1.length
    · rw [store_pixel_same b1 k _ hk hl, hval]
    · have hn : ¬ k < 0 := by omega
      have hd : data.getD k.toNat 0 = 0 := by
        simp [List.getD_eq_getElem?_getD, List.getElem?_eq_none, ← hlen, not_lt.mp hl]
      simp only [store_pixel, if_neg hn, hd, h0]
      simp [List.getD_eq_getElem?_getD, List.getElem?_eq_none, not_lt.mp hl]
  refine ⟨by rw [store_pixel_length, hlen], hat, ?_, ?_⟩
  · intro i
    by_cases hi : k.toNat = i
    · right
      rw [← hi]
      exact hat
    · rw [store_pixel_other b1 k _ i hi]
      exact hinv i
  · intro j hj
    by_cases hi : k.toNat = j
    · rw [← hi]
      exact hat
    · rw [store_pixel_other b1 k _ j hi]
      exact hj

/-- The loops of `adjust_pixels` with a function `f` that is idempotent and fixes 0,
for a stride that is not negative: the length is kept, every entry is the original
entry or `f` of it, and the entry of every pixel `(x, y)` of the buffer is `f` of
the original one. -/
theorem adjust_pixels_get (data : List ARGB) (width height : Nat) (stride : Int)
    (f : ARGB → ARGB) (hf : ∀ p, f (f p) = f p) (h0 : f 0 = 0) (hstride : 0 ≤ stride) :
    (adjust_pixels data width height stride f).length = data.length ∧
    (∀ i, (adjust_pixels data width height stride f).getD i 0 = data.getD i 0 ∨
      (adjust_pixels data width height stride f).getD i 0 = f (data.getD i 0)) ∧
    (∀ x y, x < width → y < height →
      (adjust_pixels data width height stride f).getD
          ((stride * (y : Int) + 4 * (x : Int)) / 4).toNat 0
        = f (data.getD ((stride * (y : Int) + 4 * (x : Int)) / 4).toNat 0)) := by
  have hk : ∀ x y : Nat, 0 ≤ (stride * (y : Int) + 4 * (x : Int)) / 4 := by
    intro x y
    apply Int.ediv_nonneg _ (by norm_num)
    positivity
  have hinnerI : ∀ (x : Nat) (b0 : List ARGB),
      (b0.length = data.length ∧
        ∀ i, b0.getD i 0 = data.getD i 0 ∨ b0.getD i 0 = f (data.getD i 0)) →
      (fun b1 : List ARGB => b1.length = data.length ∧
        ∀ i, b1.getD i 0 = data.getD i 0 ∨ b1.getD i 0 = f (data.getD i 0))
        ((List.range height).foldl
          (fun buf (y : Nat) =>
            store_pixel buf ((stride * (y : Int) + 4 * (x : Int)) / 4)
              (f (buf.getD ((stride * (y : Int) + 4 * (x : Int)) / 4).toNat 0))) b0) := by
    intro x b0 hI
    exact (foldl_keep
      (fun buf (y : Nat) =>
        store_pixel buf ((stride * (y : Int) + 4 * (x : Int)) / 4)
          (f (buf.getD ((stride * (y : Int) + 4 * (x : Int)) / 4).toNat 0)))
      (fun _ => True)
      (fun b1 : List ARGB => b1.length = data.length ∧
        ∀ i, b1.getD i 0 = data.getD i 0 ∨ b1.getD i 0 = f (data.getD i 0))
      (fun _ => True)
      (fun b1 y _ hb =>
        ⟨(adjust_step data b1 f _ hf h0 (hk x y) hb.1 hb.2).1,
         (adjust_step data b1 f _ hf h0 (hk x y) hb.1 hb.2).2.2.1⟩)
      (fun _ _ _ _ _ => trivial)
      (List.range height) b0 (fun _ _ => trivial) hI trivial).1
  have hkey := foldl_establish
    (fun buf (x : Nat) =>
      (List.range height).foldl
        (fun buf (y : Nat) =>
          store_pixel buf ((stride * (y : Int) + 4 * (x : Int)) / 4)
            (f (buf.getD ((stride * (y : Int) + 4 * (x : Int)) / 4).toNat 0)))
        buf)
    (fun _ => True)
    (fun b0 : List ARGB => b0.length = data.length ∧
      ∀ i, b0.getD i 0 = data.getD i 0 ∨ b0.getD i 0 = f (data.getD i 0))
    (fun x b0 => ∀ y, y < height →
      b0.getD ((stride * (y : Int) + 4 * (x : Int)) / 4).toNat 0
        = f (data.getD ((stride * (y : Int) + 4 * (x : Int)) / 4).toNat 0))
    (fun b0 x _ hI => hinnerI x b0 hI)
    (fun b0 x _ hI => by
      intro y hy
      have hin := foldl_establish
        (fun buf (y : Nat) =>
          store_pixel buf ((stride * (y : Int) + 4 * (x : Int)) / 4)
            (f (buf.getD ((stride * (y : Int) + 4 * (x : Int)) / 4).toNat 0)))
        (fun _ => True)
        (fun b1 : List ARGB => b1.length = data.length ∧
          ∀ i, b1.getD i 0 = data.getD i 0 ∨ b1.getD i 0 = f (data.getD i 0))
        (fun y b1 => b1.getD ((stride * (y : Int) + 4 * (x : Int)) / 4).toNat 0
          = f (data.getD ((stride * (y : Int) + 4 * (x : Int)) / 4).toNat 0))
        (fun b1 y _ hb =>
          ⟨(adjust_step data b1 f _ hf h0 (hk x y) hb.1 hb.2).1,
           (adjust_step data b1 f _ hf h0 (hk x y) hb.1 hb.2).2.2.1⟩)
        (fun b1 y _ hb => (adjust_step data b1 f _ hf h0 (hk x y) hb.1 hb.2).2.1)
        (fun b1 y y' _ hb hq =>
          (adjust_step data b1 f _ hf h0 (hk x y) hb.1 hb.2).2.2.2 _ hq)
        (List.range height) b0 (fun _ _ => trivial) hI
      exact hin.2 y (List.mem_range.mpr hy))
    (fun b0 x x' _ hI hq => by
      intro y' hy'
      exact (foldl_keep
        (fun buf (y : Nat) =>
          store_pixel buf ((stride * (y : Int) + 4 * (x : Int)) / 4)
            (f (buf.getD ((stride * (y : Int) + 4 * (x : Int)) / 4).toNat 0)))
        (fun _ => True)
        (fun b1 : List ARGB => b1.length = data.length ∧
          ∀ i, b1.getD i 0 = data.getD i 0 ∨ b1.getD i 0 = f (data.getD i 0))
        (fun b1 => b1.getD ((stride * (y' : Int) + 4 * (x' : Int)) / 4).toNat 0
          = f (data.getD ((stride * (y' : Int) + 4 * (x' : Int)) / 4).toNat 0))
        (fun b1 y _ hb =>
          ⟨(adjust_step data b1 f _ hf h0 (hk x y) hb.1 hb.2).1,
           (adjust_step data b1 f _ hf h0 (hk x y) hb.1 hb.2).2.2.1⟩)
        (fun b1 y _ hb hq' =>
          (adjust_step data b1 f _ hf h0 (hk x y) hb.1 hb.2).2.2.2 _ hq')
        (List.range height) b0 (fun _ _ => trivial) hI (hq y' hy')).2)
    (List.range width) data (fun _ _ => trivial) ⟨rfl, fun _ => Or.inl rfl⟩
  refine ⟨hkey.1.1, hkey.1.2, ?_⟩
  intro x y hx hy
  exact hkey.2 x (List.mem_range.mpr hx) y hy

theorem apply_color_key_eq (key : color_key) (p : ARGB) :
    apply_color_key key p = if in_color_key_range key p then 0 else p := by
  have e : ∀ n : Nat, n &&& 0xff = n % 256 := fun n => Nat.and_pow_two_sub_one_eq_mod n 8
  simp only [apply_color_key, in_color_key_range, e, Nat.shiftRight_eq_div_pow,
    Bool.and_eq_true, decide_eq_true_eq]
  apply if_congr _ rfl rfl
  constructor
  · rintro ⟨h1, h2, h3, h4, h5, h6⟩
    exact ⟨⟨⟨h3, h6⟩, h2, h5⟩, h1, h4⟩
  · rintro ⟨⟨⟨h3, h6⟩, h2, h5⟩, h1, h4⟩
    exact ⟨h1, h2, h3, h4, h5, h6⟩

theorem apply_color_key_idempotent (key : color_key) (p : ARGB) :
    apply_color_key key (apply_color_key key p) = apply_color_key key p := by
  rw [apply_color_key_eq key p]
  by_cases h : in_color_key_range key p = true
  · rw [if_pos h, apply_color_key_eq]
    split <;> rfl
  · rw [if_neg h, apply_color_key_eq, if_neg h]

theorem apply_color_key_zero (key : color_key) : apply_color_key key 0 = 0 := by
  rw [apply_color_key_eq]
  split <;> rfl

/-- C23 (colour key only): when the remap table, the colour matrix and gamma are
disabled both for the category `type` and for the default category, and the
stride is not negative, `apply_image_attributes` keeps the length of the buffer;
with `key` the key of the category if that is enabled and the key of the default
category otherwise, an enabled `key` makes every pixel `(x, y)` of the buffer 0
(so its alpha is 0) if its red, green and blue channels lie in the range of
`key`, and leaves it as it was if not; if `key` is not enabled, no stage is
enabled and the buffer is unchanged. -/
theorem color_key_only (libm : Libm) (attributes : GpImageAttributes) (data : List ARGB)
    (width height : Nat) (stride : Int) (type : Int) (hstride : 0 ≤ stride)
    (hremap : (attributes.colorremaptables.getD type.toNat ⟨false, 0, []⟩).enabled = false ∧
      (attributes.colorremaptables.getD ColorAdjustTypeDefault.toNat ⟨false, 0, []⟩).enabled
        = false)
    (hmatrix : (attributes.colormatrices.getD type.toNat ⟨false, 0, [], []⟩).enabled = false ∧
      (attributes.colormatrices.getD ColorAdjustTypeDefault.toNat ⟨false, 0, [], []⟩).enabled
        = false)
    (hgamma : attributes.gamma_enabled.getD type.toNat false = false ∧
      attributes.gamma_enabled.getD ColorAdjustTypeDefault.toNat false = false) :
    (apply_image_attributes libm attributes data width height stride type).length
      = data.length ∧
    ((if (attributes.colorkeys.getD type.toNat ⟨false, 0, 0⟩).enabled
        then attributes.colorkeys.getD type.toNat ⟨false, 0, 0⟩
        else attributes.colorkeys.getD ColorAdjustTypeDefault.toNat ⟨false, 0, 0⟩).enabled
        = true →
      ∀ x y : Nat, x < width → y < height →
        (apply_image_attributes libm attributes data width height stride type).getD
            ((stride * (y : Int) + 4 * (x : Int)) / 4).toNat 0
          = if in_color_key_range
              (if (attributes.colorkeys.getD type.toNat ⟨false, 0, 0⟩).enabled
                then attributes.colorkeys.getD type.toNat ⟨false, 0, 0⟩
                else attributes.colorkeys.getD ColorAdjustTypeDefault.toNat ⟨false, 0, 0⟩)
              (data.getD ((stride * (y : Int) + 4 * (x : Int)) / 4).toNat 0)
            then 0
            else data.getD ((stride * (y : Int) + 4 * (x : Int)) / 4).toNat 0) ∧
    ((if (attributes.colorkeys.getD type.toNat ⟨false, 0, 0⟩).enabled
        then attributes.colorkeys.getD type.toNat ⟨false, 0, 0⟩
        else attributes.colorkeys.getD ColorAdjustTypeDefault.toNat ⟨false, 0, 0⟩).enabled
        = false →
      apply_image_attributes libm attributes data width height stride type = data) := by
  have hrest : apply_image_attributes libm attributes data width height stride type
      = if (attributes.colorkeys.getD type.toNat ⟨false, 0, 0⟩).enabled = true ∨
          (attributes.colorkeys.getD ColorAdjustTypeDefault.toNat ⟨false, 0, 0⟩).enabled = true
        then adjust_pixels data width height stride
          (apply_color_key (if (attributes.colorkeys.getD type.toNat ⟨false, 0, 0⟩).enabled
            then attributes.colorkeys.getD type.toNat ⟨false, 0, 0⟩
            else attributes.colorkeys.getD ColorAdjustTypeDefault.toNat ⟨false, 0, 0⟩))
        else data := by
    simp only [apply_image_attributes, hremap.1, hremap.2, hmatrix.1, hmatrix.2, hgamma.1,
      hgamma.2, Bool.false_eq_true, or_self, if_false]
  rw [hrest]
  have hen : (if (attributes.colorkeys.getD type.toNat ⟨false, 0, 0⟩).enabled
        then attributes.colorkeys.getD type.toNat ⟨false, 0, 0⟩
        else attributes.colorkeys.getD ColorAdjustTypeDefault.toNat ⟨false, 0, 0⟩).enabled
        = true ↔
      ((attributes.colorkeys.getD type.toNat ⟨false, 0, 0⟩).enabled = true ∨
        (attributes.colorkeys.getD ColorAdjustTypeDefault.toNat ⟨false, 0, 0⟩).enabled
          = true) := by
    by_cases h1 : (attributes.colorkeys.getD type.toNat ⟨false, 0, 0⟩).enabled = true
    · rw [if_pos h1]
      exact ⟨fun _ => Or.inl h1, fun _ => h1⟩
    · rw [if_neg h1]
      exact ⟨Or.inr, fun h => h.resolve_left h1⟩
  obtain ⟨key, hkey⟩ : ∃ key, key
      = (if (attributes.colorkeys.getD type.toNat ⟨false, 0, 0⟩).enabled
        then attributes.colorkeys.getD type.toNat ⟨false, 0, 0⟩
        else attributes.colorkeys.getD ColorAdjustTypeDefault.toNat ⟨false, 0, 0⟩) := ⟨_, rfl⟩
  rw [← hkey] at hen ⊢
  by_cases hk : key.enabled = true
  · have hadj := adjust_pixels_get data width height stride (apply_color_key key)
      (apply_color_key_idempotent key) (apply_color_key_zero key) hstride
    rw [if_pos (hen.mp hk)]
    refine ⟨hadj.1, ?_, ?_⟩
    · intro _ x y hx hy
      rw [hadj.2.2 x y hx hy, apply_color_key_eq]
    · intro hc
      rw [hk] at hc
      exact absurd hc (by decide)
  · rw [if_neg (fun h => hk (hen.mpr h))]
    exact ⟨rfl, fun hc => absurd hc hk, fun _ => rfl⟩

theorem color_key_only_witness :
    (apply_image_attributes sampleLibm keyAttributes [0xFF050505, 0xFFFF0000] 2 1 8
      ColorAdjustTypeBitmap).length = ([0xFF050505, 0xFFFF0000] : List ARGB).length :=
  (color_key_only sampleLibm keyAttributes [0xFF050505, 0xFFFF0000] 2 1 8
    ColorAdjustTypeBitmap (by decide) (by decide) (by decide) (by decide)).1

/-- The colour key evaluated: with the default key from black to (16, 16, 16) the
pixel (5, 5, 5) becomes 0 and the red pixel stays. -/
theorem color_key_evaluated :
    apply_image_attributes sampleLibm keyAttributes [0xFF050505, 0xFFFF0000] 2 1 8
      ColorAdjustTypeBitmap = [0, 0xFFFF0000] := by
  decide

/-! ### Contexts reachable from a fresh one -/

/-- What `GdipCreateFromHDC2` puts into a context that it creates. -/
theorem create_from_hdc_fresh (ext : Ext Rgn Dev) (dev : Dev) (hdc : HDC) (hDevice : Nat)
    (graphics : Option (Option (GpGraphics Rgn))) (g0 : GpGraphics Rgn)
    (h : GdipCreateFromHDC2 ext dev hdc hDevice graphics = (Ok, some (some g0))) :
    g0.containers = [] ∧ g0.contid = 0 ∧ g0.interpolation = InterpolationModeBilinear ∧
    g0.busy = false := by
  cases graphics with
  | none =>
    simp only [GdipCreateFromHDC2] at h
    split_ifs at h <;> simp at h
  | some slot =>
    simp only [GdipCreateFromHDC2] at h
    split_ifs at h
    all_goals first
      | (simp at h; done)
      | (simp only [Prod.mk.injEq, Option.some.injEq, true_and] at h
         subst h
         exact ⟨rfl, rfl, rfl, rfl⟩)

theorem fresh_graphics_created :
    GdipCreateFromHDC2 sampleExt [] 5 0 (some none) = (Ok, some (some freshGraphics)) := by
  rfl

theorem ids_down_split (n : Nat) :
    ∀ (l1 l2 : List Nat) (k : Nat), ids_down n = l1 ++ k :: l2 →
      1 ≤ k ∧ k ≤ n ∧ l2 = ids_down (k - 1) := by
  induction n with
  | zero =>
    intro l1 l2 k h
    simp [ids_down] at h
  | succ n ih =>
    intro l1 l2 k h
    cases l1 with
    | nil =>
      simp only [ids_down, List.nil_append, List.cons.injEq] at h
      obtain ⟨hk, hl⟩ := h
      subst hk
      exact ⟨by omega, le_refl _, by simpa using hl.symm⟩
    | cons a rest =>
      simp only [ids_down, List.cons_append, List.cons.injEq] at h
      obtain ⟨h1, h2, h3⟩ := ih rest l2 k h.2
      exact ⟨h1, by omega, h3⟩

theorem ids_down_mem (n k : Nat) (h : k ∈ ids_down n) : 1 ≤ k ∧ k ≤ n := by
  obtain ⟨l1, l2, hl⟩ := List.append_of_mem h
  obtain ⟨h1, h2, _⟩ := ids_down_split n l1 l2 k hl
  exact ⟨h1, h2⟩

theorem ids_down_nodup (n : Nat) : (ids_down n).Nodup := by
  induction n with
  | zero => simp [ids_down]
  | succ n ih =>
    simp only [ids_down, List.nodup_cons]
    refine ⟨?_, ih⟩
    intro hmem
    have := (ids_down_mem n (n + 1) hmem).2
    omega

/-- `GdipBeginContainer2` keeps the stack ids consecutive. -/
theorem begin_container_consecutive (ext : Ext Rgn Dev) (g : GpGraphics Rgn) (s0 : Nat)
    (hinv : g.containers.map (fun c => c.contid) = ids_down g.contid)
    (hlt : g.contid + 1 < UINT_MODULUS) :
    ∃ g', (GdipBeginContainer2 ext (some g) (some s0)).2.1 = some g' ∧
      g'.containers.map (fun c => c.contid) = ids_down g'.contid ∧
      g'.contid ≤ g.contid + 1 := by
  rcases begin_container_cases ext g s0 with ⟨sts, _, h⟩ | ⟨c, hc, h⟩
  · rw [h]
    exact ⟨g, rfl, hinv, by omega⟩
  · rw [h]
    have hc' : c.contid = g.contid + 1 := by
      rw [hc]
      exact Nat.mod_eq_of_lt hlt
    refine ⟨_, rfl, ?_, ?_⟩
    · simp only [List.map_cons, hinv, hc', ids_down]
    · simp only [hc']
      exact le_refl _

/-- `GdipEndContainer` keeps the stack ids consecutive. -/
theorem end_container_consecutive (ext : Ext Rgn Dev) (g : GpGraphics Rgn) (state : Nat)
    (hinv : g.containers.map (fun c => c.contid) = ids_down g.contid)
    (hlt : g.contid < UINT_MODULUS) :
    ∃ g', (GdipEndContainer ext (some g) state).2 = some g' ∧
      g'.containers.map (fun c => c.contid) = ids_down g'.contid ∧
      g'.contid ≤ g.contid := by
  rcases end_container_cases ext g state with ⟨sts, h⟩ | ⟨c, newer, older, g', hl, _, h, hcont, hid⟩
  · rw [h]
    exact ⟨g, rfl, hinv, le_refl _⟩
  · rw [h]
    have hsplit : ids_down g.contid
        = newer.map (fun c => c.contid) ++ c.contid :: older.map (fun c => c.contid) := by
      rw [← hinv, hl]
      simp
    obtain ⟨h1, h2, h3⟩ := ids_down_split g.contid _ _ _ hsplit
    have hid' : g'.contid = c.contid - 1 := by
      rw [hid]
      simp only [UINT_MODULUS] at hlt ⊢
      omega
    refine ⟨g', rfl, ?_, ?_⟩
    · rw [hcont, hid', h3]
    · omega

/-- Container calls and setters keep the stack ids consecutive, as long as the
id counter does not reach 2^32. -/
theorem call_graphics_consecutive (ext : Ext Rgn Dev) (calls : List (GraphicsCall Rgn)) :
    ∀ (g : GpGraphics Rgn),
      g.containers.map (fun c => c.contid) = ids_down g.contid →
      g.contid + calls.length < UINT_MODULUS →
      ∃ g', call_graphics ext (some g) calls = some g' ∧
        g'.containers.map (fun c => c.contid) = ids_down g'.contid ∧
        g'.contid ≤ g.contid + calls.length := by
  induction calls with
  | nil =>
    intro g hinv _
    exact ⟨g, rfl, hinv, by simp⟩
  | cons call rest ih =>
    intro g hinv hlt
    simp only [List.length_cons] at hlt
    cases call with
    | container c =>
      cases c with
      | Begin =>
        obtain ⟨g1, hg1, hinv1, hle1⟩ := begin_container_consecutive ext g 0 hinv (by omega)
        obtain ⟨g', hg', hinv', hle'⟩ := ih g1 hinv1 (by omega)
        refine ⟨g', ?_, hinv', ?_⟩
        · simp only [call_graphics, call_container, hg1, hg']
        · simp only [List.length_cons]
          omega
      | End state =>
        obtain ⟨g1, hg1, hinv1, hle1⟩ := end_container_consecutive ext g state hinv (by omega)
        obtain ⟨g', hg', hinv', hle'⟩ := ih g1 hinv1 (by omega)
        refine ⟨g', ?_, hinv', ?_⟩
        · simp only [call_graphics, call_container, hg1, hg']
        · simp only [List.length_cons]
          omega
    | setter s =>
      obtain ⟨g1, hg1, hsame⟩ := call_setter_frame ext g s
      have hc1 : g1.containers = g.containers := hsame.2.2.2.2.2.2.2.1
      have hi1 : g1.contid = g.contid := hsame.2.2.2.2.2.2.2.2.1
      obtain ⟨g', hg', hinv', hle'⟩ := ih g1 (by rw [hc1, hi1]; exact hinv) (by omega)
      refine ⟨g', ?_, hinv', ?_⟩
      · simp only [call_graphics, hg1, hg']
      · simp only [List.length_cons]
        omega

/-- C27 (container stack ids): in every state reached from a context that
`GdipCreateFromHDC2` has created by fewer than 2^32 `GdipBeginContainer2`,
`GdipEndContainer` and setter calls, the container stack read from newest to
oldest holds exactly the ids `contid, contid - 1, ..., 1`; the ids are distinct,
0 is not among them, and `GdipEndContainer` with the id 0 returns Ok and leaves
the context as it is. -/
theorem container_ids_consecutive (ext : Ext Rgn Dev) (dev : Dev) (hdc : HDC) (hDevice : Nat)
    (graphics : Option (Option (GpGraphics Rgn))) (g0 : GpGraphics Rgn)
    (hcreate : GdipCreateFromHDC2 ext dev hdc hDevice graphics = (Ok, some (some g0)))
    (calls : List (GraphicsCall Rgn)) (hlen : calls.length < UINT_MODULUS) :
    ∃ g, call_graphics ext (some g0) calls = some g ∧
      g.containers.map (fun c => c.contid) = ids_down g.contid ∧
      (g.containers.map (fun c => c.contid)).Nodup ∧
      (∀ c ∈ g.containers, c.contid ≠ 0) ∧
      GdipEndContainer ext (some g) 0 = (Ok, some g) := by
  obtain ⟨hstack, hcontid, _, _⟩ := create_from_hdc_fresh ext dev hdc hDevice graphics g0 hcreate
  obtain ⟨g, hg, hinv, _⟩ := call_graphics_consecutive ext calls g0
    (by rw [hstack, hcontid]; rfl) (by rw [hcontid]; omega)
  have hne : ∀ c ∈ g.containers, c.contid ≠ 0 := by
    intro c hc
    have hmem : c.contid ∈ ids_down g.contid := by
      rw [← hinv]
      exact List.mem_map_of_mem _ hc
    have := (ids_down_mem _ _ hmem).1
    omega
  refine ⟨g, hg, hinv, ?_, hne, ?_⟩
  · rw [hinv]
    exact ids_down_nodup _
  · simp only [GdipEndContainer, find_container_none 0 g.containers hne]

theorem container_ids_consecutive_witness :
    ∃ g, call_graphics sampleExt (some freshGraphics)
        [.container .Begin, .setter (.SetInterpolationMode 5), .container .Begin,
          .container .Begin, .container (.End 2)] = some g ∧
      g.containers.map (fun c => c.contid) = ids_down g.contid ∧
      GdipEndContainer sampleExt (some g) 0 = (Ok, some g) :=
  let ⟨g, h1, h2, _, _, h5⟩ := container_ids_consecutive sampleExt [] 5 0 (some none)
    freshGraphics fresh_graphics_created
    [.container .Begin, .setter (.SetInterpolationMode 5), .container .Begin,
      .container .Begin, .container (.End 2)] (by decide)
  ⟨g, h1, h2, h5⟩

/-- The container calls evaluated: after Begin, Begin, Begin, End 2 the stack
holds the id 1 only and the id counter is 1. -/
theorem container_ids_evaluated :
    ((call_graphics sampleExt (some freshGraphics)
        [.container .Begin, .setter (.SetInterpolationMode 5), .container .Begin,
          .container .Begin, .container (.End 2)]).map
      (fun g => (g.containers.map (fun c => c.contid), g.contid, g.interpolation)))
      = some ([1], 1, InterpolationModeNearestNeighbor) := by
  decide

/-! ### The stored interpolation mode -/

theorem init_container_interpolation (ext : Ext Rgn Dev) (g : GpGraphics Rgn) (sts : GpStatus)
    (c : GraphicsContainerItem Rgn) (h : init_container ext g = (sts, some c)) :
    c.interpolation = g.interpolation := by
  simp only [init_container] at h
  split_ifs at h
  all_goals first
    | (simp at h; done)
    | (simp only [Prod.mk.injEq, Option.some.injEq] at h
       rw [← h.2])

/-- `GdipBeginContainer2` keeps the busy flag and the interpolation mode, and the
snapshot it pushes holds the interpolation mode of the context. -/
theorem begin_container_modes (ext : Ext Rgn Dev) (g : GpGraphics Rgn) (s0 : Nat) :
    ∃ g', (GdipBeginContainer2 ext (some g) (some s0)).2.1 = some g' ∧
      g'.busy = g.busy ∧ g'.interpolation = g.interpolation ∧
      ∀ c ∈ g'.containers, c ∈ g.containers ∨ c.interpolation = g.interpolation := by
  simp only [GdipBeginContainer2]
  split
  next container hinit =>
    refine ⟨_, rfl, rfl, rfl, ?_⟩
    intro c hc
    rcases List.mem_cons.mp hc with rfl | hc'
    · exact Or.inr (init_container_interpolation ext g Ok c hinit)
    · exact Or.inl hc'
  next sts o hne hinit =>
    exact ⟨g, rfl, rfl, rfl, fun c hc => Or.inl hc⟩

/-- `GdipEndContainer` keeps the busy flag; the interpolation mode afterwards is
the one before or that of a snapshot on the stack, and the stack afterwards is
part of the stack before. -/
theorem end_container_modes (ext : Ext Rgn Dev) (g : GpGraphics Rgn) (state : Nat) :
    ∃ g', (GdipEndContainer ext (some g) state).2 = some g' ∧
      g'.busy = g.busy ∧
      (g'.interpolation = g.interpolation ∨
        ∃ c ∈ g.containers, g'.interpolation = c.interpolation) ∧
      ∀ c ∈ g'.containers, c ∈ g.containers := by
  simp only [GdipEndContainer]
  split
  next hfind => exact ⟨g, rfl, rfl, Or.inl rfl, fun c hc => hc⟩
  next c hfind =>
    obtain ⟨newer, older, hl, hn, hc⟩ := find_container_split state g.containers c hfind
    have hmem : c ∈ g.containers := by
      rw [hl]
      simp
    simp only [restore_container]
    split_ifs with h1 h2 h3
    all_goals first
      | exact ⟨g, rfl, rfl, Or.inl rfl, fun c hc => hc⟩
      | (exfalso; simp_all; done)
      | skip
    refine ⟨_, rfl, rfl, Or.inr ⟨c, hmem, rfl⟩, ?_⟩
    intro d hd
    simp only [hl] at hd
    rw [← hc, remove_containers_on_top_append c newer older hn] at hd
    rw [hl]
    simp only [List.drop_succ_cons, List.drop_zero] at hd
    simp [hd]

/-- What `GdipSetInterpolationMode` does: Invalid and values above
HighQualityBicubic are refused, a busy context is refused, and otherwise the
normalized mode is stored and nothing else changes. -/
theorem set_interpolation_mode_cases (g : GpGraphics Rgn) (mode : Int) :
    ((mode = InterpolationModeInvalid ∨ mode > InterpolationModeHighQualityBicubic) →
      GdipSetInterpolationMode (some g) mode = (InvalidParameter, some g)) ∧
    (¬ (mode = InterpolationModeInvalid ∨ mode > InterpolationModeHighQualityBicubic) →
      g.busy = true → GdipSetInterpolationMode (some g) mode = (ObjectBusy, some g)) ∧
    (¬ (mode = InterpolationModeInvalid ∨ mode > InterpolationModeHighQualityBicubic) →
      g.busy = false →
      GdipSetInterpolationMode (some g) mode
        = (Ok, some { g with interpolation :=
            if mode = InterpolationModeDefault ∨ mode = InterpolationModeLowQuality then
              InterpolationModeBilinear
            else if mode = InterpolationModeHighQuality then
              InterpolationModeHighQualityBicubic
            else mode })) := by
  refine ⟨?_, ?_, ?_⟩
  · intro h
    simp only [GdipSetInterpolationMode, if_pos h]
  · intro h hb
    simp only [GdipSetInterpolationMode, if_neg h, hb, if_true]
  · intro h hb
    simp only [GdipSetInterpolationMode, if_neg h, hb, Bool.false_eq_true, if_false]
    by_cases h1 : mode = InterpolationModeDefault ∨ mode = InterpolationModeLowQuality
    · have h2 : InterpolationModeBilinear ≠ InterpolationModeHighQuality := by decide
      simp only [if_pos h1, if_neg h2]
    · simp only [if_neg h1]

/-- The mode that `GdipSetInterpolationMode` stores is none of Invalid, Default,
LowQuality and HighQuality. -/
theorem normalized_mode_stored (mode : Int)
    (h : ¬ (mode = InterpolationModeInvalid ∨ mode > InterpolationModeHighQualityBicubic)) :
    StoredInterpolationMode
      (if mode = InterpolationModeDefault ∨ mode = InterpolationModeLowQuality then
        InterpolationModeBilinear
      else if mode = InterpolationModeHighQuality then InterpolationModeHighQualityBicubic
      else mode) := by
  simp only [StoredInterpolationMode, InterpolationModeInvalid, InterpolationModeDefault,
    InterpolationModeLowQuality, InterpolationModeHighQuality, InterpolationModeBilinear,
    InterpolationModeHighQualityBicubic] at h ⊢
  split_ifs <;> omega

/-- A setter keeps the busy flag and the container stack, and leaves a stored
interpolation mode a stored one. -/
theorem call_setter_modes (ext : Ext Rgn Dev) (g : GpGraphics Rgn) (s : StateSetter Rgn) :
    ∃ g', (call_setter ext (some g) s).2 = some g' ∧ g'.busy = g.busy ∧
      g'.containers = g.containers ∧
      (StoredInterpolationMode g.interpolation → StoredInterpolationMode g'.interpolation) := by
  obtain ⟨g', hg', hsame⟩ := call_setter_frame ext g s
  refine ⟨g', hg', hsame.2.2.2.2.2.2.1, hsame.2.2.2.2.2.2.2.1, ?_⟩
  intro hst
  have hcases : g'.interpolation = g.interpolation ∨
      ∃ mode, ¬ (mode = InterpolationModeInvalid ∨ mode > InterpolationModeHighQualityBicubic) ∧
        g'.interpolation
          = (if mode = InterpolationModeDefault ∨ mode = InterpolationModeLowQuality then
              InterpolationModeBilinear
            else if mode = InterpolationModeHighQuality then
              InterpolationModeHighQualityBicubic
            else mode) := by
    cases s
    case SetInterpolationMode mode =>
      simp only [call_setter] at hg'
      by_cases h : mode = InterpolationModeInvalid ∨ mode > InterpolationModeHighQualityBicubic
      · rw [(set_interpolation_mode_cases g mode).1 h] at hg'
        simp only [Option.some.injEq] at hg'
        rw [← hg']
        exact Or.inl rfl
      · by_cases hb : g.busy = true
        · rw [(set_interpolation_mode_cases g mode).2.1 h hb] at hg'
          simp only [Option.some.injEq] at hg'
          rw [← hg']
          exact Or.inl rfl
        · have hb' : g.busy = false := by simpa using hb
          rw [(set_interpolation_mode_cases g mode).2.2 h hb'] at hg'
          simp only [Option.some.injEq] at hg'
          rw [← hg']
          exact Or.inr ⟨mode, h, rfl⟩
    all_goals
      left
      simp only [call_setter, GdipResetWorldTransform, GdipRotateWorldTransform,
        GdipScaleWorldTransform, GdipTranslateWorldTransform, GdipMultiplyWorldTransform,
        GdipSetWorldTransform, GdipResetClip, GdipSetClipGraphics, GdipSetClipRegion,
        GdipSetClipHrgn, GdipSetClipPath, GdipSetClipRect, GdipSetClipRectI, GdipTranslateClip,
        GdipTranslateClipI, GdipSetPageUnit, GdipSetPageScale, GdipSetSmoothingMode,
        GdipSetCompositingMode, GdipSetCompositingQuality,
        GdipSetTextRenderingHint, GdipSetTextContrast, GdipSetPixelOffsetMode,
        GdipSetRenderingOrigin] at hg'
      (repeat' split at hg') <;>
        first
          | (simp only [Option.some.injEq] at hg'
             rw [← hg']
             done)
          | (simp only [Option.some.injEq] at *
             subst_vars
             rfl)
  rcases hcases with h | ⟨mode, hm, h⟩
  · rw [h]
    exact hst
  · rw [h]
    exact normalized_mode_stored mode hm

/-- Container calls and setters keep a context not busy and keep the interpolation
mode of the context and of every snapshot on the stack a stored one. -/
theorem call_graphics_modes (ext : Ext Rgn Dev) (calls : List (GraphicsCall Rgn)) :
    ∀ (g : GpGraphics Rgn), g.busy = false → StoredInterpolationMode g.interpolation →
      (∀ c ∈ g.containers, StoredInterpolationMode c.interpolation) →
      ∃ g', call_graphics ext (some g) calls = some g' ∧ g'.busy = false ∧
        StoredInterpolationMode g'.interpolation ∧
        ∀ c ∈ g'.containers, StoredInterpolationMode c.interpolation := by
  induction calls with
  | nil =>
    intro g hb hi hc
    exact ⟨g, rfl, hb, hi, hc⟩
  | cons call rest ih =>
    intro g hb hi hc
    cases call with
    | container c =>
      cases c with
      | Begin =>
        obtain ⟨g1, hg1, hb1, hi1, hc1⟩ := begin_container_modes ext g 0
        obtain ⟨g', hg', hres⟩ := ih g1 (by rw [hb1, hb]) (by rw [hi1]; exact hi)
          (fun c hcm => by
            rcases hc1 c hcm with h | h
            · exact hc c h
            · rw [h]
              exact hi)
        exact ⟨g', by simp only [call_graphics, call_container, hg1, hg'], hres⟩
      | End state =>
        obtain ⟨g1, hg1, hb1, hi1, hc1⟩ := end_container_modes ext g state
        obtain ⟨g', hg', hres⟩ := ih g1 (by rw [hb1, hb])
          (by
            rcases hi1 with h | ⟨c, hcm, h⟩
            · rw [h]
              exact hi
            · rw [h]
              exact hc c hcm)
          (fun c hcm => hc c (hc1 c hcm))
        exact ⟨g', by simp only [call_graphics, call_container, hg1, hg'], hres⟩
    | setter s =>
      obtain ⟨g1, hg1, hb1, hc1, hi1⟩ := call_setter_modes ext g s
      obtain ⟨g', hg', hres⟩ := ih g1 (by rw [hb1, hb]) (hi1 hi)
        (fun c hcm => hc c (by rw [← hc1]; exact hcm))
      exact ⟨g', by simp only [call_graphics, hg1, hg'], hres⟩

/-- C28 (stored interpolation mode): in every state reached from a context that
`GdipCreateFromHDC2` has created by `GdipSetInterpolationMode` and the other
setters, `GdipBeginContainer2` and `GdipEndContainer`, the interpolation mode of
the context, and of every snapshot on its stack, is none of Invalid, Default,
LowQuality and HighQuality.  In such a state `GdipSetInterpolationMode` refuses
Invalid and every value above HighQualityBicubic with `InvalidParameter`,
leaving the context as it is; for every other mode it returns Ok and stores
Bilinear for Default and LowQuality, HighQualityBicubic for HighQuality, and
the mode itself otherwise, and `GdipGetInterpolationMode` then returns Ok with
the stored mode. -/
theorem interpolation_mode_normalized (ext : Ext Rgn Dev) (dev : Dev) (hdc : HDC)
    (hDevice : Nat) (graphics : Option (Option (GpGraphics Rgn))) (g0 : GpGraphics Rgn)
    (hcreate : GdipCreateFromHDC2 ext dev hdc hDevice graphics = (Ok, some (some g0)))
    (calls : List (GraphicsCall Rgn)) :
    ∃ g, call_graphics ext (some g0) calls = some g ∧
      StoredInterpolationMode g.interpolation ∧
      (∀ c ∈ g.containers, StoredInterpolationMode c.interpolation) ∧
      ∀ mode : Int,
        ((mode = InterpolationModeInvalid ∨ mode > InterpolationModeHighQualityBicubic) →
          GdipSetInterpolationMode (some g) mode = (InvalidParameter, some g)) ∧
        (¬ (mode = InterpolationModeInvalid ∨ mode > InterpolationModeHighQualityBicubic) →
          ∃ g', GdipSetInterpolationMode (some g) mode = (Ok, some g') ∧
            g'.interpolation
              = (if mode = InterpolationModeDefault ∨ mode = InterpolationModeLowQuality then
                  InterpolationModeBilinear
                else if mode = InterpolationModeHighQuality then
                  InterpolationModeHighQualityBicubic
                else mode) ∧
            StoredInterpolationMode g'.interpolation ∧
            ∀ m0 : Int, GdipGetInterpolationMode (some g') (some m0)
              = (Ok, some g'.interpolation)) := by
  obtain ⟨hstack, _, hinterp, hbusy⟩ :=
    create_from_hdc_fresh ext dev hdc hDevice graphics g0 hcreate
  obtain ⟨g, hg, hb, hi, hc⟩ := call_graphics_modes ext calls g0 hbusy
    (by rw [hinterp]; exact ⟨by decide, by decide, by decide, by decide⟩)
    (by rw [hstack]; simp)
  refine ⟨g, hg, hi, hc, ?_⟩
  intro mode
  refine ⟨(set_interpolation_mode_cases g mode).1, ?_⟩
  intro hm
  refine ⟨_, (set_interpolation_mode_cases g mode).2.2 hm hb, rfl,
    normalized_mode_stored mode hm, ?_⟩
  intro m0
  simp only [GdipGetInterpolationMode, hb, Bool.false_eq_true, if_false]

theorem interpolation_mode_normalized_witness :
    ∃ g, call_graphics sampleExt (some freshGraphics)
        [.setter (.SetInterpolationMode InterpolationModeHighQuality), .container .Begin,
          .setter (.SetInterpolationMode InterpolationModeLowQuality),
          .container (.End 1)] = some g ∧
      StoredInterpolationMode g.interpolation :=
  let ⟨g, h1, h2, _⟩ := interpolation_mode_normalized sampleExt [] 5 0 (some none)
    freshGraphics fresh_graphics_created
    [.setter (.SetInterpolationMode InterpolationModeHighQuality), .container .Begin,
      .setter (.SetInterpolationMode InterpolationModeLowQuality), .container (.End 1)]
  ⟨g, h1, h2⟩

/-- The calls evaluated: HighQuality is stored as HighQualityBicubic, LowQuality
as Bilinear, and ending the container brings HighQualityBicubic back. -/
theorem interpolation_mode_evaluated :
    ((call_graphics sampleExt (some freshGraphics)
        [.setter (.SetInterpolationMode InterpolationModeHighQuality), .container .Begin,
          .setter (.SetInterpolationMode InterpolationModeLowQuality)]).map
      (fun g => g.interpolation)) = some InterpolationModeBilinear ∧
    ((call_graphics sampleExt (some freshGraphics)
        [.setter (.SetInterpolationMode InterpolationModeHighQuality), .container .Begin,
          .setter (.SetInterpolationMode InterpolationModeLowQuality),
          .container (.End 1)]).map
      (fun g => g.interpolation)) = some InterpolationModeHighQualityBicubic := by
  decide

/-! ### The sample window and the coordinates that are read -/

theorem int_to_uint_nonneg (x : Int) (h0 : 0 ≤ x) (h1 : x < 2 ^ 32) :
    int_to_uint x = x.toNat := by
  simp only [int_to_uint, UINT_MODULUS]
  congr 1
  exact Int.emod_eq_of_lt h0 (by norm_num; omega)

theorem uint_to_int_small (n : Nat) (h : n < 2 ^ 31) : uint_to_int n = (n : Int) := by
  have h1 : n % UINT_MODULUS = n := by
    simp only [UINT_MODULUS]
    omega
  simp only [uint_to_int, h1, if_pos h]

/-- The tiling step gives a coordinate inside `0 .. size - 1`, for every coordinate
and every size from 1 to 2^31 - 1. -/
theorem tile_coordinate_range (size : Nat) (flip : Bool) (x : Int) (hs1 : 1 ≤ size)
    (hs2 : size < 2 ^ 31) :
    0 ≤ tile_coordinate size flip x ∧ tile_coordinate size flip x < size := by
  -- the coordinate after the step for negative values, as a UINT
  obtain ⟨n, hxn⟩ : ∃ n : Nat, int_to_uint (if x < 0 then
        uint_to_int ((size * 2 % UINT_MODULUS + int_to_uint x % (size * 2 % UINT_MODULUS))
          % UINT_MODULUS)
      else x) = n := ⟨_, rfl⟩
  have hm : n % size < size := Nat.mod_lt _ (by omega)
  simp only [tile_coordinate, hxn]
  by_cases hflip : flip = true
  · simp only [hflip, if_true]
    by_cases hq : n / size % 2 = 0
    · rw [if_pos hq, uint_to_int_small _ (by omega)]
      omega
    · rw [if_neg hq]
      have hval : (size + UINT_MODULUS - 1 + UINT_MODULUS - n % size) % UINT_MODULUS
          = size - 1 - n % size := by
        simp only [UINT_MODULUS]
        omega
      rw [hval, uint_to_int_small _ (by omega)]
      omega
  · simp only [hflip, if_false, Bool.false_eq_true]
    rw [uint_to_int_small _ (by omega)]
    omega

/-- The tiling step leaves a coordinate inside `0 .. size - 1` as it is. -/
theorem tile_coordinate_inside (size : Nat) (flip : Bool) (x : Int) (hs2 : size < 2 ^ 31)
    (hx1 : 0 ≤ x) (hx2 : x < size) : tile_coordinate size flip x = x := by
  have hneg : ¬ x < 0 := by omega
  obtain ⟨n, rfl⟩ := Int.eq_ofNat_of_zero_le hx1
  have hn : n < size := by exact_mod_cast hx2
  have hu : int_to_uint (n : Int) = n := by
    rw [int_to_uint_nonneg _ (by omega) (by omega)]
    simp
  have hmod : n % size = n := Nat.mod_eq_of_lt hn
  have hdiv : n / size = 0 := Nat.div_eq_of_lt hn
  simp only [tile_coordinate, if_neg hneg, hu, hmod, hdiv, Nat.zero_mod, if_true]
  rw [uint_to_int_small _ (by omega)]
  simp

/-- The ceiling of Batteries is the ceiling of the floor ring. -/
theorem rat_ceil_eq (q : REAL) : Rat.ceil q = ⌈q⌉ := by
  symm
  rw [Int.ceil_eq_iff]
  unfold Rat.ceil
  by_cases h : q.den = 1
  · rw [if_pos h]
    have hq : ((q.num : Int) : ℚ) = q := (Rat.den_eq_one_iff q).mp h
    rw [hq]
    constructor
    · linarith
    · exact le_refl _
  · rw [if_neg h]
    have hf : q.num / (q.den : Int) = ⌊q⌋ := Rat.floor_def.symm
    rw [hf]
    constructor
    · push_cast
      have h1 : (⌊q⌋ : ℚ) ≤ q := Int.floor_le q
      have h2 : (⌊q⌋ : ℚ) ≠ q := by
        intro he
        apply h
        rw [← he]
        simp
      have h3 : (⌊q⌋ : ℚ) < q := lt_of_le_of_ne h1 h2
      linarith
    · push_cast
      exact le_of_lt (Int.lt_floor_add_one q)

/-- Floor and ceiling of a value between `a` and `b` lie between the floor of `a`
and the ceiling of `b`. -/
theorem floor_ceil_between (a b v : REAL) (h1 : a ≤ v) (h2 : v ≤ b) :
    Rat.floor a ≤ Rat.floor v ∧ Rat.floor v ≤ Rat.ceil v ∧ Rat.ceil v ≤ Rat.ceil b := by
  rw [rat_ceil_eq, rat_ceil_eq]
  exact ⟨Int.floor_mono h1, Int.floor_le_ceil v, Int.ceil_mono h2⟩

/-- An offset inside a window of `W` columns and `H` rows is an index below
`W * H`. -/
theorem index_in_window (a b W H : Int) (ha0 : 0 ≤ a) (ha1 : a < W) (hb0 : 0 ≤ b)
    (hb1 : b < H) : 0 ≤ a + b * W ∧ a + b * W < W * H := by
  constructor
  · have := mul_nonneg hb0 (le_trans ha0 (le_of_lt ha1))
    omega
  · have h1 : (b + 1) * W ≤ H * W :=
      mul_le_mul_of_nonneg_right (by omega) (le_trans ha0 (le_of_lt ha1))
    have h2 : (b + 1) * W = b * W + W := by ring
    have h3 : H * W = W * H := mul_comm _ _
    omega

/-- When `sample_bitmap_pixel` does not answer with the colour for the outside of a
clamped bitmap and the folded coordinates are inside the sample window, it returns
the pixel of the window at those coordinates. -/
theorem sample_bitmap_pixel_inside (src_rect : GpRect) (bits : List ARGB)
    (width height : Nat) (x y : Int) (attributes : GpImageAttributes)
    (hout : ¬ (attributes.wrap = WrapModeClamp ∧
      (x < 0 ∨ y < 0 ∨ int_to_uint x ≥ width ∨ int_to_uint y ≥ height)))
    (fx fy : Int)
    (hfx : fx = if attributes.wrap = WrapModeClamp then x
      else tile_coordinate width (decide (Int.land attributes.wrap 1 = 1)) x)
    (hfy : fy = if attributes.wrap = WrapModeClamp then y
      else tile_coordinate height (decide (Int.land attributes.wrap 2 = 2)) y)
    (hx1 : src_rect.X ≤ fx) (hx2 : fx < src_rect.X + src_rect.Width)
    (hy1 : src_rect.Y ≤ fy) (hy2 : fy < src_rect.Y + src_rect.Height) :
    sample_bitmap_pixel src_rect bits width height x y attributes
      = bits.getD ((fx - src_rect.X) + (fy - src_rect.Y) * src_rect.Width).toNat 0 := by
  have ho : (decide (attributes.wrap = WrapModeClamp) &&
      (decide (x < 0) || decide (y < 0) || decide (int_to_uint x ≥ width) ||
        decide (int_to_uint y ≥ height))) = false := by
    rw [Bool.eq_false_iff]
    intro h
    apply hout
    simp only [Bool.and_eq_true, Bool.or_eq_true, decide_eq_true_eq] at h
    exact ⟨h.1, by have h2 := h.2; omega⟩
  have hin : ¬ (fx < src_rect.X ∨ fy < src_rect.Y ∨ fx ≥ src_rect.X + src_rect.Width ∨
      fy ≥ src_rect.Y + src_rect.Height) := by omega
  unfold sample_bitmap_pixel
  simp only [ho, Bool.false_eq_true, if_false]
  rw [← hfx, ← hfy, if_neg hin]

/-- The coordinates `resample_bitmap_pixel` reads for a point inside the source
rectangle lie between the edges `get_bitmap_sample_size` computes before it clamps
or tiles them, for the five interpolation modes a context stores. -/
theorem resample_coordinates_edges (ext : Ext Rgn Dev) (interpolation : Int)
    (srcx srcy srcwidth srcheight : REAL) (point : GpPointF) (x y : Int)
    (hmode : interpolation = InterpolationModeBilinear ∨
      interpolation = InterpolationModeBicubic ∨
      interpolation = InterpolationModeNearestNeighbor ∨
      interpolation = InterpolationModeHighQualityBilinear ∨
      interpolation = InterpolationModeHighQualityBicubic)
    (hround : ∀ a b : REAL, a ≤ b → ext.gdip_round a ≤ ext.gdip_round b)
    (hx1 : srcx ≤ point.X) (hx2 : point.X < srcx + srcwidth)
    (hy1 : srcy ≤ point.Y) (hy2 : point.Y < srcy + srcheight)
    (hmem : (x, y) ∈ resample_coordinates ext point interpolation) :
    (if (decide (interpolation = InterpolationModeHighQualityBilinear) ||
          decide (interpolation = InterpolationModeHighQualityBicubic) ||
          decide (interpolation = InterpolationModeBicubic) ||
          decide (interpolation = InterpolationModeBilinear)) = true
        then Rat.floor srcx else ext.gdip_round srcx) ≤ x ∧
    x ≤ (if (decide (interpolation = InterpolationModeHighQualityBilinear) ||
          decide (interpolation = InterpolationModeHighQualityBicubic) ||
          decide (interpolation = InterpolationModeBicubic) ||
          decide (interpolation = InterpolationModeBilinear)) = true
        then Rat.ceil (srcx + srcwidth) else ext.gdip_round (srcx + srcwidth)) ∧
    (if (decide (interpolation = InterpolationModeHighQualityBilinear) ||
          decide (interpolation = InterpolationModeHighQualityBicubic) ||
          decide (interpolation = InterpolationModeBicubic) ||
          decide (interpolation = InterpolationModeBilinear)) = true
        then Rat.floor srcy else ext.gdip_round srcy) ≤ y ∧
    y ≤ (if (decide (interpolation = InterpolationModeHighQualityBilinear) ||
          decide (interpolation = InterpolationModeHighQualityBicubic) ||
          decide (interpolation = InterpolationModeBicubic) ||
          decide (interpolation = InterpolationModeBilinear)) = true
        then Rat.ceil (srcy + srcheight) else ext.gdip_round (srcy + srcheight)) := by
  by_cases hnn : interpolation = InterpolationModeNearestNeighbor
  · subst hnn
    have hs : (decide (InterpolationModeNearestNeighbor = InterpolationModeHighQualityBilinear) ||
        decide (InterpolationModeNearestNeighbor = InterpolationModeHighQualityBicubic) ||
        decide (InterpolationModeNearestNeighbor = InterpolationModeBicubic) ||
        decide (InterpolationModeNearestNeighbor = InterpolationModeBilinear)) = false := by
      decide
    simp only [hs, Bool.false_eq_true, if_false]
    simp only [resample_coordinates, if_true, List.mem_singleton, Prod.mk.injEq] at hmem
    obtain ⟨rfl, rfl⟩ := hmem
    exact ⟨hround _ _ hx1, hround _ _ (le_of_lt hx2), hround _ _ hy1,
      hround _ _ (le_of_lt hy2)⟩
  · have hs : (decide (interpolation = InterpolationModeHighQualityBilinear) ||
        decide (interpolation = InterpolationModeHighQualityBicubic) ||
        decide (interpolation = InterpolationModeBicubic) ||
        decide (interpolation = InterpolationModeBilinear)) = true := by
      rcases hmode with h | h | h | h | h
      · simp [h]
      · simp [h]
      · exact absurd h hnn
      · simp [h]
      · simp [h]
    simp only [hs, if_true]
    obtain ⟨a1, a2, a3⟩ := floor_ceil_between srcx (srcx + srcwidth) point.X hx1 (le_of_lt hx2)
    obtain ⟨b1, b2, b3⟩ := floor_ceil_between srcy (srcy + srcheight) point.Y hy1 (le_of_lt hy2)
    simp only [resample_coordinates, if_neg hnn, real_to_int_intCast] at hmem
    split_ifs at hmem
    · simp only [List.mem_singleton, Prod.mk.injEq] at hmem
      obtain ⟨rfl, rfl⟩ := hmem
      omega
    · simp only [List.mem_cons, Prod.mk.injEq, List.mem_singleton, List.not_mem_nil,
        or_false] at hmem
      rcases hmem with ⟨rfl, rfl⟩ | ⟨rfl, rfl⟩ | ⟨rfl, rfl⟩ | ⟨rfl, rfl⟩ <;> omega

/-- One axis of a clamped window: a coordinate inside the bitmap and between the
edges is inside the clamped edges. -/
theorem clamp_axis (l r s x : Int) (hl : l ≤ x) (hr : x ≤ r) (h0 : 0 ≤ x) (hs : x < s) :
    (if l < 0 then 0 else l) ≤ x ∧
    x < (if l < 0 then 0 else l)
      + ((if r ≥ s then s - 1 else r) - (if l < 0 then 0 else l) + 1) := by
  split_ifs <;> omega

/-- One axis of a tiled window: the folded coordinate is inside the window, which is
the whole axis when an edge leaves the bitmap. -/
theorem tile_axis (l r x : Int) (size : Nat) (flip : Bool) (hl : l ≤ x) (hr : x ≤ r)
    (hs1 : 1 ≤ size) (hs2 : size < 2 ^ 31) :
    (if (decide (l < 0) || decide (r ≥ size)) = true then 0 else l)
      ≤ tile_coordinate size flip x ∧
    tile_coordinate size flip x <
      (if (decide (l < 0) || decide (r ≥ size)) = true then 0 else l)
      + ((if (decide (l < 0) || decide (r ≥ size)) = true then (size : Int) - 1 else r)
        - (if (decide (l < 0) || decide (r ≥ size)) = true then 0 else l) + 1) := by
  obtain ⟨h1, h2⟩ := tile_coordinate_range size flip x hs1 hs2
  by_cases ht : (decide (l < 0) || decide (r ≥ size)) = true
  · simp only [ht, if_true]
    omega
  · simp only [ht, if_false, Bool.false_eq_true]
    simp only [Bool.or_eq_true, decide_eq_true_eq, not_or, not_lt, ge_iff_le, not_le] at ht
    rw [tile_coordinate_inside size flip x hs2 (by omega) (by omega)]
    omega

/-- The sample window covers the reads of the five enumerated modes.  Over exact
arithmetic, with `gdip_round` monotone and a bitmap of `width` by `height` pixels,
take one of the five enumerators `GdipSetInterpolationMode` stores (`Bilinear`,
`Bicubic`, `NearestNeighbor`, `HighQualityBilinear`, `HighQualityBicubic`), any
wrap mode, and a point inside the source rectangle.  For every coordinate pair at
which `resample_bitmap_pixel` calls `sample_bitmap_pixel`, either the wrap mode is
`WrapModeClamp`, the pair is outside the bitmap and the call answers with
`outside_color`, or the folded coordinates lie inside the rectangle of
`get_bitmap_sample_size`, the index into the window buffer is below
`Width * Height`, and the call returns the pixel stored there: the branch that
yields `0xffcd0084` is not taken. -/
theorem sample_window_covers_reads (ext : Ext Rgn Dev) (bitmap : GpImage)
    (bits : List ARGB) (width height : Nat) (attributes : GpImageAttributes)
    (interpolation : Int) (srcx srcy srcwidth srcheight : REAL) (point : GpPointF)
    (x y : Int)
    (hmode : interpolation = InterpolationModeBilinear ∨
      interpolation = InterpolationModeBicubic ∨
      interpolation = InterpolationModeNearestNeighbor ∨
      interpolation = InterpolationModeHighQualityBilinear ∨
      interpolation = InterpolationModeHighQualityBicubic)
    (hround : ∀ a b : REAL, a ≤ b → ext.gdip_round a ≤ ext.gdip_round b)
    (hw : bitmap.width = width) (hh : bitmap.height = height)
    (hw1 : 1 ≤ width) (hw2 : width < 2 ^ 31) (hh1 : 1 ≤ height) (hh2 : height < 2 ^ 31)
    (hx1 : srcx ≤ point.X) (hx2 : point.X < srcx + srcwidth)
    (hy1 : srcy ≤ point.Y) (hy2 : point.Y < srcy + srcheight)
    (hmem : (x, y) ∈ resample_coordinates ext point interpolation)
    (hint : -2 ^ 31 ≤ x ∧ x < 2 ^ 31 ∧ -2 ^ 31 ≤ y ∧ y < 2 ^ 31) :
    (attributes.wrap = WrapModeClamp ∧
      (x < 0 ∨ y < 0 ∨ (width : Int) ≤ x ∨ (height : Int) ≤ y) ∧
      sample_bitmap_pixel
        (get_bitmap_sample_size ext interpolation attributes.wrap bitmap srcx srcy
          srcwidth srcheight)
        bits width height x y attributes = attributes.outside_color) ∨
    ∃ fx fy : Int,
      (get_bitmap_sample_size ext interpolation attributes.wrap bitmap srcx srcy
        srcwidth srcheight).X ≤ fx ∧
      fx < (get_bitmap_sample_size ext interpolation attributes.wrap bitmap srcx srcy
          srcwidth srcheight).X
        + (get_bitmap_sample_size ext interpolation attributes.wrap bitmap srcx srcy
          srcwidth srcheight).Width ∧
      (get_bitmap_sample_size ext interpolation attributes.wrap bitmap srcx srcy
        srcwidth srcheight).Y ≤ fy ∧
      fy < (get_bitmap_sample_size ext interpolation attributes.wrap bitmap srcx srcy
          srcwidth srcheight).Y
        + (get_bitmap_sample_size ext interpolation attributes.wrap bitmap srcx srcy
          srcwidth srcheight).Height ∧
      0 ≤ (fx - (get_bitmap_sample_size ext interpolation attributes.wrap bitmap srcx
            srcy srcwidth srcheight).X)
          + (fy - (get_bitmap_sample_size ext interpolation attributes.wrap bitmap srcx
            srcy srcwidth srcheight).Y)
          * (get_bitmap_sample_size ext interpolation attributes.wrap bitmap srcx srcy
            srcwidth srcheight).Width ∧
      (fx - (get_bitmap_sample_size ext interpolation attributes.wrap bitmap srcx srcy
            srcwidth srcheight).X)
          + (fy - (get_bitmap_sample_size ext interpolation attributes.wrap bitmap srcx
            srcy srcwidth srcheight).Y)
          * (get_bitmap_sample_size ext interpolation attributes.wrap bitmap srcx srcy
            srcwidth srcheight).Width
        < (get_bitmap_sample_size ext interpolation attributes.wrap bitmap srcx srcy
            srcwidth srcheight).Width
          * (get_bitmap_sample_size ext interpolation attributes.wrap bitmap srcx srcy
            srcwidth srcheight).Height ∧
      sample_bitmap_pixel
        (get_bitmap_sample_size ext interpolation attributes.wrap bitmap srcx srcy
          srcwidth srcheight)
        bits width height x y attributes
        = bits.getD ((fx - (get_bitmap_sample_size ext interpolation attributes.wrap
              bitmap srcx srcy srcwidth srcheight).X)
            + (fy - (get_bitmap_sample_size ext interpolation attributes.wrap bitmap
              srcx srcy srcwidth srcheight).Y)
            * (get_bitmap_sample_size ext interpolation attributes.wrap bitmap srcx srcy
              srcwidth srcheight).Width).toNat 0 := by
  obtain ⟨e1, e2, e3, e4⟩ := resample_coordinates_edges ext interpolation srcx srcy
    srcwidth srcheight point x y hmode hround hx1 hx2 hy1 hy2 hmem
  obtain ⟨i1, i2, i3, i4⟩ := hint
  by_cases hc : attributes.wrap = WrapModeClamp
  · by_cases hout : x < 0 ∨ y < 0 ∨ (width : Int) ≤ x ∨ (height : Int) ≤ y
    · left
      refine ⟨hc, hout, ?_⟩
      have ho : (decide (attributes.wrap = WrapModeClamp) &&
          (decide (x < 0) || decide (y < 0) || decide (int_to_uint x ≥ width) ||
            decide (int_to_uint y ≥ height))) = true := by
        simp only [Bool.and_eq_true, Bool.or_eq_true, decide_eq_true_eq]
        refine ⟨hc, ?_⟩
        by_cases hxn : x < 0
        · exact Or.inl (Or.inl (Or.inl hxn))
        by_cases hyn : y < 0
        · exact Or.inl (Or.inl (Or.inr hyn))
        rw [int_to_uint_nonneg x (by omega) (by omega),
          int_to_uint_nonneg y (by omega) (by omega)]
        omega
      unfold sample_bitmap_pixel
      simp only [ho, if_true]
    · right
      have hx0 : 0 ≤ x := by omega
      have hy0 : 0 ≤ y := by omega
      have hxw : x < (width : Int) := by omega
      have hyh : y < (height : Int) := by omega
      obtain ⟨cx1, cx2⟩ := clamp_axis _ _ (width : Int) x e1 e2 hx0 hxw
      obtain ⟨cy1, cy2⟩ := clamp_axis _ _ (height : Int) y e3 e4 hy0 hyh
      have hX : (get_bitmap_sample_size ext interpolation attributes.wrap bitmap srcx srcy
          srcwidth srcheight).X ≤ x ∧
          x < (get_bitmap_sample_size ext interpolation attributes.wrap bitmap srcx srcy
              srcwidth srcheight).X
            + (get_bitmap_sample_size ext interpolation attributes.wrap bitmap srcx srcy
              srcwidth srcheight).Width := by
        simp only [get_bitmap_sample_size, if_pos hc, hw]
        exact ⟨cx1, cx2⟩
      have hY : (get_bitmap_sample_size ext interpolation attributes.wrap bitmap srcx srcy
          srcwidth srcheight).Y ≤ y ∧
          y < (get_bitmap_sample_size ext interpolation attributes.wrap bitmap srcx srcy
              srcwidth srcheight).Y
            + (get_bitmap_sample_size ext interpolation attributes.wrap bitmap srcx srcy
              srcwidth srcheight).Height := by
        simp only [get_bitmap_sample_size, if_pos hc, hh]
        exact ⟨cy1, cy2⟩
      obtain ⟨k1, k2⟩ := index_in_window
        (x - (get_bitmap_sample_size ext interpolation attributes.wrap bitmap srcx srcy
          srcwidth srcheight).X)
        (y - (get_bitmap_sample_size ext interpolation attributes.wrap bitmap srcx srcy
          srcwidth srcheight).Y)
        (get_bitmap_sample_size ext interpolation attributes.wrap bitmap srcx srcy
          srcwidth srcheight).Width
        (get_bitmap_sample_size ext interpolation attributes.wrap bitmap srcx srcy
          srcwidth srcheight).Height
        (by have := hX.1; omega) (by have := hX.2; omega) (by have := hY.1; omega)
        (by have := hY.2; omega)
      refine ⟨x, y, hX.1, hX.2, hY.1, hY.2, k1, k2, ?_⟩
      apply sample_bitmap_pixel_inside _ _ _ _ _ _ _ _ x y (by rw [if_pos hc])
        (by rw [if_pos hc]) hX.1 hX.2 hY.1 hY.2
      rintro ⟨_, h⟩
      rw [int_to_uint_nonneg x (by omega) (by omega),
        int_to_uint_nonneg y (by omega) (by omega)] at h
      omega
  · right
    obtain ⟨cx1, cx2⟩ := tile_axis _ _ x width (decide (Int.land attributes.wrap 1 = 1))
      e1 e2 hw1 hw2
    obtain ⟨cy1, cy2⟩ := tile_axis _ _ y height (decide (Int.land attributes.wrap 2 = 2))
      e3 e4 hh1 hh2
    have hX : (get_bitmap_sample_size ext interpolation attributes.wrap bitmap srcx srcy
        srcwidth srcheight).X
          ≤ tile_coordinate width (decide (Int.land attributes.wrap 1 = 1)) x ∧
        tile_coordinate width (decide (Int.land attributes.wrap 1 = 1)) x
          < (get_bitmap_sample_size ext interpolation attributes.wrap bitmap srcx srcy
            srcwidth srcheight).X
          + (get_bitmap_sample_size ext interpolation attributes.wrap bitmap srcx srcy
            srcwidth srcheight).Width := by
      simp only [get_bitmap_sample_size, if_neg hc, hw]
      exact ⟨cx1, cx2⟩
    have hY : (get_bitmap_sample_size ext interpolation attributes.wrap bitmap srcx srcy
        srcwidth srcheight).Y
          ≤ tile_coordinate height (decide (Int.land attributes.wrap 2 = 2)) y ∧
        tile_coordinate height (decide (Int.land attributes.wrap 2 = 2)) y
          < (get_bitmap_sample_size ext interpolation attributes.wrap bitmap srcx srcy
            srcwidth srcheight).Y
          + (get_bitmap_sample_size ext interpolation attributes.wrap bitmap srcx srcy
            srcwidth srcheight).Height := by
      simp only [get_bitmap_sample_size, if_neg hc, hh]
      exact ⟨cy1, cy2⟩
    obtain ⟨k1, k2⟩ := index_in_window
      (tile_coordinate width (decide (Int.land attributes.wrap 1 = 1)) x
        - (get_bitmap_sample_size ext interpolation attributes.wrap bitmap srcx srcy
          srcwidth srcheight).X)
      (tile_coordinate height (decide (Int.land attributes.wrap 2 = 2)) y
        - (get_bitmap_sample_size ext interpolation attributes.wrap bitmap srcx srcy
          srcwidth srcheight).Y)
      (get_bitmap_sample_size ext interpolation attributes.wrap bitmap srcx srcy
        srcwidth srcheight).Width
      (get_bitmap_sample_size ext interpolation attributes.wrap bitmap srcx srcy
        srcwidth srcheight).Height
      (by have := hX.1; omega) (by have := hX.2; omega) (by have := hY.1; omega)
      (by have := hY.2; omega)
    refine ⟨_, _, hX.1, hX.2, hY.1, hY.2, k1, k2, ?_⟩
    apply sample_bitmap_pixel_inside _ _ _ _ _ _ _ _ _ _ (by rw [if_neg hc])
      (by rw [if_neg hc]) hX.1 hX.2 hY.1 hY.2
    rintro ⟨h, _⟩
    exact hc h

/-- Witness of `sample_window_covers_reads`: a 4 x 4 bitmap tiled, bilinear
interpolation, the source rectangle from (3, 0) of size 2 x 1 and the point
(7/2, 1/2); the read at (4, 1) folds into the window. -/
theorem sample_window_covers_reads_witness :
    ∃ fx fy : Int,
      (get_bitmap_sample_size roundExt InterpolationModeBilinear tileAttributes.wrap
        sampleBitmap4 3 0 2 1).X ≤ fx ∧
      fx < (get_bitmap_sample_size roundExt InterpolationModeBilinear tileAttributes.wrap
          sampleBitmap4 3 0 2 1).X
        + (get_bitmap_sample_size roundExt InterpolationModeBilinear tileAttributes.wrap
          sampleBitmap4 3 0 2 1).Width ∧
      (get_bitmap_sample_size roundExt InterpolationModeBilinear tileAttributes.wrap
        sampleBitmap4 3 0 2 1).Y ≤ fy ∧
      fy < (get_bitmap_sample_size roundExt InterpolationModeBilinear tileAttributes.wrap
          sampleBitmap4 3 0 2 1).Y
        + (get_bitmap_sample_size roundExt InterpolationModeBilinear tileAttributes.wrap
          sampleBitmap4 3 0 2 1).Height ∧
      sample_bitmap_pixel
        (get_bitmap_sample_size roundExt InterpolationModeBilinear tileAttributes.wrap
          sampleBitmap4 3 0 2 1)
        indexBits 4 4 4 1 tileAttributes
        = indexBits.getD ((fx - (get_bitmap_sample_size roundExt InterpolationModeBilinear
              tileAttributes.wrap sampleBitmap4 3 0 2 1).X)
            + (fy - (get_bitmap_sample_size roundExt InterpolationModeBilinear
              tileAttributes.wrap sampleBitmap4 3 0 2 1).Y)
            * (get_bitmap_sample_size roundExt InterpolationModeBilinear
              tileAttributes.wrap sampleBitmap4 3 0 2 1).Width).toNat 0 :=
  let ⟨fx, fy, h1, h2, h3, h4, _, _, h7⟩ :=
    (sample_window_covers_reads roundExt sampleBitmap4 indexBits 4 4 tileAttributes
      InterpolationModeBilinear 3 0 2 1 ⟨7 / 2, 1 / 2⟩ 4 1 (Or.inl rfl)
      (fun a b h => Int.floor_mono (show a + 1 / 2 ≤ b + 1 / 2 by linarith))
      rfl rfl (by decide) (by decide) (by decide) (by decide)
      (by norm_num) (by norm_num) (by norm_num) (by norm_num)
      (by
        have f1 : Rat.floor (7 / 2 : REAL) = 3 := by
          show ⌊(7 / 2 : REAL)⌋ = 3
          rw [Int.floor_eq_iff]
          norm_num
        have c1 : Rat.ceil (7 / 2 : REAL) = 4 := by
          rw [rat_ceil_eq, Int.ceil_eq_iff]
          norm_num
        have f2 : Rat.floor (1 / 2 : REAL) = 0 := by
          show ⌊(1 / 2 : REAL)⌋ = 0
          rw [Int.floor_eq_iff]
          norm_num
        have c2 : Rat.ceil (1 / 2 : REAL) = 1 := by
          rw [rat_ceil_eq, Int.ceil_eq_iff]
          norm_num
        simp only [resample_coordinates, f1, c1, f2, c2, real_to_int_intCast]
        decide)
      (by decide)).resolve_left (fun h => absurd h.1 (by decide))
  ⟨fx, fy, h1, h2, h3, h4, h7⟩

/-- The values behind the witness of `sample_window_covers_reads`: the window is the
whole width and the rows 0 and 1, the four reads are at (3, 0), (4, 0), (3, 1) and
(4, 1), and the read at (4, 1) folds to column 0 of row 1, index 4 of the buffer. -/
theorem sample_window_evaluated :
    get_bitmap_sample_size roundExt InterpolationModeBilinear tileAttributes.wrap
      sampleBitmap4 3 0 2 1 = ⟨0, 0, 4, 2⟩ ∧
    resample_coordinates roundExt ⟨7 / 2, 1 / 2⟩ InterpolationModeBilinear
      = [(3, 0), (4, 0), (3, 1), (4, 1)] ∧
    tile_coordinate 4 false 4 = 0 ∧
    sample_bitmap_pixel ⟨0, 0, 4, 2⟩ indexBits 4 4 4 1 tileAttributes = 4 := by
  have f3 : Rat.floor (3 : ℚ) = 3 := by simpa using rat_floor_intCast 3
  have f0 : Rat.floor (0 : ℚ) = 0 := by simpa using rat_floor_intCast 0
  have c5 : Rat.ceil ((3 : ℚ) + 2) = 5 := by
    rw [show (3 : ℚ) + 2 = ((5 : Int) : ℚ) by norm_num, rat_ceil_intCast]
  have c1 : Rat.ceil ((0 : ℚ) + 1) = 1 := by
    rw [show (0 : ℚ) + 1 = ((1 : Int) : ℚ) by norm_num, rat_ceil_intCast]
  have f72 : Rat.floor (7 / 2 : REAL) = 3 := by
    show ⌊(7 / 2 : REAL)⌋ = 3
    rw [Int.floor_eq_iff]
    norm_num
  have c72 : Rat.ceil (7 / 2 : REAL) = 4 := by
    rw [rat_ceil_eq, Int.ceil_eq_iff]
    norm_num
  have f12 : Rat.floor (1 / 2 : REAL) = 0 := by
    show ⌊(1 / 2 : REAL)⌋ = 0
    rw [Int.floor_eq_iff]
    norm_num
  have c12 : Rat.ceil (1 / 2 : REAL) = 1 := by
    rw [rat_ceil_eq, Int.ceil_eq_iff]
    norm_num
  refine ⟨?_, ?_, by decide, by decide⟩
  · simp only [get_bitmap_sample_size, f3, f0, c5, c1]
    decide
  · simp only [resample_coordinates, f72, c72, f12, c12, real_to_int_intCast]
    decide

/-- The list `resample_coordinates` holds every coordinate pair that
`resample_bitmap_pixel` reads: two runs whose `sample_bitmap_pixel` agrees at the
pairs of the list give the same colour. -/
theorem resample_reads_coordinates (ext : Ext Rgn Dev) (src_rect src_rect2 : GpRect)
    (bits bits2 : List ARGB) (width height : Nat) (point : GpPointF)
    (attributes : GpImageAttributes) (interpolation : Int)
    (h : ∀ p ∈ resample_coordinates ext point interpolation,
      sample_bitmap_pixel src_rect bits width height p.1 p.2 attributes
        = sample_bitmap_pixel src_rect2 bits2 width height p.1 p.2 attributes) :
    resample_bitmap_pixel ext src_rect bits width height point attributes interpolation
      = resample_bitmap_pixel ext src_rect2 bits2 width height point attributes
        interpolation := by
  unfold resample_bitmap_pixel
  unfold resample_coordinates at h
  by_cases hnn : interpolation = InterpolationModeNearestNeighbor
  · rw [if_pos hnn] at h
    rw [if_pos hnn, if_pos hnn]
    exact h _ (List.mem_singleton.mpr rfl)
  · rw [if_neg hnn] at h
    rw [if_neg hnn, if_neg hnn]
    dsimp only at h ⊢
    by_cases hs : real_to_int ((Rat.floor point.X : Int) : REAL)
        = real_to_int ((Rat.ceil point.X : Int) : REAL) ∧
        real_to_int ((Rat.floor point.Y : Int) : REAL)
        = real_to_int ((Rat.ceil point.Y : Int) : REAL)
    · rw [if_pos hs] at h
      rw [if_pos hs, if_pos hs]
      simp only [List.mem_singleton, forall_eq] at h
      exact h
    · rw [if_neg hs] at h
      rw [if_neg hs, if_neg hs]
      simp only [List.mem_cons, List.mem_singleton, List.not_mem_nil, or_false,
        forall_eq_or_imp, forall_eq] at h
      obtain ⟨h1, h2, h3, h4⟩ := h
      rw [h1, h2, h3, h4]

/-- C21 (the sample window and the reads): a context can hold an interpolation
mode for which the window does not cover the reads.  The value -2 differs from
`InterpolationModeInvalid` and is not above `InterpolationModeHighQualityBicubic`,
so `GdipSetInterpolationMode` returns Ok and stores it as given.  For it
`get_bitmap_sample_size` takes its `default` branch and rounds the edges, while
`resample_bitmap_pixel` takes its `default` branch and reads at floor and ceiling.
With a tiled 4 x 4 bitmap and the source rectangle from (1/2, 0) of size 1/4 x 1
the window is column 1 alone, rows 0 and 1; the point (1/2, 0) lies inside the
source rectangle and is read at columns 0 and 1; the read at (0, 0) is outside the
window and `sample_bitmap_pixel` returns the value `0xffcd0084`, which is not a
pixel of the buffer. -/
theorem sample_window_misses_read :
    GdipSetInterpolationMode (some freshGraphics) (-2)
      = (Ok, some { freshGraphics with interpolation := -2 }) ∧
    ((1 / 2 : REAL) ≤ 1 / 2 ∧ (1 / 2 : REAL) < 1 / 2 + 1 / 4 ∧
      (0 : REAL) ≤ 0 ∧ (0 : REAL) < 0 + 1) ∧
    get_bitmap_sample_size roundExt (-2) tileAttributes.wrap sampleBitmap4
      (1 / 2) 0 (1 / 4) 1 = ⟨1, 0, 1, 2⟩ ∧
    resample_coordinates roundExt ⟨1 / 2, 0⟩ (-2) = [(0, 0), (1, 0), (0, 0), (1, 0)] ∧
    sample_bitmap_pixel
      (get_bitmap_sample_size roundExt (-2) tileAttributes.wrap sampleBitmap4
        (1 / 2) 0 (1 / 4) 1)
      indexBits 4 4 0 0 tileAttributes = 0xffcd0084 ∧
    0xffcd0084 ∉ indexBits := by
  have r1 : Rat.floor ((1 / 2 : REAL) + 1 / 2) = 1 := by
    rw [show (1 / 2 : REAL) + 1 / 2 = ((1 : Int) : ℚ) by norm_num, rat_floor_intCast]
  have r2 : Rat.floor ((1 / 2 : REAL) + 1 / 4 + 1 / 2) = 1 := by
    show ⌊(1 / 2 : REAL) + 1 / 4 + 1 / 2⌋ = 1
    rw [Int.floor_eq_iff]
    norm_num
  have r3 : Rat.floor ((0 : REAL) + 1 / 2) = 0 := by
    show ⌊(0 : REAL) + 1 / 2⌋ = 0
    rw [Int.floor_eq_iff]
    norm_num
  have r4 : Rat.floor ((0 : REAL) + 1 + 1 / 2) = 1 := by
    show ⌊(0 : REAL) + 1 + 1 / 2⌋ = 1
    rw [Int.floor_eq_iff]
    norm_num
  have f12 : Rat.floor (1 / 2 : REAL) = 0 := by
    show ⌊(1 / 2 : REAL)⌋ = 0
    rw [Int.floor_eq_iff]
    norm_num
  have c12 : Rat.ceil (1 / 2 : REAL) = 1 := by
    rw [rat_ceil_eq, Int.ceil_eq_iff]
    norm_num
  have f0 : Rat.floor (0 : ℚ) = 0 := by simpa using rat_floor_intCast 0
  have c0 : Rat.ceil (0 : ℚ) = 0 := by simpa using rat_ceil_intCast 0
  have hrect : get_bitmap_sample_size roundExt (-2) tileAttributes.wrap sampleBitmap4
      (1 / 2) 0 (1 / 4) 1 = ⟨1, 0, 1, 2⟩ := by
    simp only [get_bitmap_sample_size, roundExt, r1, r2, r3, r4]
    decide
  refine ⟨by decide, ⟨le_refl _, by norm_num, le_refl _, by norm_num⟩, hrect, ?_, ?_,
    by decide⟩
  · simp only [resample_coordinates, f12, c12, f0, c0, real_to_int_intCast]
    decide
  · rw [hrect]
    decide

end Theorems

end Gdiplus
